import Mathlib

/-!
The wind-vector procedural wind field.

A shallow embedding of `assets/js/wind-vector-core.js`, `wind-vector-systems.js`
and `wind-vector-ui.js`.

Numbers are elements of a linearly ordered field `α` with a floor function (the
JavaScript doubles read as exact numbers: no rounding, no NaN, no overflow), so
every definition runs on `ℚ`.  The transcendental functions of the JavaScript
`Math` object are a parameter `M : MathLib α`; a theorem names the facts about
them it uses.  Each `Math.random()` call is an explicit argument (a draw).
-/

namespace WindVector

/-! ## The host environment -/

/-- The functions and the constant of the JavaScript `Math` object that the
program calls and that are not field operations. -/
structure MathLib (α : Type) where
  sin : α → α
  cos : α → α
  exp : α → α
  sqrt : α → α
  /-- The call `Math.atan2(y, x)`. -/
  atan2 : α → α → α
  PI : α

/-- The exception a property read on `undefined` raises. -/
inductive JSError where
  | typeError
  deriving DecidableEq, Repr

/-- What reading `obj[key]` on an object literal yields: an own property, a
property of `Object.prototype` (a function or object: truthy, and without the
fields of an entry), or `undefined`. -/
inductive PropertyRead (β : Type) where
  | own (v : β)
  | inherited
  | undefined

/-- The property names every object literal inherits from `Object.prototype`. -/
def objectPrototypeKeys : List String :=
  ["constructor", "__defineGetter__", "__defineSetter__", "hasOwnProperty",
   "__lookupGetter__", "__lookupSetter__", "isPrototypeOf", "propertyIsEnumerable",
   "toString", "valueOf", "__proto__", "toLocaleString"]

/-- The read `obj[key]` for an object literal with the given own properties. -/
def readProperty {β : Type} (obj : List (String × β)) (key : String) : PropertyRead β :=
  match obj.lookup key with
  | some v => PropertyRead.own v
  | none => if key ∈ objectPrototypeKeys then PropertyRead.inherited else PropertyRead.undefined

/-- The call `Math.round(t)`: the nearest integer, halves towards plus infinity. -/
def jsRound {α : Type} [LinearOrderedField α] [FloorRing α] (t : α) : ℤ := ⌊t + 0.5⌋

/-- Rounding to the nearest integer, a half to the even neighbour. -/
def roundTiesToEven {α : Type} [LinearOrderedField α] [FloorRing α] (y : α) : ℤ :=
  let f := ⌊y⌋
  let d := y - (f : α)
  if d < 1 / 2 then f
  else if 1 / 2 < d then f + 1
  else if f % 2 = 0 then f else f + 1

/-- The conversion of a number to binary32 that a store into a `Float32Array`
performs (the function `Math.fround`): the nearest multiple of the spacing
`2 ^ (e - 23)` of the binade `2 ^ e ≤ |x| < 2 ^ (e + 1)` of the number, a half
to the even neighbour, with the spacing `2 ^ (-149)` below `2 ^ (-126)`.  A
value of `2 ^ 128` or more, which the conversion turns into an infinity, is
outside the numbers of this development. -/
def fround {α : Type} [LinearOrderedField α] [FloorRing α] (x : α) : α :=
  if x = 0 then 0
  else
    let e := max (Int.log 2 |x|) (-126)
    let q : α := (2 : α) ^ (e - 23)
    (roundTiesToEven (x / q) : α) * q

section Core

variable {α : Type} [LinearOrderedField α] [FloorRing α]

/-! ## Constants -/

/-- The constant `CONSTANTS.GRID.RANGE`. -/
def GRID_RANGE : ℤ := 9
/-- The constant `CONSTANTS.GRID.SPACING`. -/
def GRID_SPACING : ℤ := 2
/-- The constant `CONSTANTS.FLIGHT_LEVELS.MIN`. -/
def FLIGHT_LEVELS_MIN : ℤ := 50
/-- The constant `CONSTANTS.FLIGHT_LEVELS.INCREMENT`. -/
def FLIGHT_LEVELS_INCREMENT : ℤ := 50
/-- The constant `CONSTANTS.FLIGHT_LEVELS.COUNT`. -/
def FLIGHT_LEVELS_COUNT : ℤ := 10
/-- The constant `CONSTANTS.HURRICANE.CATEGORY_WINDS`. -/
def CATEGORY_WINDS : List ℕ := [0, 74, 96, 111, 131, 157]
/-- The constant `CONSTANTS.HURRICANE.EYE_BASE_RADIUS`. -/
def EYE_BASE_RADIUS : α := 0.5
/-- The constant `CONSTANTS.HURRICANE.EYE_RADIUS_SCALE`. -/
def EYE_RADIUS_SCALE : α := 0.2
/-- The constant `CONSTANTS.HURRICANE.EYEWALL_OFFSET`. -/
def EYEWALL_OFFSET : α := 0.8
/-- The constant `CONSTANTS.HURRICANE.SPIRAL_BASE_RADIUS`. -/
def SPIRAL_BASE_RADIUS : α := 8
/-- The constant `CONSTANTS.HURRICANE.SPIRAL_RADIUS_SCALE`. -/
def SPIRAL_RADIUS_SCALE : α := 2
/-- The constant `CONSTANTS.WIND_SPEED.BASE_ALTITUDE_FACTOR`. -/
def BASE_ALTITUDE_FACTOR : α := 2.5
/-- The constant `CONSTANTS.WIND_SPEED.MIN`. -/
def SPEED_MIN : α := 5
/-- The constant `CONSTANTS.WIND_SPEED.MAX`. -/
def SPEED_MAX : α := 100

/-! ## Region catalogue -/

/-- An entry of `StateCoordinates`: `{ center: [lat, lng], zoom }`. -/
structure StateEntry (α : Type) where
  center : α × α
  zoom : ℕ

/-- The table `StateCoordinates`. -/
def StateCoordinates : List (String × StateEntry α) :=
  [("Alabama",        ⟨(32.806671,  -86.791130), 7⟩),
   ("Alaska",         ⟨(61.370716, -152.404419), 4⟩),
   ("Arizona",        ⟨(33.729759, -111.431221), 7⟩),
   ("Arkansas",       ⟨(34.969704,  -92.373123), 7⟩),
   ("California",     ⟨(36.116203, -119.681564), 6⟩),
   ("Colorado",       ⟨(39.059811, -105.311104), 7⟩),
   ("Connecticut",    ⟨(41.597782,  -72.755371), 8⟩),
   ("Delaware",       ⟨(39.318523,  -75.507141), 8⟩),
   ("Florida",        ⟨(27.766279,  -81.686783), 6⟩),
   ("Georgia",        ⟨(33.040619,  -83.643074), 7⟩),
   ("Hawaii",         ⟨(21.094318, -157.498337), 7⟩),
   ("Idaho",          ⟨(44.240459, -114.478828), 6⟩),
   ("Illinois",       ⟨(40.349457,  -88.986137), 7⟩),
   ("Indiana",        ⟨(39.849426,  -86.258278), 7⟩),
   ("Iowa",           ⟨(42.011539,  -93.210526), 7⟩),
   ("Kansas",         ⟨(38.526600,  -96.726486), 7⟩),
   ("Kentucky",       ⟨(37.668140,  -84.670067), 7⟩),
   ("Louisiana",      ⟨(31.169546,  -91.867805), 7⟩),
   ("Maine",          ⟨(44.693947,  -69.381927), 7⟩),
   ("Maryland",       ⟨(39.063946,  -76.802101), 8⟩),
   ("Massachusetts",  ⟨(42.230171,  -71.530106), 8⟩),
   ("Michigan",       ⟨(43.326618,  -84.536095), 7⟩),
   ("Minnesota",      ⟨(45.694454,  -93.900192), 7⟩),
   ("Mississippi",    ⟨(32.741646,  -89.678696), 7⟩),
   ("Missouri",       ⟨(38.456085,  -92.288368), 7⟩),
   ("Montana",        ⟨(46.921925, -110.454353), 6⟩),
   ("Nebraska",       ⟨(41.125370,  -98.268082), 7⟩),
   ("Nevada",         ⟨(38.313515, -117.055374), 6⟩),
   ("New Hampshire",  ⟨(43.452492,  -71.563896), 8⟩),
   ("New Jersey",     ⟨(40.298904,  -74.521011), 8⟩),
   ("New Mexico",     ⟨(34.840515, -106.248482), 7⟩),
   ("New York",       ⟨(42.165726,  -74.948051), 7⟩),
   ("North Carolina", ⟨(35.630066,  -79.806419), 7⟩),
   ("North Dakota",   ⟨(47.528912,  -99.784012), 7⟩),
   ("Ohio",           ⟨(40.388783,  -82.764915), 7⟩),
   ("Oklahoma",       ⟨(35.565342,  -96.928917), 7⟩),
   ("Oregon",         ⟨(44.572021, -122.070938), 6⟩),
   ("Pennsylvania",   ⟨(40.590752,  -77.209755), 7⟩),
   ("Rhode Island",   ⟨(41.680893,  -71.511780), 9⟩),
   ("South Carolina", ⟨(33.856892,  -80.945007), 7⟩),
   ("South Dakota",   ⟨(44.299782,  -99.438828), 7⟩),
   ("Tennessee",      ⟨(35.747845,  -86.692345), 7⟩),
   ("Texas",          ⟨(31.054487,  -97.563461), 6⟩),
   ("Utah",           ⟨(40.150032, -111.862434), 7⟩),
   ("Vermont",        ⟨(44.045876,  -72.710686), 8⟩),
   ("Virginia",       ⟨(37.769337,  -78.169968), 7⟩),
   ("Washington",     ⟨(47.400902, -121.490494), 7⟩),
   ("West Virginia",  ⟨(38.491226,  -80.954453), 7⟩),
   ("Wisconsin",      ⟨(44.268543,  -89.616508), 7⟩),
   ("Wyoming",        ⟨(42.755966, -107.302490), 7⟩)]

/-- The region names of the catalogue, `Object.keys(StateCoordinates)`. -/
def stateNames : List String :=
  ["Alabama", "Alaska", "Arizona", "Arkansas", "California", "Colorado", "Connecticut",
   "Delaware", "Florida", "Georgia", "Hawaii", "Idaho", "Illinois", "Indiana", "Iowa",
   "Kansas", "Kentucky", "Louisiana", "Maine", "Maryland", "Massachusetts", "Michigan",
   "Minnesota", "Mississippi", "Missouri", "Montana", "Nebraska", "Nevada", "New Hampshire",
   "New Jersey", "New Mexico", "New York", "North Carolina", "North Dakota", "Ohio",
   "Oklahoma", "Oregon", "Pennsylvania", "Rhode Island", "South Carolina", "South Dakota",
   "Tennessee", "Texas", "Utah", "Vermont", "Virginia", "Washington", "West Virginia",
   "Wisconsin", "Wyoming"]

/-- The function `calculateSquareBounds(center, size)`: the two corners. -/
def calculateSquareBounds (M : MathLib α) (center : α × α) (size : α) : (α × α) × (α × α) :=
  let latSize := size
  let lngSize := size / M.cos (center.1 * M.PI / 180)
  ((center.1 - latSize / 2, center.2 - lngSize / 2),
   (center.1 + latSize / 2, center.2 + lngSize / 2))

/-- The function `determineWindPattern(center)` with `center = [lat, lng]`. -/
def determineWindPattern (center : α × α) : String :=
  let lat := center.1
  let lng := center.2
  if lng < -120 then "pacific"
  else if lat > 40 ∧ lng > -85 then "nor_easter"
  else if lat < 35 ∧ lng > -90 then "gulf_stream"
  else if lng > -105 ∧ lng < -90 then "plains"
  else if lat < 40 ∧ lng < -105 then "desert"
  else "continental"

/-- The table `sizeMap` of `getStateData`, read at a zoom level. -/
def sizeMap (zoom : ℕ) : Option α :=
  if zoom = 4 then some 20
  else if zoom = 6 then some 10
  else if zoom = 7 then some 5
  else if zoom = 8 then some 2.5
  else if zoom = 9 then some 1.25
  else none

/-- The record `getStateData` returns. -/
structure StateData (α : Type) where
  center : α × α
  zoom : ℕ
  bounds : (α × α) × (α × α)
  windPattern : String

/-- The function `getStateData(stateName)`.  `Except.ok none` is the result
`null`.  A name inherited from `Object.prototype` reads a truthy value that
passes the guard `if (!state) return null`; its `center` is `undefined` and
`calculateSquareBounds` raises on `center[0]`. -/
def getStateData (M : MathLib α) (stateName : String) : Except JSError (Option (StateData α)) :=
  match readProperty (StateCoordinates : List (String × StateEntry α)) stateName with
  | PropertyRead.undefined => Except.ok none
  | PropertyRead.inherited => Except.error JSError.typeError
  | PropertyRead.own state =>
    let boundsSize := (sizeMap state.zoom).getD 5
    let bounds := calculateSquareBounds M state.center boundsSize
    Except.ok (some
      { center := state.center
        zoom := state.zoom
        bounds := bounds
        windPattern := determineWindPattern state.center })

/-! ## Simulation state -/

/-- The fields of `Config.settings` the wind model reads.  A position is the
pair `(x, z)`. -/
structure Settings (α : Type) where
  state : String
  thunderstormActive : Bool
  thunderstormPosition : α × α
  hurricaneActive : Bool
  hurricanePosition : α × α
  hurricaneIntensity : ℕ

/-- The simulation clock `AppState.currentDate` and `AppState.currentTime.hour`.
`time` is `currentDate.getTime()` in milliseconds and `yearStart` is the time of
`new Date(currentDate.getFullYear(), 0, 0)`, which the calendar derives from it. -/
structure Clock where
  time : ℤ
  yearStart : ℤ
  hour : ℤ

/-- A `THREE.Vector3`. -/
structure Vec3 (α : Type) where
  x : α
  y : α
  z : α

/-- The method `Vector3.length()`. -/
def Vec3.length (M : MathLib α) (v : Vec3 α) : α :=
  M.sqrt (v.x * v.x + v.y * v.y + v.z * v.z)

/-- The method `Vector3.normalize()`, that is `divideScalar(length() || 1)`,
where `divideScalar(s)` multiplies by `1 / s`. -/
def Vec3.normalize (M : MathLib α) (v : Vec3 α) : Vec3 α :=
  let l := v.length M
  let s := if l = 0 then 1 else l
  ⟨v.x * (1 / s), v.y * (1 / s), v.z * (1 / s)⟩

/-! ## Utils -/

/-- The function `Utils.calculateDistance(pos1, pos2)` on `(x, z)` pairs. -/
def calculateDistance (M : MathLib α) (pos1 pos2 : α × α) : α :=
  M.sqrt ((pos1.1 - pos2.1) ^ 2 + (pos1.2 - pos2.2) ^ 2)

/-- The function `Utils.getRandomPosition()` on its two draws. -/
def getRandomPosition (r1 r2 : α) : α × α := (r1 * 16 - 8, r2 * 16 - 8)

/-! ## WindCalculator -/

/-- The local `eyeRadius` of the hurricane functions. -/
def eyeRadius (I : ℕ) : α := EYE_BASE_RADIUS + ((I : α) * EYE_RADIUS_SCALE)

/-- The local `eyeWallRadius` of the hurricane functions. -/
def eyeWallRadius (I : ℕ) : α := eyeRadius I + EYEWALL_OFFSET

/-- The local `spiralRadius` of the hurricane functions. -/
def spiralRadius (I : ℕ) : α := SPIRAL_BASE_RADIUS + ((I : α) * SPIRAL_RADIUS_SCALE)

/-- The local `timeSeed`: `AppState.currentDate.getTime() + AppState.currentTime.hour`. -/
def timeSeed (c : Clock) : α := ((c.time + c.hour : ℤ) : α)

/-- The method `WindCalculator.hurricaneVertical(x, y, z)`. -/
def hurricaneVertical (M : MathLib α) (s : Settings α) (x y z : α) : α :=
  let dist := calculateDistance M (x, z) s.hurricanePosition
  let eyeR : α := eyeRadius s.hurricaneIntensity
  let eyeWallR : α := eyeWallRadius s.hurricaneIntensity
  let spiralR : α := spiralRadius s.hurricaneIntensity
  let maxY : α := ((FLIGHT_LEVELS_COUNT * GRID_SPACING : ℤ) : α)
  if dist < eyeR then -0.6
  else if dist < eyeWallR then
    let altFactor := 1 - (y / maxY) * 0.5
    0.9 * altFactor
  else if dist < spiralR then
    let bandIntensity := 1 - ((dist - eyeWallR) / (spiralR - eyeWallR))
    0.5 * bandIntensity
  else if y > maxY * 0.7 then -0.35
  else -0.1

/-- The method `WindCalculator.thunderstormVertical(x, y, z)`. -/
def thunderstormVertical (M : MathLib α) (s : Settings α) (x y z : α) : α :=
  let dist := calculateDistance M (x, z) s.thunderstormPosition
  let maxY : α := ((FLIGHT_LEVELS_COUNT * GRID_SPACING : ℤ) : α)
  let stormInfluence := M.exp (-dist / 3)
  let altFactor := M.sin ((y / maxY) * M.PI)
  if dist < 2 then 0.95 * altFactor + 0.2
  else if dist < 5 then 0.6 * stormInfluence * altFactor
  else -0.25 * stormInfluence

/-- The method `WindCalculator.calculateVerticalComponent(x, y, z)`. -/
def calculateVerticalComponent (M : MathLib α) (s : Settings α) (x y z : α) : α :=
  if s.hurricaneActive then hurricaneVertical M s x y z
  else if s.thunderstormActive then thunderstormVertical M s x y z
  else
    let maxY : α := ((FLIGHT_LEVELS_COUNT * GRID_SPACING : ℤ) : α)
    let altFraction := y / maxY
    let pattern := M.sin (x * 0.5 + z * 0.4) * 0.25 + M.cos (x * 0.35 - z * 0.5) * 0.15
    pattern * (1 - altFraction * 0.5)

/-- The method `WindCalculator.calculateHurricaneEffect(x, y, z)`; `r` is the
draw `Math.random()` of the eye branch. -/
def calculateHurricaneEffect (M : MathLib α) (s : Settings α) (r : α) (x y z : α) : α :=
  let dx := x - s.hurricanePosition.1
  let dz := z - s.hurricanePosition.2
  let distanceFromCenter := calculateDistance M (x, z) s.hurricanePosition
  let eyeRadius : α := eyeRadius s.hurricaneIntensity
  let eyeWallRadius : α := eyeWallRadius s.hurricaneIntensity
  let spiralRadius : α := spiralRadius s.hurricaneIntensity
  if distanceFromCenter < eyeRadius then r * 60 - 30
  else
    let hurricaneAngle := M.atan2 dz dx * 180 / M.PI
    if distanceFromCenter < eyeWallRadius then
      let spiralAngle := hurricaneAngle + 90 - 15
      let altitudeEffect := M.sin ((y / 10) * M.PI) * 10
      spiralAngle + altitudeEffect
    else if distanceFromCenter < spiralRadius then
      let spiralIntensity :=
        1 - ((distanceFromCenter - eyeWallRadius) / (spiralRadius - eyeWallRadius))
      let spiralAngle := hurricaneAngle + 90 - (30 * spiralIntensity)
      let bandEffect := M.sin (distanceFromCenter * 2 + hurricaneAngle * 0.1) * 15
      let shearEffect := if y > 6 then (y - 6) * 5 else 0
      spiralAngle + bandEffect + shearEffect
    else if y > 8 then
      let outflowAngle := hurricaneAngle - 90
      let outflowIntensity := M.exp (-(distanceFromCenter - spiralRadius) / 3)
      outflowAngle * outflowIntensity * 0.3
    else 0

/-- The method `WindCalculator.calculateThunderstormEffect(x, y, z)`; `r` is the
draw `Math.random()` of the branch within 3 units of the storm. -/
def calculateThunderstormEffect (M : MathLib α) (s : Settings α) (r : α) (x y z : α) : α :=
  let dx := x - s.thunderstormPosition.1
  let dz := z - s.thunderstormPosition.2
  let distanceFromStorm := calculateDistance M (x, z) s.thunderstormPosition
  let stormAngle := M.atan2 dz dx * 180 / M.PI
  let rotationStrength := M.exp (-distanceFromStorm / 3) * 180
  let verticalComponent := M.sin ((y / 10) * M.PI) * 45
  let turbulence := (M.sin (x * 3 + y * 2 + z * 2.5) + M.cos (x * 2 + y * 2.5 + z * 2)) * 30
  let effect := stormAngle + rotationStrength + verticalComponent + turbulence
  if distanceFromStorm < 3 then effect + (r * 60 - 30) else effect

/-- The method `WindCalculator.getAltitudeWindPattern(flightLevel, x, z)`: the
first band with `flightLevel <= max`; the last band has `max = Infinity`. -/
def getAltitudeWindPattern (M : MathLib α) (flightLevel x z : α) : α :=
  if flightLevel ≤ 100 then M.sin ((x + z) * 0.6) * 25 + M.cos (x * 0.8) * 15
  else if flightLevel ≤ 200 then M.sin ((x - z) * 0.4) * 20 + M.cos (z * 0.7) * 18
  else if flightLevel ≤ 300 then M.cos ((x + z) * 0.3) * 15 + M.sin (x * 0.5) * 12
  else if flightLevel ≤ 400 then 30 + M.sin (z * 0.2) * 10 + M.cos (x * 0.3) * 8
  else 45 + M.cos ((x - z) * 0.2) * 12 + M.sin (x * 0.25) * 6

/-- The keys of the two `patterns` tables of the calculator. -/
def patternKeys : List String :=
  ["nor_easter", "gulf_stream", "continental", "desert", "pacific", "plains"]

/-- The local `seededRandom` of the regional functions. -/
def seededRandom (M : MathLib α) (c : Clock) (x y z : α) : α :=
  (M.sin (timeSeed c + x * 1000 + y * 100 + z * 10) + 1) / 2

/-- The method `WindCalculator.getRegionalWindPattern(pattern, x, y, z)`; a key
outside the table contributes 0. -/
def getRegionalWindPattern (M : MathLib α) (c : Clock) (pattern : String) (x y z : α) : α :=
  let seededRandom := seededRandom M c x y z
  let randomFactor := M.sin (timeSeed c * 0.001 + x * 0.3 + y * 0.5 + z * 0.7) * 15
  randomFactor +
    (if pattern = "nor_easter" then (z * 2) + M.sin (y * 0.8) * 15 + (seededRandom * 18 - 9)
     else if pattern = "gulf_stream" then
       (x * 1.2) + M.cos (y * 0.6) * 12 + (seededRandom * 16 - 8)
     else if pattern = "continental" then
       (x + z) * 0.8 + M.sin (y * 0.5) * 18 + (seededRandom * 22 - 11)
     else if pattern = "desert" then
       let thermalEffect := max 0 (1 - (y / 10))
       M.sin (x * 0.4) * 10 * thermalEffect + M.cos (y * 0.7) * 20 + (seededRandom * 14 - 7)
     else if pattern = "pacific" then
       let jetStreamEffect := min 1 (y / 8)
       25 * jetStreamEffect + (z * 1.5) + M.sin (y * 0.4) * 25 + (seededRandom * 16 - 8)
     else if pattern = "plains" then
       (x - z) * 1.2 + M.cos (y * 0.6) * 16 + (seededRandom * 25 - 12.5)
     else 0)

/-- The method `WindCalculator.getTimeBasedVariation(x, y, z)`. -/
def getTimeBasedVariation (M : MathLib α) (c : Clock) (x y z : α) : α :=
  M.sin (timeSeed c + x * 30 + y * 40 + z * 35) * (5 + y * 2)

/-- The method `WindCalculator.generateDirection(x, y, z, windPattern)`; `r` is
the draw of the storm effect. -/
def generateDirection (M : MathLib α) (s : Settings α) (c : Clock) (r : α)
    (x y z : α) (windPattern : String) : Vec3 α :=
  let flightLevel : α :=
    (FLIGHT_LEVELS_MIN : α) + ((y / (GRID_SPACING : α)) * (FLIGHT_LEVELS_INCREMENT : α))
  let storm : α :=
    if s.hurricaneActive then calculateHurricaneEffect M s r x y z
    else if s.thunderstormActive then calculateThunderstormEffect M s r x y z
    else 0
  let directionAngle :=
    0 + storm + getAltitudeWindPattern M flightLevel x z
      + getRegionalWindPattern M c windPattern x y z
      + getTimeBasedVariation M c x y z
  let angleRad := (directionAngle * M.PI) / 180
  let hx := M.cos angleRad
  let hz := M.sin angleRad
  let vy := calculateVerticalComponent M s x y z
  Vec3.normalize M ⟨hx, vy, hz⟩

/-- The method `WindCalculator.calculateHurricaneSpeed(x, y, z)`; `r` is the
draw of the eye branch.  `none` is the NaN that an intensity outside the table
`CATEGORY_WINDS` (an `undefined` `maxWind`) gives in the eyewall and the
spiral band. -/
def calculateHurricaneSpeed (M : MathLib α) (s : Settings α) (r : α) (x y z : α) : Option α :=
  let distanceFromCenter := calculateDistance M (x, z) s.hurricanePosition
  let eyeRadius : α := eyeRadius s.hurricaneIntensity
  let eyeWallRadius : α := eyeWallRadius s.hurricaneIntensity
  let spiralRadius : α := spiralRadius s.hurricaneIntensity
  let maxWind : Option α := (CATEGORY_WINDS[s.hurricaneIntensity]?).map (fun w => (w : α))
  if distanceFromCenter < eyeRadius then some (5 + r * 10)
  else if distanceFromCenter < eyeWallRadius then
    maxWind.map (fun maxWind =>
      let eyeWallIntensity :=
        1 - ((distanceFromCenter - eyeRadius) / (eyeWallRadius - eyeRadius))
      let speed := maxWind * 0.7 + (maxWind * 0.3 * eyeWallIntensity)
      let turbulence := (M.sin (x * 3 + y * 2 + z * 2.5) + M.cos (x * 2 + y * 2.5 + z * 2)) * 20
      let speed := speed + turbulence
      let verticalProfile := M.sin ((y / 10) * M.PI)
      speed * (0.7 + verticalProfile * 0.3))
  else if distanceFromCenter < spiralRadius then
    maxWind.map (fun maxWind =>
      let bandIntensity :=
        1 - ((distanceFromCenter - eyeWallRadius) / (spiralRadius - eyeWallRadius))
      let speed := maxWind * 0.3 + (maxWind * 0.4 * bandIntensity)
      let bandVariation := M.sin (distanceFromCenter * 1.5) * 15
      let feederBandEffect := M.cos (distanceFromCenter * 0.8) * 10
      speed + bandVariation + feederBandEffect)
  else
    let speed := 10 + (y * 2.5)
    let speed :=
      if y > 8 then
        let outflowIntensity := M.exp (-(distanceFromCenter - spiralRadius) / 4)
        speed + outflowIntensity * 25
      else
        let inflowIntensity := M.exp (-(distanceFromCenter - spiralRadius) / 6)
        speed + inflowIntensity * 15
    some (max 5 speed)

/-- The method `WindCalculator.calculateThunderstormSpeed(x, y, z)`; `r` is the
draw of the severe-gust branch. -/
def calculateThunderstormSpeed (M : MathLib α) (s : Settings α) (r : α) (x y z : α) : α :=
  let distanceFromStorm := calculateDistance M (x, z) s.thunderstormPosition
  let stormInfluence := M.exp (-distanceFromStorm / 4)
  let verticalDevelopment := M.sin ((y / 10) * M.PI) * 30
  let turbulence :=
    (M.sin (x * 2.5 + y * 1.8 + z * 2.2) + M.cos (x * 1.8 + y * 2.2 + z * 1.5)) * 15
  let stormEffect := (verticalDevelopment + turbulence) * stormInfluence
  let additionalSpeed := stormEffect
  if distanceFromStorm < 3 ∧ y > 2 then max additionalSpeed (60 + (r * 20))
  else additionalSpeed

/-- The method `WindCalculator.getRegionalSpeedModifier(pattern, x, y, z)`; a
key outside the table contributes 0. -/
def getRegionalSpeedModifier (M : MathLib α) (c : Clock) (pattern : String) (x y z : α) : α :=
  let seededRandom := seededRandom M c x y z
  if pattern = "nor_easter" then (x + 10) * 1.8 + M.sin (z * 0.4) * 8 + (seededRandom * 18 - 9)
  else if pattern = "gulf_stream" then M.sin ((z + 10) * 0.3) * 12 + (seededRandom * 16 - 8)
  else if pattern = "continental" then
    M.cos (x * 0.6) * M.sin (z * 0.5) * 15 + (seededRandom * 22 - 11)
  else if pattern = "desert" then
    let thermalEffect := |x| + |z|
    let thermalBoost : α := if c.hour ≥ 10 ∧ c.hour ≤ 16 then 8 else 0
    thermalEffect * 0.8 + M.sin (y * 0.4) * 10 + (seededRandom * 14 - 7) + thermalBoost
  else if pattern = "pacific" then (10 - x) * 2.0 + M.cos (y * 0.3) * 6 + (seededRandom * 16 - 8)
  else if pattern = "plains" then M.sin ((x + z) * 0.4) * 12 + (seededRandom * 25 - 12.5)
  else 0

/-- The local `dayOfYear` of `calculateSpeed`. -/
def dayOfYear (α : Type) [LinearOrderedField α] [FloorRing α] (c : Clock) : ℤ :=
  ⌊(((c.time - c.yearStart : ℤ) : α)) / 1000 / 60 / 60 / 24⌋

/-- The method `WindCalculator.calculateSpeed(pattern, x, y, z)`; `r` is the
draw of the storm branch.  `none` is NaN, see `calculateHurricaneSpeed`. -/
def calculateSpeed (M : MathLib α) (s : Settings α) (c : Clock) (r : α)
    (pattern : String) (x y z : α) : Option α :=
  let baseSpeed : α := 10 + (y * BASE_ALTITUDE_FACTOR)
  let hourFactor := M.sin (((c.hour : α) / 24) * 2 * M.PI) * 5
  let dayOfYear : ℤ := dayOfYear α c
  let seasonalFactor := M.cos (((dayOfYear : α) / 365) * 2 * M.PI) * 8
  let speed : Option α :=
    if s.hurricaneActive then calculateHurricaneSpeed M s r x y z
    else if s.thunderstormActive then some (baseSpeed + calculateThunderstormSpeed M s r x y z)
    else some baseSpeed
  speed.map (fun speed =>
    let speed := speed + (getRegionalSpeedModifier M c pattern x y z + hourFactor + seasonalFactor)
    max SPEED_MIN (min SPEED_MAX speed))

/-! ## WindGenerator -/

/-- A grid key: the position `(x, y, z)` of a cube, which the lookup map
prints as the string `x,y,z`. -/
abbrev GridKey := ℤ × ℤ × ℤ

/-- A wind cube: its `position` and its `userData`.  `speed` is
`Math.round(speed)`, with `none` for NaN. -/
structure Cube (α : Type) where
  position : GridKey
  speed : Option ℤ
  flightLevel : ℤ
  yLevel : α
  windDirection : Vec3 α

/-- The method `Map.prototype.set` on an insertion-ordered list of entries. -/
def mapSet {V : Type} (m : List (GridKey × V)) (k : GridKey) (v : V) : List (GridKey × V) :=
  if m.any (fun e => e.1 == k) then m.map (fun e => if e.1 = k then (k, v) else e)
  else m ++ [(k, v)]

/-- The method `Map.prototype.get`; `none` is `undefined`. -/
def mapGet {V : Type} (m : List (GridKey × V)) (k : GridKey) : Option V := m.lookup k

/-- The fields of `AppState` that hold the generated field; `windFieldMap` is
`null` before the first generation. -/
structure AppState (α : Type) where
  windCubes : List (Cube α)
  windFieldMap : Option (List (GridKey × Vec3 α))

/-- The draws of one grid cell: the one `calculateSpeed` may consume and the
one `generateDirection` may consume. -/
structure CellDraws (α : Type) where
  speed : α
  direction : α

/-- The values of `for (v = -RANGE; v <= RANGE; v += SPACING)`. -/
def gridAxis : List ℤ :=
  (List.range ((2 * GRID_RANGE / GRID_SPACING).toNat + 1)).map
    (fun i => -GRID_RANGE + GRID_SPACING * (i : ℤ))

/-- The values of `for (y = 0; y < FLIGHT_LEVELS.COUNT; y++)`. -/
def gridLevels : List ℤ := (List.range FLIGHT_LEVELS_COUNT.toNat).map (fun i => (i : ℤ))

/-- The iterations `(x, y, z)` of the three nested loops of `generateGrid`, in
order; `y` is the level index. -/
def gridCells : List GridKey :=
  gridAxis.flatMap (fun x => gridLevels.flatMap (fun y => gridAxis.map (fun z => (x, y, z))))

/-- The positions of the cubes `generateGrid` creates: `(x, y * SPACING, z)`. -/
def gridKeys : List GridKey := gridCells.map (fun k => (k.1, k.2.1 * GRID_SPACING, k.2.2))

/-- The method `WindGenerator.clearExisting()`. -/
def clearExisting (a : AppState α) : AppState α := { a with windCubes := [] }

/-- The method `WindGenerator.createCube(x, y, z, speed, flightLevel)` on the
list `AppState.windCubes`; `r` is the draw of `generateDirection`. -/
def createCube (M : MathLib α) (s : Settings α) (c : Clock) (r : α) (windCubes : List (Cube α))
    (x y z : ℤ) (speed : Option ℤ) (flightLevel : ℤ) : Except JSError (List (Cube α)) :=
  match getStateData M s.state with
  | Except.error e => Except.error e
  | Except.ok none => Except.ok windCubes
  | Except.ok (some stateData) =>
    let windPattern := stateData.windPattern
    let windDirection := generateDirection M s c r (x : α) (y : α) (z : α) windPattern
    let cube : Cube α :=
      { position := (x, y, z)
        speed := speed
        flightLevel := flightLevel
        yLevel := (y : α) / (GRID_SPACING : α)
        windDirection := windDirection }
    Except.ok (windCubes ++ [cube])

/-- The body of the innermost loop of `generateGrid` at the iteration `k`. -/
def generateCell (M : MathLib α) (s : Settings α) (c : Clock) (rand : GridKey → CellDraws α)
    (windPattern : String) (windCubes : List (Cube α)) (k : GridKey) :
    Except JSError (List (Cube α)) :=
  let x := k.1
  let y := k.2.1
  let z := k.2.2
  let flightLevel := FLIGHT_LEVELS_MIN + (y * FLIGHT_LEVELS_INCREMENT)
  let speed :=
    calculateSpeed M s c (rand k).speed windPattern (x : α) ((y * GRID_SPACING : ℤ) : α) (z : α)
  createCube M s c (rand k).direction windCubes x (y * GRID_SPACING) z (speed.map jsRound)
    flightLevel

/-- The cube that the iteration `k` of `generateGrid` appends when the region
is known and has the pattern `windPattern`. -/
def cellCube (M : MathLib α) (s : Settings α) (c : Clock) (rand : GridKey → CellDraws α)
    (windPattern : String) (k : GridKey) : Cube α :=
  { position := (k.1, k.2.1 * GRID_SPACING, k.2.2)
    speed :=
      (calculateSpeed M s c (rand k).speed windPattern (k.1 : α)
        ((k.2.1 * GRID_SPACING : ℤ) : α) (k.2.2 : α)).map jsRound
    flightLevel := FLIGHT_LEVELS_MIN + (k.2.1 * FLIGHT_LEVELS_INCREMENT)
    yLevel := ((k.2.1 * GRID_SPACING : ℤ) : α) / (GRID_SPACING : α)
    windDirection :=
      generateDirection M s c (rand k).direction (k.1 : α)
        ((k.2.1 * GRID_SPACING : ℤ) : α) (k.2.2 : α) windPattern }

/-- The lookup map `generateGrid` builds from the cubes. -/
def buildWindFieldMap (windCubes : List (Cube α)) : List (GridKey × Vec3 α) :=
  windCubes.foldl (fun m cube => mapSet m cube.position cube.windDirection) []

/-- The method `WindGenerator.generateGrid()`; `rand` gives the draws of each
iteration. -/
def generateGrid (M : MathLib α) (s : Settings α) (c : Clock) (rand : GridKey → CellDraws α)
    (a : AppState α) : Except JSError (AppState α) :=
  let a := clearExisting a
  match getStateData M s.state with
  | Except.error e => Except.error e
  | Except.ok none => Except.ok a
  | Except.ok (some stateData) =>
    let windPattern := stateData.windPattern
    match gridCells.foldlM (generateCell M s c rand windPattern) a.windCubes with
    | Except.error e => Except.error e
    | Except.ok windCubes =>
      Except.ok { windCubes := windCubes, windFieldMap := some (buildWindFieldMap windCubes) }

/-- The key set of the generated field: the positions of the cubes and the
keys of the lookup map. -/
def fieldKeys (a : AppState α) : List GridKey × Option (List GridKey) :=
  (a.windCubes.map Cube.position, a.windFieldMap.map (fun m => m.map Prod.fst))

/-! ## ParticleSystem sampling -/

/-- The method `ParticleSystem._gridCell(px, py, pz)`. -/
def gridCell (px py pz : α) : GridKey :=
  let spacing := GRID_SPACING
  let range := GRID_RANGE
  let cx := max (-range) (min range (jsRound (px / (spacing : α)) * spacing))
  let cy := max 0 (min ((FLIGHT_LEVELS_COUNT - 1) * spacing) (jsRound (py / (spacing : α)) * spacing))
  let cz := max (-range) (min range (jsRound (pz / (spacing : α)) * spacing))
  (cx, cy, cz)

/-- The method `ParticleSystem._sampleWindDirection(px, py, pz)`. -/
def sampleWindDirection (a : AppState α) (px py pz : α) : Vec3 α :=
  match a.windFieldMap with
  | none => ⟨1, 0, 0⟩
  | some m => (mapGet m (gridCell px py pz)).getD ⟨1, 0, 0⟩

/-- The world box `ParticleSystem.GRID_BOUNDS`. -/
def inGridBounds (px py pz : α) : Prop :=
  -((GRID_RANGE : α) + 1) ≤ px ∧ px ≤ (GRID_RANGE : α) + 1 ∧
  -0.5 ≤ py ∧ py ≤ ((FLIGHT_LEVELS_COUNT * GRID_SPACING : ℤ) : α) ∧
  -((GRID_RANGE : α) + 1) ≤ pz ∧ pz ≤ (GRID_RANGE : α) + 1

/-! ## Storm controls -/

/-- The value of the `storm-mode` radio group. -/
inductive StormMode where
  | none
  | hurricane
  | thunderstorm
  deriving DecidableEq, Repr

/-- The settings and the generated field. -/
structure Sim (α : Type) where
  settings : Settings α
  app : AppState α

/-- The method `WindGenerator.regenerate()`, on the generated field. -/
def regenerate (M : MathLib α) (c : Clock) (rand : GridKey → CellDraws α) (w : Sim α) :
    Except JSError (Sim α) :=
  match generateGrid M w.settings c rand w.app with
  | Except.error e => Except.error e
  | Except.ok a => Except.ok { w with app := a }

/-- The assignment `Config.settings[positionKey] = p` of `onStormToggle`, where
`positionKey` is `hurricanePosition` for the hurricane and
`thunderstormPosition` otherwise. -/
def setStormPosition (stormType : StormMode) (p : α × α) (s : Settings α) : Settings α :=
  if stormType = StormMode.hurricane then { s with hurricanePosition := p }
  else { s with thunderstormPosition := p }

/-- The method `UIManager.onStormToggle(stormType, isActive)`; `p` is the
result of `Utils.getRandomPosition()`. -/
def onStormToggle (M : MathLib α) (c : Clock) (rand : GridKey → CellDraws α) (p : α × α)
    (stormType : StormMode) (isActive : Bool) (w : Sim α) : Except JSError (Sim α) :=
  if isActive then
    regenerate M c rand { w with settings := setStormPosition stormType p w.settings }
  else regenerate M c rand w

/-- The two flag assignments of the `storm-mode` handler. -/
def setStormFlags (mode : StormMode) (s : Settings α) : Settings α :=
  { s with
    thunderstormActive := decide (mode = StormMode.thunderstorm)
    hurricaneActive := decide (mode = StormMode.hurricane) }

/-- The `change` handler of the `storm-mode` radio group in
`UIManager.setupStormControls`. -/
def stormModeChange (M : MathLib α) (c : Clock) (rand : GridKey → CellDraws α) (p : α × α)
    (mode : StormMode) (w : Sim α) : Except JSError (Sim α) :=
  let w := { w with settings := setStormFlags mode w.settings }
  if mode = StormMode.none then onStormToggle M c rand p StormMode.none false w
  else onStormToggle M c rand p mode true w

/-- The initial `Config.settings`. -/
def defaultSettings : Settings α :=
  { state := "Florida"
    thunderstormActive := false
    thunderstormPosition := (0, 0)
    hurricaneActive := false
    hurricanePosition := (0, 0)
    hurricaneIntensity := 3 }

/-- The function `clamp(v, lo, hi)` of the speed formula: `v` limited to
the interval from `lo` to `hi`. -/
def clamp (v lo hi : α) : α := max lo (min hi v)

/-- The local `turbulence` of `calculateThunderstormSpeed`. -/
def thunderstormTurbulence (M : MathLib α) (x y z : α) : α :=
  (M.sin (x * 2.5 + y * 1.8 + z * 2.2) + M.cos (x * 1.8 + y * 2.2 + z * 1.5)) * 15

/-! ## TimeControls -/

/-- The calendar of the JavaScript `Date` object, on millisecond timestamps:
`addDays t n` is the time of the copy `d = new Date(t)` after
`d.setDate(d.getDate() + n)`, and `yearStart t` is the time of
`new Date(d.getFullYear(), 0, 0)`. -/
structure Calendar where
  addDays : ℤ → ℤ → ℤ
  yearStart : ℤ → ℤ

/-- The calendar of `Date` in a time zone with one change of the clocks: local
time is `offsetBefore` ms ahead of UTC before the instant `transition` and
`offsetAfter` ms from then on.  `setDate(getDate() + n)` adds `n` days to the
local time and reads the result in the zone; a local time that exists twice
or not at all (skipped by the change) is read with the offset before the
change, as ECMAScript prescribes.  `yearStart` is given for the year of
interest. -/
def zoneCalendar (transition offsetBefore offsetAfter : ℤ) (yearStart : ℤ → ℤ) : Calendar :=
  { addDays := fun t n =>
      let localTime := t + (if t < transition then offsetBefore else offsetAfter)
      let l := localTime + n * 86400000
      if l - offsetBefore < transition then l - offsetBefore
      else if transition ≤ l - offsetAfter then l - offsetAfter
      else l - offsetBefore
    yearStart := yearStart }

/-- The method `TimeControls.changeDate(days)`, on the clock.  The calls
`updateDisplay()` and `WindGenerator.regenerate()` that follow the assignment
of `AppState.currentDate` do not write the clock. -/
def changeDate (K : Calendar) (days : ℤ) (c : Clock) : Clock :=
  let newDate := K.addDays c.time days
  { c with time := newDate, yearStart := K.yearStart newDate }

/-- The method `TimeControls.changeTime(hours)`, on the clock. -/
def changeTime (K : Calendar) (hours : ℤ) (c : Clock) : Clock :=
  let c := { c with hour := c.hour + hours }
  if c.hour ≥ 24 then changeDate K 1 { c with hour := 0 }
  else if c.hour < 0 then changeDate K (-1) { c with hour := 23 }
  else c

/-! ## ParticleSystem -/

/-- The option `ParticleSystem.OPTIONS.COUNT`. -/
def ParticleSystem.COUNT : ℕ := 100
/-- The option `ParticleSystem.OPTIONS.SPEED_SCALE`. -/
def ParticleSystem.SPEED_SCALE : α := 0.05
/-- The option `ParticleSystem.OPTIONS.LIFETIME_MIN`. -/
def ParticleSystem.LIFETIME_MIN : α := 80
/-- The option `ParticleSystem.OPTIONS.LIFETIME_MAX`. -/
def ParticleSystem.LIFETIME_MAX : α := 240
/-- The option `ParticleSystem.OPTIONS.LINE_LENGTH`. -/
def ParticleSystem.LINE_LENGTH : α := 2.5
/-- The bounds `GRID_BOUNDS.xMin` and `GRID_BOUNDS.zMin`. -/
def ParticleSystem.xMin : α := -((GRID_RANGE : α) + 1)
/-- The bounds `GRID_BOUNDS.xMax` and `GRID_BOUNDS.zMax`. -/
def ParticleSystem.xMax : α := (GRID_RANGE : α) + 1
/-- The bound `GRID_BOUNDS.yMin`. -/
def ParticleSystem.yMin : α := -0.5
/-- The bound `GRID_BOUNDS.yMax`. -/
def ParticleSystem.yMax : α := ((FLIGHT_LEVELS_COUNT * GRID_SPACING : ℤ) : α)

/-- A tracer: entry `i` of the arrays `particlePos`, `velocities`, `lifetimes`
and `maxLife`, and the two vertices (head, tail) of its line in
`linePositions`. -/
structure Particle (α : Type) where
  pos : Vec3 α
  vel : Vec3 α
  lifetime : α
  maxLife : α
  head : Vec3 α
  tail : Vec3 α

/-- The state the particle system reads and writes: the generated field, the
property `AppState.windSpeedMap` (`none` is `undefined`; the object literal
`AppState` does not declare it), and `AppState.particleData` (`none` is
`null`). -/
structure FlowState (α : Type) where
  app : AppState α
  windSpeedMap : Option (List (GridKey × α))
  particleData : Option (List (Particle α))

/-- The state at start-up: no cubes, `windFieldMap: null`, no `windSpeedMap`
property, no particles. -/
def FlowState.initial : FlowState α := ⟨⟨[], none⟩, none, none⟩

/-- The method `WindGenerator.generateGrid()` on the state of the particle
system: it assigns `AppState.windCubes` and `AppState.windFieldMap` and no
other property. -/
def generateGridFlow (M : MathLib α) (s : Settings α) (c : Clock)
    (rand : GridKey → CellDraws α) (w : FlowState α) : Except JSError (FlowState α) :=
  match generateGrid M s c rand w.app with
  | Except.error e => Except.error e
  | Except.ok a => Except.ok { w with app := a }

/-- The method `ParticleSystem._sampleWindSpeed(px, py, pz)`; a stored 0 is
falsy and gives the default. -/
def ParticleSystem.sampleWindSpeed (w : FlowState α) (px py pz : α) : α :=
  match w.windSpeedMap with
  | none => SPEED_MIN
  | some m =>
    match mapGet m (gridCell px py pz) with
    | none => SPEED_MIN
    | some v => if v = 0 then SPEED_MIN else v

/-- The method `ParticleSystem._scaledSpeed(px, py, pz)`. -/
def ParticleSystem.scaledSpeed (w : FlowState α) (px py pz : α) : α :=
  let ws := ParticleSystem.sampleWindSpeed w px py pz
  let t := max 0 (min 1 ((ws - SPEED_MIN) / (SPEED_MAX - SPEED_MIN)))
  ParticleSystem.SPEED_SCALE * (0.4 + t * 2.6)

/-- The velocity that `_resetParticle` and `resample` assign to a tracer at
`(px, py, pz)`: `(dir.x * speed, 0, dir.z * speed)`. -/
def ParticleSystem.sampleVelocity (w : FlowState α) (px py pz : α) : Vec3 α :=
  let dir := sampleWindDirection w.app px py pz
  let speed := ParticleSystem.scaledSpeed w px py pz
  ⟨dir.x * speed, 0, dir.z * speed⟩

/-- The draws of one `_resetParticle` call, in order: the three coordinates,
the lifetime, and (only when `randomLifetime`) the age. -/
structure ResetDraws (α : Type) where
  x : α
  y : α
  z : α
  life : α
  age : α

/-- The contract of `Math.random()`: a number in [0, 1). -/
def ResetDraws.inRange (d : ResetDraws α) : Prop :=
  (0 ≤ d.x ∧ d.x < 1) ∧ (0 ≤ d.y ∧ d.y < 1) ∧ (0 ≤ d.z ∧ d.z < 1) ∧
  (0 ≤ d.life ∧ d.life < 1) ∧ (0 ≤ d.age ∧ d.age < 1)

/-- The position at which `_resetParticle` spawns a tracer. -/
def ParticleSystem.spawnPosition (d : ResetDraws α) : Vec3 α :=
  ⟨ParticleSystem.xMin + d.x * (ParticleSystem.xMax - ParticleSystem.xMin),
   ParticleSystem.yMin + d.y * (ParticleSystem.yMax - ParticleSystem.yMin),
   ParticleSystem.xMin + d.z * (ParticleSystem.xMax - ParticleSystem.xMin)⟩

/-- The method `ParticleSystem._resetParticle(..., i, randomLifetime)` on entry
`i`; it does not write `linePositions`. -/
def ParticleSystem.resetParticle (w : FlowState α) (d : ResetDraws α) (randomLifetime : Bool)
    (p : Particle α) : Particle α :=
  let q := ParticleSystem.spawnPosition d
  let life := ParticleSystem.LIFETIME_MIN
    + d.life * (ParticleSystem.LIFETIME_MAX - ParticleSystem.LIFETIME_MIN)
  { p with
    pos := q
    vel := ParticleSystem.sampleVelocity w q.x q.y q.z
    maxLife := life
    lifetime := if randomLifetime then d.age * life else life }

/-- The method `ParticleSystem.build()`: `COUNT` tracers, each reset with a
random age and its line collapsed to the spawn position. -/
def ParticleSystem.build (draws : ℕ → ResetDraws α) (w : FlowState α) : FlowState α :=
  let w := { w with particleData := none }
  let particles := (List.range ParticleSystem.COUNT).map (fun i =>
    let p := ParticleSystem.resetParticle w (draws i) true
      ⟨⟨0, 0, 0⟩, ⟨0, 0, 0⟩, 0, 0, ⟨0, 0, 0⟩, ⟨0, 0, 0⟩⟩
    { p with head := p.pos, tail := p.pos })
  { w with particleData := some particles }

/-- The body of the loop of `ParticleSystem.update()` for one tracer. -/
def ParticleSystem.updateParticle (M : MathLib α) (w : FlowState α) (d : ResetDraws α)
    (p : Particle α) : Particle α :=
  let vx := p.vel.x
  let vy := p.vel.y
  let vz := p.vel.z
  let px := p.pos.x + vx
  let py := p.pos.y + vy
  let pz := p.pos.z + vz
  let lifetime := p.lifetime - 1
  let p := { p with pos := ⟨px, py, pz⟩, lifetime := lifetime }
  if lifetime ≤ 0 ∨ px < ParticleSystem.xMin ∨ px > ParticleSystem.xMax ∨
      py < ParticleSystem.yMin ∨ py > ParticleSystem.yMax ∨
      pz < ParticleSystem.xMin ∨ pz > ParticleSystem.xMax then
    let p := ParticleSystem.resetParticle w d false p
    { p with head := p.pos, tail := p.pos }
  else
    let l := M.sqrt (vx * vx + vz * vz)
    let vLen := if l = 0 then 1 else l
    { p with
      head := ⟨px, py, pz⟩
      tail := ⟨px - (vx / vLen) * ParticleSystem.LINE_LENGTH, py,
               pz - (vz / vLen) * ParticleSystem.LINE_LENGTH⟩ }

/-- The loop of `ParticleSystem.update()` from index `i` on. -/
def ParticleSystem.updateFrom (M : MathLib α) (w : FlowState α) (draws : ℕ → ResetDraws α) :
    ℕ → List (Particle α) → List (Particle α)
  | _, [] => []
  | i, p :: ps =>
    ParticleSystem.updateParticle M w (draws i) p
      :: ParticleSystem.updateFrom M w draws (i + 1) ps

/-- The method `ParticleSystem.update()`: one tick. -/
def ParticleSystem.update (M : MathLib α) (draws : ℕ → ResetDraws α) (w : FlowState α) :
    FlowState α :=
  match w.particleData with
  | none => w
  | some ps => { w with particleData := some (ParticleSystem.updateFrom M w draws 0 ps) }

/-- A run of ticks, each with its own draws. -/
def ParticleSystem.run (M : MathLib α) (ticks : List (ℕ → ResetDraws α)) (w : FlowState α) :
    FlowState α :=
  ticks.foldl (fun w draws => ParticleSystem.update M draws w) w

/-- The method `ParticleSystem.resample()`. -/
def ParticleSystem.resample (w : FlowState α) : FlowState α :=
  match w.particleData with
  | none => w
  | some ps =>
    { w with
      particleData := some (ps.map (fun p =>
        { p with vel := ParticleSystem.sampleVelocity w p.pos.x p.pos.y p.pos.z })) }

/-! ## StormSystem and the storm controls -/

/-- The class of an object that `StormSystem` puts into the scene: the
`THREE.LineSegments` of `_finalize` or the `THREE.PointLight`. -/
inductive StormObjectKind where
  | lines
  | light
  deriving DecidableEq, Repr

/-- An object that `StormSystem` created with `new`: `id` is its identity (the
number of objects created before it), `storm` the method that created it
(`_buildHurricane` or `_buildThunderstorm`). -/
structure SceneObject where
  id : ℕ
  kind : StormObjectKind
  storm : StormMode
  deriving DecidableEq, Repr

/-- The state that `StormSystem.build` and `StormSystem.dispose` write:
`_type`, `AppState.stormParticleSystem`, `_light` (`none` is `null`), the
objects of `StormSystem` among the children of `AppState.scene`, in order, and
the number of objects created so far. -/
structure StormSystemState where
  type : Option StormMode
  stormParticleSystem : Option SceneObject
  light : Option SceneObject
  scene : List SceneObject
  created : ℕ

/-- The method `StormSystem.dispose()`; `scene.remove(object)` takes the
object out of the children when it is among them. -/
def StormSystem.dispose (st : StormSystemState) : StormSystemState :=
  let st :=
    match st.stormParticleSystem with
    | some lines => { st with scene := st.scene.erase lines, stormParticleSystem := none }
    | none => st
  let st :=
    match st.light with
    | some light => { st with scene := st.scene.erase light, light := none }
    | none => st
  { st with type := none }

/-- The method `StormSystem._finalize(linePositions, extra, color)` called by
the builder of `storm`: it creates the line segments, adds them to the scene and
stores them in `AppState.stormParticleSystem`. -/
def StormSystem.finalize (storm : StormMode) (st : StormSystemState) : StormSystemState :=
  let lines : SceneObject := ⟨st.created, StormObjectKind.lines, storm⟩
  { st with
    scene := st.scene ++ [lines]
    stormParticleSystem := some lines
    created := st.created + 1 }

/-- The end of `_buildHurricane` and `_buildThunderstorm`: the light is
created, stored in `_light` and added to the scene. -/
def StormSystem.addLight (storm : StormMode) (st : StormSystemState) : StormSystemState :=
  let light : SceneObject := ⟨st.created, StormObjectKind.light, storm⟩
  { st with
    light := some light
    scene := st.scene ++ [light]
    created := st.created + 1 }

/-- The method `StormSystem.build(type)`: `_buildHurricane` and
`_buildThunderstorm` each create the line segments (`_finalize`) and the
light. -/
def StormSystem.build (type : StormMode) (st : StormSystemState) : StormSystemState :=
  let st := StormSystem.dispose st
  let st := { st with type := some type }
  let st :=
    if type = StormMode.hurricane then
      StormSystem.addLight StormMode.hurricane (StormSystem.finalize StormMode.hurricane st)
    else st
  if type = StormMode.thunderstorm then
    StormSystem.addLight StormMode.thunderstorm (StormSystem.finalize StormMode.thunderstorm st)
  else st

/-- The settings, the generated field and the storm particle system. -/
structure StormUI (α : Type) where
  sim : Sim α
  storm : StormSystemState

/-- The method `UIManager.onStormToggle(stormType, isActive)` with its calls
of `StormSystem`: `build` after the regeneration, `dispose` before it. -/
def UIManager.onStormToggle (M : MathLib α) (c : Clock) (rand : GridKey → CellDraws α)
    (p : α × α) (stormType : StormMode) (isActive : Bool) (u : StormUI α) :
    Except JSError (StormUI α) :=
  if isActive then
    match regenerate M c rand
        { u.sim with settings := setStormPosition stormType p u.sim.settings } with
    | Except.error e => Except.error e
    | Except.ok sim => Except.ok { sim := sim, storm := StormSystem.build stormType u.storm }
  else
    let storm := StormSystem.dispose u.storm
    match regenerate M c rand u.sim with
    | Except.error e => Except.error e
    | Except.ok sim => Except.ok { sim := sim, storm := storm }

/-- The `change` handler of the `storm-mode` radio group with its calls of
`StormSystem`. -/
def UIManager.stormModeChange (M : MathLib α) (c : Clock) (rand : GridKey → CellDraws α)
    (p : α × α) (mode : StormMode) (u : StormUI α) : Except JSError (StormUI α) :=
  let u := { u with sim := { u.sim with settings := setStormFlags mode u.sim.settings } }
  if mode = StormMode.none then UIManager.onStormToggle M c rand p StormMode.none false u
  else UIManager.onStormToggle M c rand p mode true u

/-- The storm kind that the two flags of the settings select; the hurricane
flag is tested first, as in `generateDirection` and `calculateSpeed`. -/
def activeKind (s : Settings α) : Option StormMode :=
  if s.hurricaneActive then some StormMode.hurricane
  else if s.thunderstormActive then some StormMode.thunderstorm
  else none

/-- A storm-mode selection: the mode chosen, the position
`Utils.getRandomPosition()` would return, and the draws of the regeneration. -/
structure StormSelection (α : Type) where
  mode : StormMode
  position : α × α
  rand : GridKey → CellDraws α

/-- A sequence of storm-mode selections, from the state `u`. -/
def UIManager.selectStorms (M : MathLib α) (c : Clock) (steps : List (StormSelection α))
    (u : StormUI α) : Except JSError (StormUI α) :=
  steps.foldlM (fun u st => UIManager.stormModeChange M c st.rand st.position st.mode u) u

/-- The method `StateManager.updateState(stateName)`, on the settings and the
generated field; `MapManager.updateState(stateData)` writes the map underlay
only. -/
def StateManager.updateState (M : MathLib α) (c : Clock) (rand : GridKey → CellDraws α)
    (stateName : String) (w : Sim α) : Except JSError (Sim α) :=
  let w := { w with settings := { w.settings with state := stateName } }
  match getStateData M stateName with
  | Except.error e => Except.error e
  | Except.ok none => Except.ok w
  | Except.ok (some _) => regenerate M c rand w

/-! ## The edition `assets/js/wind-vector-core.js` -/

/-- The method `WindCalculator.calculateHurricaneSpeed(x, y, z)` of the edition
`assets/js/wind-vector-core.js`.  It differs from the edition under `_site`
in the spiral band only, where `bandVariation` reads the wall clock: `now` is
the value of `Date.now()`. -/
def Assets.calculateHurricaneSpeed (M : MathLib α) (s : Settings α) (now : ℤ) (r : α)
    (x y z : α) : Option α :=
  let distanceFromCenter := calculateDistance M (x, z) s.hurricanePosition
  let eyeRadius : α := eyeRadius s.hurricaneIntensity
  let eyeWallRadius : α := eyeWallRadius s.hurricaneIntensity
  let spiralRadius : α := spiralRadius s.hurricaneIntensity
  let maxWind : Option α := (CATEGORY_WINDS[s.hurricaneIntensity]?).map (fun w => (w : α))
  if distanceFromCenter < eyeRadius then some (5 + r * 10)
  else if distanceFromCenter < eyeWallRadius then
    maxWind.map (fun maxWind =>
      let eyeWallIntensity :=
        1 - ((distanceFromCenter - eyeRadius) / (eyeWallRadius - eyeRadius))
      let speed := maxWind * 0.7 + (maxWind * 0.3 * eyeWallIntensity)
      let turbulence := (M.sin (x * 3 + y * 2 + z * 2.5) + M.cos (x * 2 + y * 2.5 + z * 2)) * 20
      let speed := speed + turbulence
      let verticalProfile := M.sin ((y / 10) * M.PI)
      speed * (0.7 + verticalProfile * 0.3))
  else if distanceFromCenter < spiralRadius then
    maxWind.map (fun maxWind =>
      let bandIntensity :=
        1 - ((distanceFromCenter - eyeWallRadius) / (spiralRadius - eyeWallRadius))
      let speed := maxWind * 0.3 + (maxWind * 0.4 * bandIntensity)
      let bandVariation := M.sin (distanceFromCenter * 1.5 + (now : α) * 0.001) * 15
      let feederBandEffect := M.cos (distanceFromCenter * 0.8) * 10
      speed + bandVariation + feederBandEffect)
  else
    let speed := 10 + (y * 2.5)
    let speed :=
      if y > 8 then
        let outflowIntensity := M.exp (-(distanceFromCenter - spiralRadius) / 4)
        speed + outflowIntensity * 25
      else
        let inflowIntensity := M.exp (-(distanceFromCenter - spiralRadius) / 6)
        speed + inflowIntensity * 15
    some (max 5 speed)

/-! ## Altitude bands -/

/-- The `max` fields of the array `patterns` of `getAltitudeWindPattern`;
`none` is `Infinity`. -/
def altitudeBandMaxima : List (Option α) := [some 100, some 200, some 300, some 400, none]

/-- The index of the entry that `patterns.find(p => flightLevel <= p.max)`
returns; `none` when no entry matches and the result is `undefined`. -/
def altitudeBandIndex (flightLevel : α) : Option ℕ :=
  (altitudeBandMaxima : List (Option α)).findIdx? (fun m =>
    match m with
    | some v => decide (flightLevel ≤ v)
    | none => true)

/-- The value `fn()` of entry `k` of the array `patterns`. -/
def altitudeBandValue (M : MathLib α) (k : ℕ) (x z : α) : α :=
  match k with
  | 0 => M.sin ((x + z) * 0.6) * 25 + M.cos (x * 0.8) * 15
  | 1 => M.sin ((x - z) * 0.4) * 20 + M.cos (z * 0.7) * 18
  | 2 => M.cos ((x + z) * 0.3) * 15 + M.sin (x * 0.5) * 12
  | 3 => 30 + M.sin (z * 0.2) * 10 + M.cos (x * 0.3) * 8
  | _ => 45 + M.cos ((x - z) * 0.2) * 12 + M.sin (x * 0.25) * 6

/-- The local `flightLevel` of `generateDirection` at altitude `y`. -/
def flightLevelAt (y : α) : α :=
  (FLIGHT_LEVELS_MIN : α) + ((y / (GRID_SPACING : α)) * (FLIGHT_LEVELS_INCREMENT : α))

/-! ## ArrowSystem -/

/-- The constant `ArrowSystem.INSTANCE_COUNT`. -/
def ArrowSystem.INSTANCE_COUNT : ℕ := 1000

/-- The method `Vector3.applyAxisAngle(axis, angle)` of three.js:
`applyQuaternion` of the quaternion `setFromAxisAngle(axis, angle)`. -/
def Vec3.applyAxisAngle (M : MathLib α) (v axis : Vec3 α) (angle : α) : Vec3 α :=
  let halfAngle := angle / 2
  let s := M.sin halfAngle
  let qx := axis.x * s
  let qy := axis.y * s
  let qz := axis.z * s
  let qw := M.cos halfAngle
  let tx := 2 * (qy * v.z - qz * v.y)
  let ty := 2 * (qz * v.x - qx * v.z)
  let tz := 2 * (qx * v.y - qy * v.x)
  ⟨v.x + qw * tx + qy * tz - qz * ty,
   v.y + qw * ty + qz * tx - qx * tz,
   v.z + qw * tz + qx * ty - qy * tx⟩

/-- The local `phaseOffset` of `ArrowSystem.update`: the wobble angle of the
glyph of a cube at `(x, _, z)` with the stored speed `speed`, at time `t`. -/
def ArrowSystem.phaseOffset (M : MathLib α) (t x z speed : α) : α :=
  M.sin (t * 0.4 + x * 0.31 + z * 0.17) * 0.08 * (speed / SPEED_MAX)

/-- The local `wobbled` of `ArrowSystem.update`: the normalised direction,
turned about the axis (0, 1, 0) by the wobble angle and normalised again. -/
def ArrowSystem.wobbled (M : MathLib α) (dir : Vec3 α) (phaseOffset : α) : Vec3 α :=
  Vec3.normalize M (Vec3.applyAxisAngle M (Vec3.normalize M dir) ⟨0, 1, 0⟩ phaseOffset)

/-- The colour `ArrowSystem.update` sets: `setHex` or `setRGB`. -/
inductive ArrowColor (α : Type) where
  | hex (n : ℕ)
  | rgb (r g b : α)

/-- The instance `ArrowSystem.update` writes for a cube: collapsed (scale 0 at
(0, -9999, 0)), or placed with the glyph axis `wobbled`; `invalid` stands for
the NaN matrix of a cube whose stored speed is NaN. -/
inductive ArrowInstance (α : Type) where
  | hidden
  | placed (wobbled : Vec3 α) (position : Vec3 α) (scale : α) (color : ArrowColor α)
  | invalid

/-- The body of the loop of `ArrowSystem.update(visibleYLevel, time)` for one
cube; `visibleYLevel = none` is `null`. -/
def ArrowSystem.arrowInstance (M : MathLib α) (visibleYLevel : Option α) (t : α) (cube : Cube α) :
    ArrowInstance α :=
  if visibleYLevel.isSome ∧ some cube.yLevel ≠ visibleYLevel then ArrowInstance.hidden
  else
    match cube.speed with
    | none => ArrowInstance.invalid
    | some sp =>
      let speed : α := (sp : α)
      let pos : Vec3 α := ⟨(cube.position.1 : α), (cube.position.2.1 : α), (cube.position.2.2 : α)⟩
      let phaseOffset := ArrowSystem.phaseOffset M t pos.x pos.z speed
      let wobbled := ArrowSystem.wobbled M cube.windDirection phaseOffset
      let speedRatio := min 1 ((speed - SPEED_MIN) / (SPEED_MAX - SPEED_MIN))
      let color : ArrowColor α :=
        if speedRatio < 0.5 then ArrowColor.hex 0x00ddff
        else
          let warmT := (speedRatio - 0.5) * 2
          ArrowColor.rgb 1.0 (0.5 - warmT * 0.3) (0.1 - warmT * 0.1)
      ArrowInstance.placed wobbled ⟨pos.x, pos.y + 1.5, pos.z⟩ 0.75 color

/-- The instances `ArrowSystem.update` writes, one for each index
`i < cubes.length && i < INSTANCE_COUNT`. -/
def ArrowSystem.update (M : MathLib α) (visibleYLevel : Option α) (t : α)
    (cubes : List (Cube α)) : List (ArrowInstance α) :=
  (cubes.take ArrowSystem.INSTANCE_COUNT).map (ArrowSystem.arrowInstance M visibleYLevel t)

/-! ## StormSystem particles -/

/-- The option `StormSystem.OPTIONS.HURRICANE_PARTICLES`. -/
def StormSystem.HURRICANE_PARTICLES : ℕ := 600
/-- The option `StormSystem.OPTIONS.THUNDERSTORM_PARTICLES`. -/
def StormSystem.THUNDERSTORM_PARTICLES : ℕ := 400
/-- The option `StormSystem.OPTIONS.HURRICANE_ROTATION_SPEED`. -/
def StormSystem.HURRICANE_ROTATION_SPEED : α := 0.008
/-- The option `StormSystem.OPTIONS.THUNDERSTORM_RISE_SPEED`. -/
def StormSystem.THUNDERSTORM_RISE_SPEED : α := 0.04
/-- The option `StormSystem.OPTIONS.LINE_LENGTH`. -/
def StormSystem.LINE_LENGTH : α := 0.6
/-- The local `COLUMN_R` of the thunderstorm functions. -/
def StormSystem.COLUMN_R : α := 1.5

/-- A hurricane tracer: entry `i` of `angles`, `radii` and `speeds`, and the
two vertices (head, tail) of its line in `linePositions`. -/
structure SpiralTracer (α : Type) where
  angle : α
  radius : α
  speed : α
  head : Vec3 α
  tail : Vec3 α

/-- The draws of one iteration of `_buildHurricane`, in order. -/
structure SpiralDraws (α : Type) where
  angle : α
  radius : α
  speed : α
  y : α

/-- The body of the loop of `StormSystem._buildHurricane()` at index `i`.
`angles`, `radii`, `speeds` and `linePositions` are `Float32Array`s: every
store converts with `fround`, and `angles[i]`, `radii[i]` read the stored
values. -/
def StormSystem.buildHurricaneTracer (M : MathLib α) (s : Settings α) (i : ℕ)
    (d : SpiralDraws α) : SpiralTracer α :=
  let pos := s.hurricanePosition
  let eyeR : α := EYE_BASE_RADIUS + (s.hurricaneIntensity : α) * EYE_RADIUS_SCALE
  let spiralR : α := SPIRAL_BASE_RADIUS + (s.hurricaneIntensity : α) * SPIRAL_RADIUS_SCALE
  let maxY : α := ((FLIGHT_LEVELS_COUNT * GRID_SPACING : ℤ) : α)
  let t : α := (i : α) / (StormSystem.HURRICANE_PARTICLES : α)
  let radius := eyeR + t * (spiralR - eyeR)
  let angle := t * M.PI * 6
  let angle_i := fround (angle + d.angle * 0.3)
  let radius_i := fround (radius + (d.radius - 0.5) * 0.5)
  let speed_i := fround (0.7 + d.speed * 0.6)
  let yPos := d.y * maxY
  let hx := pos.1 + M.cos angle_i * radius_i
  let hz := pos.2 + M.sin angle_i * radius_i
  ⟨angle_i, radius_i, speed_i, ⟨fround hx, fround yPos, fround hz⟩,
    ⟨fround hx, fround yPos, fround hz⟩⟩

/-- The tracers `StormSystem._buildHurricane()` creates. -/
def StormSystem.buildHurricane (M : MathLib α) (s : Settings α) (draws : ℕ → SpiralDraws α) :
    List (SpiralTracer α) :=
  (List.range StormSystem.HURRICANE_PARTICLES).map
    (fun i => StormSystem.buildHurricaneTracer M s i (draws i))

/-- The body of the loop of `StormSystem._updateHurricane(time)`; the store
`angles[i] += ...` converts with `fround`, `a` reads the stored angle, and the
stores into `linePositions` convert as well. -/
def StormSystem.updateHurricaneTracer (M : MathLib α) (s : Settings α) (time : α)
    (p : SpiralTracer α) : SpiralTracer α :=
  let pos := s.hurricanePosition
  let a := fround (p.angle + StormSystem.HURRICANE_ROTATION_SPEED * p.speed)
  let hx := pos.1 + M.cos a * p.radius
  let hz := pos.2 + M.sin a * p.radius
  let hy := p.head.y + M.sin (time * 0.5 + a) * 0.01
  { p with
    angle := a
    head := ⟨fround hx, fround hy, fround hz⟩
    tail := ⟨fround (hx + M.sin a * StormSystem.LINE_LENGTH), fround hy,
      fround (hz - M.cos a * StormSystem.LINE_LENGTH)⟩ }

/-- The method `StormSystem._updateHurricane(time)`. -/
def StormSystem.updateHurricane (M : MathLib α) (s : Settings α) (time : α)
    (ps : List (SpiralTracer α)) : List (SpiralTracer α) :=
  ps.map (StormSystem.updateHurricaneTracer M s time)

/-- A thunderstorm tracer: entry `i` of `altitudes` and the two vertices
(head, tail) of its line in `linePositions`. -/
structure ColumnTracer (α : Type) where
  altitude : α
  head : Vec3 α
  tail : Vec3 α

/-- The draws of one column position: angle and radius (and, at build, the
altitude). -/
structure ColumnDraws (α : Type) where
  angle : α
  r : α
  y : α

/-- The body of the loop of `StormSystem._buildThunderstorm()`; `altitudes`
and `linePositions` are `Float32Array`s, every store converts with `fround`. -/
def StormSystem.buildThunderstormTracer (M : MathLib α) (s : Settings α) (d : ColumnDraws α) :
    ColumnTracer α :=
  let pos := s.thunderstormPosition
  let maxY : α := ((FLIGHT_LEVELS_COUNT * GRID_SPACING : ℤ) : α)
  let angle := d.angle * M.PI * 2
  let r := d.r * StormSystem.COLUMN_R
  let y := d.y * maxY
  let px := pos.1 + M.cos angle * r
  let pz := pos.2 + M.sin angle * r
  ⟨fround y, ⟨fround px, fround y, fround pz⟩,
    ⟨fround px, fround (y - StormSystem.LINE_LENGTH), fround pz⟩⟩

/-- The body of the loop of `StormSystem._updateThunderstorm(time)`; the draws
are consumed only when the tracer is reset.  The store `altitudes[i] += RISE`
converts with `fround`, `py` and the test `altitudes[i] > maxY` read the
stored altitude, and the stores into `linePositions` convert as well. -/
def StormSystem.updateThunderstormTracer (M : MathLib α) (s : Settings α) (d : ColumnDraws α)
    (p : ColumnTracer α) : ColumnTracer α :=
  let pos := s.thunderstormPosition
  let maxY : α := ((FLIGHT_LEVELS_COUNT * GRID_SPACING : ℤ) : α)
  let py := fround (p.altitude + StormSystem.THUNDERSTORM_RISE_SPEED)
  let p : ColumnTracer α :=
    { altitude := py
      head := ⟨p.head.x, fround py, p.head.z⟩
      tail := ⟨p.tail.x, fround (py - StormSystem.LINE_LENGTH), p.tail.z⟩ }
  if p.altitude > maxY then
    let angle := d.angle * M.PI * 2
    let r := d.r * StormSystem.COLUMN_R
    let nx := pos.1 + M.cos angle * r
    let nz := pos.2 + M.sin angle * r
    { altitude := fround 0
      head := ⟨fround nx, fround 0, fround nz⟩
      tail := ⟨fround nx, fround (-StormSystem.LINE_LENGTH), fround nz⟩ }
  else p

/-- The thunderstorm particles and the light: `altitudes` with
`linePositions`, `_lightFlicker`, and the intensity of `_light` (`none` when
`_light` is `null`). -/
structure ThunderstormData (α : Type) where
  tracers : List (ColumnTracer α)
  lightFlicker : ℕ
  lightIntensity : Option α

/-- The loop of `StormSystem._updateThunderstorm(time)` from index `i` on. -/
def StormSystem.updateThunderstormFrom (M : MathLib α) (s : Settings α)
    (draws : ℕ → ColumnDraws α) : ℕ → List (ColumnTracer α) → List (ColumnTracer α)
  | _, [] => []
  | i, p :: ps =>
    StormSystem.updateThunderstormTracer M s (draws i) p
      :: StormSystem.updateThunderstormFrom M s draws (i + 1) ps

/-- The method `StormSystem._updateThunderstorm(time)`; `flicker` is the draw
of the light intensity. -/
def StormSystem.updateThunderstorm (M : MathLib α) (s : Settings α) (draws : ℕ → ColumnDraws α)
    (flicker : α) (d : ThunderstormData α) : ThunderstormData α :=
  let tracers := StormSystem.updateThunderstormFrom M s draws 0 d.tracers
  let lightFlicker := d.lightFlicker + 1
  { tracers := tracers
    lightFlicker := lightFlicker
    lightIntensity :=
      if lightFlicker % 5 = 0 then d.lightIntensity.map (fun _ => 1 + flicker * 3)
      else d.lightIntensity }

/-- The method `StormSystem._buildThunderstorm()`: the tracers, the counter
`_lightFlicker = 0` and the light `new THREE.PointLight(0x4488ff, 2, 10)` of
intensity 2. -/
def StormSystem.buildThunderstorm (M : MathLib α) (s : Settings α) (draws : ℕ → ColumnDraws α) :
    ThunderstormData α :=
  { tracers := (List.range StormSystem.THUNDERSTORM_PARTICLES).map
      (fun i => StormSystem.buildThunderstormTracer M s (draws i))
    lightFlicker := 0
    lightIntensity := some 2 }

end Core

/-! # Theorems -/

section RegionCatalog

variable {α : Type} [LinearOrderedField α]

theorem stateNames_eq :
    (StateCoordinates : List (String × StateEntry α)).map Prod.fst = stateNames := by
  simp [StateCoordinates, stateNames]

theorem readProperty_undefined {β : Type} (obj : List (String × β)) (key : String)
    (h1 : key ∉ obj.map Prod.fst) (h2 : key ∉ objectPrototypeKeys) :
    readProperty obj key = PropertyRead.undefined := by
  have hl : obj.lookup key = none := by
    rw [List.lookup_eq_none_iff]
    intro e he
    have hne : key ≠ e.1 := by
      intro hk
      apply h1
      rw [List.mem_map]
      exact ⟨e, he, hk.symm⟩
    simpa using hne
  unfold readProperty
  rw [hl]
  simp [h2]

theorem readProperty_own {β : Type} (obj : List (String × β)) (key : String)
    (h1 : key ∈ obj.map Prod.fst) :
    ∃ v, (key, v) ∈ obj ∧ readProperty obj key = PropertyRead.own v := by
  induction obj with
  | nil => simp at h1
  | cons e rest ih =>
    obtain ⟨k, v⟩ := e
    by_cases hk : key = k
    · subst hk
      exact ⟨v, by simp, by simp [readProperty, List.lookup]⟩
    · have h2 : key ∈ rest.map Prod.fst := by
        simp only [List.map_cons, List.mem_cons] at h1
        rcases h1 with h | h
        · exact (hk h).elim
        · exact h
      obtain ⟨w, hw, hr⟩ := ih h2
      refine ⟨w, List.mem_cons_of_mem _ hw, ?_⟩
      have hne : (key == k) = false := by simpa using hk
      unfold readProperty at hr ⊢
      simpa [List.lookup, hne] using hr

/-- Outside the catalogue and outside the names of `Object.prototype`,
`getStateData` returns `null`. -/
theorem getStateData_unknown (M : MathLib α) (name : String)
    (h1 : name ∉ stateNames) (h2 : name ∉ objectPrototypeKeys) :
    getStateData M name = Except.ok none := by
  have h := readProperty_undefined (StateCoordinates : List (String × StateEntry α)) name
    (by rw [stateNames_eq]; exact h1) h2
  simp [getStateData, h]

/-- For a name of the catalogue `getStateData` returns a record with the
centre and the zoom of that entry. -/
theorem getStateData_known (M : MathLib α) (name : String) (h1 : name ∈ stateNames) :
    ∃ e d, (name, e) ∈ (StateCoordinates : List (String × StateEntry α)) ∧
      getStateData M name = Except.ok (some d) ∧ d.center = e.center ∧ d.zoom = e.zoom ∧
      d.windPattern = determineWindPattern e.center := by
  obtain ⟨e, he, hr⟩ := readProperty_own (StateCoordinates : List (String × StateEntry α)) name
    (by rw [stateNames_eq]; exact h1)
  exact ⟨e, ⟨e.center, e.zoom, calculateSquareBounds M e.center ((sizeMap e.zoom).getD 5),
    determineWindPattern e.center⟩, he, by simp only [getStateData, hr], rfl, rfl, rfl⟩

theorem florida_stateData_value (M : MathLib α) :
    getStateData M "Florida" = Except.ok (some
      ⟨(27.766279, -81.686783), 6,
        calculateSquareBounds M (27.766279, -81.686783) ((sizeMap 6).getD 5), "gulf_stream"⟩) := by
  have hr : readProperty (StateCoordinates : List (String × StateEntry α)) "Florida"
      = PropertyRead.own ⟨(27.766279, -81.686783), 6⟩ := by
    simp [readProperty, StateCoordinates, List.lookup]
  have hp : determineWindPattern ((27.766279 : α), (-81.686783 : α)) = "gulf_stream" := by
    simp only [determineWindPattern]
    norm_num
  simp only [getStateData, hr, hp]

/-- C10: `determineWindPattern` returns the category of the first rule that
matches, in the order pacific (`lng < -120`), nor_easter (`lat > 40` and
`lng > -85`), gulf_stream (`lat < 35` and `lng > -90`), plains
(`-105 < lng < -90`), desert (`lat < 40` and `lng < -105`), else continental;
the result is always one of these six keys. -/
theorem determineWindPattern_first_match (lat lng : α) :
    (lng < -120 → determineWindPattern (lat, lng) = "pacific") ∧
    (¬ lng < -120 → (lat > 40 ∧ lng > -85) → determineWindPattern (lat, lng) = "nor_easter") ∧
    (¬ lng < -120 → ¬ (lat > 40 ∧ lng > -85) → (lat < 35 ∧ lng > -90) →
      determineWindPattern (lat, lng) = "gulf_stream") ∧
    (¬ lng < -120 → ¬ (lat > 40 ∧ lng > -85) → ¬ (lat < 35 ∧ lng > -90) →
      (lng > -105 ∧ lng < -90) → determineWindPattern (lat, lng) = "plains") ∧
    (¬ lng < -120 → ¬ (lat > 40 ∧ lng > -85) → ¬ (lat < 35 ∧ lng > -90) →
      ¬ (lng > -105 ∧ lng < -90) → (lat < 40 ∧ lng < -105) →
      determineWindPattern (lat, lng) = "desert") ∧
    (¬ lng < -120 → ¬ (lat > 40 ∧ lng > -85) → ¬ (lat < 35 ∧ lng > -90) →
      ¬ (lng > -105 ∧ lng < -90) → ¬ (lat < 40 ∧ lng < -105) →
      determineWindPattern (lat, lng) = "continental") ∧
    determineWindPattern (lat, lng) ∈
      ["pacific", "nor_easter", "gulf_stream", "plains", "desert", "continental"] := by
  refine ⟨?_, ?_, ?_, ?_, ?_, ?_, ?_⟩
  · intro h1
    simp only [determineWindPattern, if_pos h1]
  · intro h1 h2
    simp only [determineWindPattern, if_neg h1, if_pos h2]
  · intro h1 h2 h3
    simp only [determineWindPattern, if_neg h1, if_neg h2, if_pos h3]
  · intro h1 h2 h3 h4
    simp only [determineWindPattern, if_neg h1, if_neg h2, if_neg h3, if_pos h4]
  · intro h1 h2 h3 h4 h5
    simp only [determineWindPattern, if_neg h1, if_neg h2, if_neg h3, if_neg h4, if_pos h5]
  · intro h1 h2 h3 h4 h5
    simp only [determineWindPattern, if_neg h1, if_neg h2, if_neg h3, if_neg h4, if_neg h5]
  · simp only [determineWindPattern]
    split_ifs <;> simp

/-- C10, at the centre of Florida: the first two rules fail and the third
gives gulf_stream. -/
theorem determineWindPattern_first_match_witness :
    determineWindPattern ((27.766279 : ℚ), (-81.686783 : ℚ)) = "gulf_stream" :=
  (determineWindPattern_first_match (27.766279 : ℚ) (-81.686783 : ℚ)).2.2.1
    (by norm_num) (by norm_num) (by norm_num)

/-- C8: `getStateData("Florida")` returns the pattern gulf_stream, zoom 6 and
the centre `[27.766279, -81.686783]`; the bounding box has latitude extent 10,
a longitude extent that scaled by the cosine of the latitude is 10, and the
midpoint of its two corners is the centre. -/
theorem getStateData_Florida (M : MathLib α)
    (hcos : M.cos (27.766279 * M.PI / 180) ≠ 0) :
    ∃ d : StateData α, getStateData M "Florida" = Except.ok (some d) ∧
      d.windPattern = "gulf_stream" ∧ d.zoom = 6 ∧ sizeMap d.zoom = some (10 : α) ∧
      d.center = (27.766279, -81.686783) ∧
      d.bounds.2.1 - d.bounds.1.1 = 10 ∧
      (d.bounds.2.2 - d.bounds.1.2) * M.cos (d.center.1 * M.PI / 180) = 10 ∧
      ((d.bounds.1.1 + d.bounds.2.1) / 2, (d.bounds.1.2 + d.bounds.2.2) / 2) = d.center := by
  have hr : readProperty (StateCoordinates : List (String × StateEntry α)) "Florida"
      = PropertyRead.own ⟨(27.766279, -81.686783), 6⟩ := by
    simp [readProperty, StateCoordinates, List.lookup]
  refine ⟨⟨(27.766279, -81.686783), 6,
    calculateSquareBounds M (27.766279, -81.686783) ((sizeMap 6).getD 5),
    determineWindPattern ((27.766279 : α), (-81.686783 : α))⟩,
    by simp only [getStateData, hr], ?_, rfl, ?_, rfl, ?_, ?_, ?_⟩
  · have h := (determineWindPattern_first_match (27.766279 : α) (-81.686783 : α)).2.2.1
      (by norm_num) (by norm_num) (by norm_num)
    exact h
  · simp [sizeMap]
  · simp only [sizeMap, calculateSquareBounds]
    norm_num
  · have h10 : (sizeMap 6 : Option α).getD 5 = 10 := by simp [sizeMap]
    simp only [calculateSquareBounds, h10]
    generalize M.cos (27.766279 * M.PI / 180) = k at hcos
    field_simp
    ring
  · simp only [sizeMap, calculateSquareBounds]
    norm_num

/-- C8, with the real cosine and the real number pi. -/
theorem getStateData_Florida_witness :
    ∃ d : StateData ℝ,
      getStateData ⟨Real.sin, Real.cos, Real.exp, Real.sqrt, fun y x => Complex.arg ⟨x, y⟩, Real.pi⟩
        "Florida" = Except.ok (some d) ∧
      d.windPattern = "gulf_stream" ∧ d.zoom = 6 ∧ sizeMap d.zoom = some (10 : ℝ) ∧
      d.center = (27.766279, -81.686783) ∧
      d.bounds.2.1 - d.bounds.1.1 = 10 ∧
      (d.bounds.2.2 - d.bounds.1.2) * Real.cos (d.center.1 * Real.pi / 180) = 10 ∧
      ((d.bounds.1.1 + d.bounds.2.1) / 2, (d.bounds.1.2 + d.bounds.2.2) / 2) = d.center :=
  getStateData_Florida
    ⟨Real.sin, Real.cos, Real.exp, Real.sqrt, fun y x => Complex.arg ⟨x, y⟩, Real.pi⟩
    (by
      apply ne_of_gt
      apply Real.cos_pos_of_mem_Ioo
      constructor <;> nlinarith [Real.pi_pos])

/-- C9: the name `constructor` is not a region of the catalogue, it reads the
constructor inherited from `Object.prototype`, which passes the guard, and
`getStateData` raises a `TypeError` instead of returning `null`. -/
theorem getStateData_constructor_throws (M : MathLib α) :
    "constructor" ∉ stateNames ∧
      getStateData M "constructor" = Except.error JSError.typeError := by
  constructor
  · simp [stateNames]
  · simp [getStateData, readProperty, StateCoordinates, List.lookup, objectPrototypeKeys]

end RegionCatalog

section Hurricane

variable {α : Type} [LinearOrderedField α]

/-- C7: for every intensity `I`, in particular 0 to 5, the eye radius
`0.5 + 0.2 I` is below the eyewall radius, which is the eye radius plus 0.8,
and that is below the spiral radius `8 + 2 I`; the two band widths that the
hurricane model divides by are positive. -/
theorem hurricane_radii_ordered (I : ℕ) :
    (eyeRadius I : α) = 0.5 + 0.2 * (I : α) ∧
    (eyeWallRadius I : α) = eyeRadius I + 0.8 ∧
    (spiralRadius I : α) = 8 + 2 * (I : α) ∧
    (eyeRadius I : α) < eyeWallRadius I ∧
    (eyeWallRadius I : α) < spiralRadius I ∧
    (0 : α) < eyeWallRadius I - eyeRadius I ∧
    (0 : α) < spiralRadius I - eyeWallRadius I := by
  have hI : (0 : α) ≤ (I : α) := Nat.cast_nonneg I
  simp only [eyeRadius, eyeWallRadius, spiralRadius, EYE_BASE_RADIUS, EYE_RADIUS_SCALE,
    EYEWALL_OFFSET, SPIRAL_BASE_RADIUS, SPIRAL_RADIUS_SCALE]
  refine ⟨by ring, trivial, by ring, ?_, ?_, ?_, ?_⟩ <;> norm_num <;> linarith

end Hurricane

section Calculator

variable {α : Type} [LinearOrderedField α]

theorem CATEGORY_WINDS_defined (I : ℕ) (hI : I ≤ 5) : ∃ w, CATEGORY_WINDS[I]? = some w := by
  interval_cases I <;> simp [CATEGORY_WINDS]

theorem calculateHurricaneSpeed_defined (M : MathLib α) (s : Settings α) (r x y z : α)
    (hI : s.hurricaneIntensity ≤ 5) : ∃ v, calculateHurricaneSpeed M s r x y z = some v := by
  obtain ⟨w, hw⟩ := CATEGORY_WINDS_defined s.hurricaneIntensity hI
  simp only [calculateHurricaneSpeed, hw, Option.map_some']
  split_ifs <;> exact ⟨_, rfl⟩

/-- C1: for every key of the pattern table, every position, clock, storm
state with a hurricane intensity in 0..5 and every draw, `calculateSpeed`
returns a number `v` with `SPEED_MIN = 5 ≤ v ≤ SPEED_MAX = 100`. -/
theorem calculateSpeed_bounds [FloorRing α] (M : MathLib α) (s : Settings α) (c : Clock)
    (r : α) (pattern : String) (x y z : α)
    (hI : s.hurricaneIntensity ≤ 5) (_hp : pattern ∈ patternKeys) :
    ∃ v, calculateSpeed M s c r pattern x y z = some v ∧
      (SPEED_MIN : α) = 5 ∧ (SPEED_MAX : α) = 100 ∧ SPEED_MIN ≤ v ∧ v ≤ SPEED_MAX := by
  have hsp : ∃ v0 : α,
      (if s.hurricaneActive then calculateHurricaneSpeed M s r x y z
       else if s.thunderstormActive then
         some (10 + (y * BASE_ALTITUDE_FACTOR) + calculateThunderstormSpeed M s r x y z)
       else some (10 + (y * BASE_ALTITUDE_FACTOR))) = some v0 := by
    split_ifs
    · exact calculateHurricaneSpeed_defined M s r x y z hI
    · exact ⟨_, rfl⟩
    · exact ⟨_, rfl⟩
  obtain ⟨v0, hv0⟩ := hsp
  have hcs : calculateSpeed M s c r pattern x y z = some (max SPEED_MIN (min SPEED_MAX
      (v0 + (getRegionalSpeedModifier M c pattern x y z
        + M.sin (((c.hour : α) / 24) * 2 * M.PI) * 5
        + M.cos (((dayOfYear α c : ℤ) : α) / 365 * 2 * M.PI) * 8)))) := by
    simp only [calculateSpeed, hv0, Option.map_some']
  refine ⟨_, hcs, rfl, rfl, le_max_left _ _, ?_⟩
  apply max_le
  · simp only [SPEED_MIN, SPEED_MAX]
    norm_num
  · exact min_le_left _ _

/-- C1, with the real `Math` functions: a hurricane of intensity 3 over the
cell (1, 0, 1). -/
theorem calculateSpeed_bounds_witness :
    (3 : ℕ) ≤ 5 ∧ "gulf_stream" ∈ patternKeys ∧
    ∃ v : ℝ,
      calculateSpeed
        ⟨Real.sin, Real.cos, Real.exp, Real.sqrt, fun y x => Complex.arg ⟨x, y⟩, Real.pi⟩
        ⟨"Florida", false, (0, 0), true, (1, 1), 3⟩ ⟨1703980800000, 1672444800000, 6⟩
        0 "gulf_stream" 1 0 1 = some v ∧
      (SPEED_MIN : ℝ) = 5 ∧ (SPEED_MAX : ℝ) = 100 ∧ SPEED_MIN ≤ v ∧ v ≤ SPEED_MAX :=
  ⟨by decide, by decide,
    calculateSpeed_bounds
      ⟨Real.sin, Real.cos, Real.exp, Real.sqrt, fun y x => Complex.arg ⟨x, y⟩, Real.pi⟩
      ⟨"Florida", false, (0, 0), true, (1, 1), 3⟩ ⟨1703980800000, 1672444800000, 6⟩
      0 "gulf_stream" 1 0 1 (by decide) (by decide)⟩

theorem sqrt_one_of_sound (M : MathLib α)
    (hsqrt : ∀ t : α, 0 ≤ t → 0 ≤ M.sqrt t ∧ M.sqrt t * M.sqrt t = t) : M.sqrt 1 = 1 := by
  obtain ⟨h0, h1⟩ := hsqrt 1 zero_le_one
  have h2 : (M.sqrt 1 - 1) * (M.sqrt 1 + 1) = 0 := by ring_nf; nlinarith
  rcases mul_eq_zero.mp h2 with h | h
  · linarith
  · linarith

theorem Vec3.length_pos (M : MathLib α)
    (hsqrt : ∀ t : α, 0 ≤ t → 0 ≤ M.sqrt t ∧ M.sqrt t * M.sqrt t = t) (v : Vec3 α)
    (hq : 0 < v.x * v.x + v.y * v.y + v.z * v.z) : 0 < v.length M := by
  obtain ⟨h0, h1⟩ := hsqrt _ hq.le
  rcases h0.lt_or_eq with h | h
  · exact h
  · exfalso
    have h2 : M.sqrt (v.x * v.x + v.y * v.y + v.z * v.z) = 0 := h.symm
    rw [h2] at h1
    linarith

theorem Vec3.normalize_length (M : MathLib α)
    (hsqrt : ∀ t : α, 0 ≤ t → 0 ≤ M.sqrt t ∧ M.sqrt t * M.sqrt t = t) (v : Vec3 α)
    (hq : 0 < v.x * v.x + v.y * v.y + v.z * v.z) : (v.normalize M).length M = 1 := by
  have hl := Vec3.length_pos M hsqrt v hq
  have hl2 : v.length M * v.length M = v.x * v.x + v.y * v.y + v.z * v.z := (hsqrt _ hq.le).2
  have hne : v.length M ≠ 0 := ne_of_gt hl
  have key : v.x * (1 / v.length M) * (v.x * (1 / v.length M))
      + v.y * (1 / v.length M) * (v.y * (1 / v.length M))
      + v.z * (1 / v.length M) * (v.z * (1 / v.length M)) = 1 := by
    field_simp
    nlinarith
  simp only [Vec3.normalize, if_neg hne]
  unfold Vec3.length at key ⊢
  simp only [key]
  exact sqrt_one_of_sound M hsqrt

theorem horizontal_unit_sq_pos (M : MathLib α)
    (htrig : ∀ t : α, M.cos t ^ 2 + M.sin t ^ 2 = 1) (a vy : α) :
    0 < M.cos a * M.cos a + vy * vy + M.sin a * M.sin a := by
  have h := htrig a
  nlinarith [mul_self_nonneg vy]

/-- C2: when `cos² + sin² = 1` and `Math.sqrt` is the non-negative square
root, then for every heading `a` and vertical component `vy` the vector
`(cos a, vy, sin a)` has non-zero length, and in every storm state, for every
position, pattern and clock, `generateDirection` returns a vector of length 1. -/
theorem generateDirection_unit (M : MathLib α)
    (htrig : ∀ t : α, M.cos t ^ 2 + M.sin t ^ 2 = 1)
    (hsqrt : ∀ t : α, 0 ≤ t → 0 ≤ M.sqrt t ∧ M.sqrt t * M.sqrt t = t)
    (s : Settings α) (c : Clock) (r x y z : α) (windPattern : String) :
    (∀ a vy : α, Vec3.length M ⟨M.cos a, vy, M.sin a⟩ ≠ 0) ∧
    (generateDirection M s c r x y z windPattern).length M = 1 := by
  constructor
  · intro a vy
    exact ne_of_gt (Vec3.length_pos M hsqrt _ (horizontal_unit_sq_pos M htrig a vy))
  · unfold generateDirection
    exact Vec3.normalize_length M hsqrt _ (horizontal_unit_sq_pos M htrig _ _)

/-- C2, with the real `Math` functions, inside the eye of a hurricane. -/
theorem generateDirection_unit_witness :
    (∀ a vy : ℝ, Vec3.length
        ⟨Real.sin, Real.cos, Real.exp, Real.sqrt, fun y x => Complex.arg ⟨x, y⟩, Real.pi⟩
        ⟨Real.cos a, vy, Real.sin a⟩ ≠ 0) ∧
    (generateDirection
        ⟨Real.sin, Real.cos, Real.exp, Real.sqrt, fun y x => Complex.arg ⟨x, y⟩, Real.pi⟩
        ⟨"Florida", false, (0, 0), true, (1, 1), 3⟩ ⟨1703980800000, 1672444800000, 6⟩
        0 1 0 1 "gulf_stream").length
      ⟨Real.sin, Real.cos, Real.exp, Real.sqrt, fun y x => Complex.arg ⟨x, y⟩, Real.pi⟩ = 1 :=
  generateDirection_unit
    ⟨Real.sin, Real.cos, Real.exp, Real.sqrt, fun y x => Complex.arg ⟨x, y⟩, Real.pi⟩
    (fun t => Real.cos_sq_add_sin_sq t)
    (fun t ht => ⟨Real.sqrt_nonneg t, Real.mul_self_sqrt ht⟩)
    ⟨"Florida", false, (0, 0), true, (1, 1), 3⟩ ⟨1703980800000, 1672444800000, 6⟩
    0 1 0 1 "gulf_stream"

theorem generateDirection_no_storm (M : MathLib α) (s1 s2 : Settings α) (c : Clock) (r1 r2 : α)
    (pattern : String) (x y z : α)
    (h1 : s1.hurricaneActive = false) (t1 : s1.thunderstormActive = false)
    (h2 : s2.hurricaneActive = false) (t2 : s2.thunderstormActive = false) :
    generateDirection M s1 c r1 x y z pattern = generateDirection M s2 c r2 x y z pattern := by
  simp [generateDirection, calculateVerticalComponent, h1, t1, h2, t2]

theorem calculateSpeed_no_storm [FloorRing α] (M : MathLib α) (s1 s2 : Settings α) (c : Clock)
    (r1 r2 : α) (pattern : String) (x y z : α)
    (h1 : s1.hurricaneActive = false) (t1 : s1.thunderstormActive = false)
    (h2 : s2.hurricaneActive = false) (t2 : s2.thunderstormActive = false) :
    calculateSpeed M s1 c r1 pattern x y z = calculateSpeed M s2 c r2 pattern x y z := by
  simp [calculateSpeed, h1, t1, h2, t2]

/-- Outside the eye of an active hurricane, and at distance 3 or more from an
active thunderstorm, `generateDirection` does not use its draw. -/
theorem generateDirection_outside_core (M : MathLib α) (s : Settings α) (c : Clock) (r1 r2 : α)
    (pattern : String) (x y z : α)
    (hh : s.hurricaneActive = true →
      ¬ calculateDistance M (x, z) s.hurricanePosition < eyeRadius s.hurricaneIntensity)
    (ht : s.hurricaneActive = false → s.thunderstormActive = true →
      ¬ calculateDistance M (x, z) s.thunderstormPosition < 3) :
    generateDirection M s c r1 x y z pattern = generateDirection M s c r2 x y z pattern := by
  cases hH : s.hurricaneActive with
  | true =>
    have h := hh hH
    simp only [generateDirection, hH, if_true, calculateHurricaneEffect, if_neg h]
  | false =>
    cases hT : s.thunderstormActive with
    | true =>
      have h := ht hH hT
      simp only [generateDirection, hH, hT, Bool.false_eq_true, if_false, if_true,
        calculateThunderstormEffect, if_neg h]
    | false =>
      simp only [generateDirection, hH, hT, Bool.false_eq_true, if_false]

/-- Outside the eye of an active hurricane, and at distance 3 or more from an
active thunderstorm, `calculateSpeed` does not use its draw. -/
theorem calculateSpeed_outside_core [FloorRing α] (M : MathLib α) (s : Settings α) (c : Clock) (r1 r2 : α)
    (pattern : String) (x y z : α)
    (hh : s.hurricaneActive = true →
      ¬ calculateDistance M (x, z) s.hurricanePosition < eyeRadius s.hurricaneIntensity)
    (ht : s.hurricaneActive = false → s.thunderstormActive = true →
      ¬ calculateDistance M (x, z) s.thunderstormPosition < 3) :
    calculateSpeed M s c r1 pattern x y z = calculateSpeed M s c r2 pattern x y z := by
  cases hH : s.hurricaneActive with
  | true =>
    have h := hh hH
    simp only [calculateSpeed, hH, if_true, calculateHurricaneSpeed, if_neg h]
  | false =>
    cases hT : s.thunderstormActive with
    | true =>
      have h := ht hH hT
      have h2 : ¬ (calculateDistance M (x, z) s.thunderstormPosition < 3 ∧ y > 2) :=
        fun hc => h hc.1
      simp only [calculateSpeed, hH, hT, Bool.false_eq_true, if_false, if_true,
        calculateThunderstormSpeed, if_neg h2]
    | false =>
      simp only [calculateSpeed, hH, hT, Bool.false_eq_true, if_false]

/-- C4: with no storm active, `generateDirection` and `calculateSpeed` are
functions of the clock, the position and the pattern alone: two calls return
the same result whatever the draws and the remaining storm settings are. -/
theorem no_storm_deterministic [FloorRing α] (M : MathLib α) (s1 s2 : Settings α) (c : Clock)
    (r1 r2 : α) (pattern : String) (x y z : α)
    (h1 : s1.hurricaneActive = false) (t1 : s1.thunderstormActive = false)
    (h2 : s2.hurricaneActive = false) (t2 : s2.thunderstormActive = false) :
    generateDirection M s1 c r1 x y z pattern = generateDirection M s2 c r2 x y z pattern ∧
    calculateSpeed M s1 c r1 pattern x y z = calculateSpeed M s2 c r2 pattern x y z := by
  exact ⟨generateDirection_no_storm M s1 s2 c r1 r2 pattern x y z h1 t1 h2 t2,
    calculateSpeed_no_storm M s1 s2 c r1 r2 pattern x y z h1 t1 h2 t2⟩

/-- C4, with the real `Math` functions: two settings that differ in the stored
storm positions and intensity, and two different draws. -/
theorem no_storm_deterministic_witness :
    generateDirection
        ⟨Real.sin, Real.cos, Real.exp, Real.sqrt, fun y x => Complex.arg ⟨x, y⟩, Real.pi⟩
        ⟨"Florida", false, (0, 0), false, (0, 0), 3⟩ ⟨1703980800000, 1672444800000, 6⟩
        0 1 0 1 "gulf_stream"
      = generateDirection
        ⟨Real.sin, Real.cos, Real.exp, Real.sqrt, fun y x => Complex.arg ⟨x, y⟩, Real.pi⟩
        ⟨"Florida", false, (2, 2), false, (1, 1), 5⟩ ⟨1703980800000, 1672444800000, 6⟩
        (1 / 2) 1 0 1 "gulf_stream" ∧
    calculateSpeed
        ⟨Real.sin, Real.cos, Real.exp, Real.sqrt, fun y x => Complex.arg ⟨x, y⟩, Real.pi⟩
        ⟨"Florida", false, (0, 0), false, (0, 0), 3⟩ ⟨1703980800000, 1672444800000, 6⟩
        0 "gulf_stream" 1 0 1
      = calculateSpeed
        ⟨Real.sin, Real.cos, Real.exp, Real.sqrt, fun y x => Complex.arg ⟨x, y⟩, Real.pi⟩
        ⟨"Florida", false, (2, 2), false, (1, 1), 5⟩ ⟨1703980800000, 1672444800000, 6⟩
        (1 / 2) "gulf_stream" 1 0 1 :=
  no_storm_deterministic
    ⟨Real.sin, Real.cos, Real.exp, Real.sqrt, fun y x => Complex.arg ⟨x, y⟩, Real.pi⟩
    ⟨"Florida", false, (0, 0), false, (0, 0), 3⟩ ⟨"Florida", false, (2, 2), false, (1, 1), 5⟩
    ⟨1703980800000, 1672444800000, 6⟩ 0 (1 / 2) "gulf_stream" 1 0 1 rfl rfl rfl rfl

end Calculator

section FieldMap

variable {α : Type}

theorem mapSet_keys {V : Type} (m : List (GridKey × V)) (k : GridKey) (v : V) :
    (mapSet m k v).map Prod.fst
      = if k ∈ m.map Prod.fst then m.map Prod.fst else m.map Prod.fst ++ [k] := by
  unfold mapSet
  by_cases h : k ∈ m.map Prod.fst
  · have hany : (m.any fun e => e.1 == k) = true := by
      rw [List.any_eq_true]
      obtain ⟨e, he, hk⟩ := List.mem_map.mp h
      exact ⟨e, he, by simp [hk]⟩
    rw [if_pos hany, if_pos h, List.map_map]
    apply List.map_congr_left
    intro e _
    by_cases hek : e.1 = k
    · simp [hek]
    · simp [hek]
  · have hany : ¬ (m.any fun e => e.1 == k) = true := by
      rw [List.any_eq_true]
      rintro ⟨e, he, hk⟩
      apply h
      exact List.mem_map.mpr ⟨e, he, by simpa using hk⟩
    rw [if_neg hany, if_neg h]
    simp

theorem foldl_mapSet_keys (cubes : List (Cube α)) :
    ∀ m : List (GridKey × Vec3 α),
      ((cubes.foldl (fun m cube => mapSet m cube.position cube.windDirection) m).map Prod.fst)
        = (cubes.map Cube.position).foldl
            (fun ks k => if k ∈ ks then ks else ks ++ [k]) (m.map Prod.fst) := by
  induction cubes with
  | nil => intro m; rfl
  | cons cube rest ih =>
    intro m
    simp only [List.foldl_cons, List.map_cons]
    rw [ih, mapSet_keys]

/-- The keys of the lookup map are determined by the positions of the cubes. -/
theorem buildWindFieldMap_keys (cubes : List (Cube α)) :
    (buildWindFieldMap cubes).map Prod.fst
      = (cubes.map Cube.position).foldl (fun ks k => if k ∈ ks then ks else ks ++ [k]) [] := by
  unfold buildWindFieldMap
  rw [foldl_mapSet_keys]
  rfl

theorem foldl_insert_subset (l : List GridKey) :
    ∀ ks : List GridKey, ∀ k ∈ l.foldl (fun ks k => if k ∈ ks then ks else ks ++ [k]) ks,
      k ∈ ks ∨ k ∈ l := by
  induction l with
  | nil => intro ks k hk; exact Or.inl hk
  | cons x rest ih =>
    intro ks k hk
    simp only [List.foldl_cons] at hk
    rcases ih _ k hk with h | h
    · by_cases hx : x ∈ ks
      · rw [if_pos hx] at h
        exact Or.inl h
      · rw [if_neg hx] at h
        rcases List.mem_append.mp h with h | h
        · exact Or.inl h
        · right
          simp only [List.mem_singleton] at h
          simp [h]
    · exact Or.inr (List.mem_cons_of_mem _ h)

/-- A position that no cube has is not a key of the lookup map. -/
theorem mapGet_buildWindFieldMap_none (cubes : List (Cube α)) (k : GridKey)
    (hk : k ∉ cubes.map Cube.position) : mapGet (buildWindFieldMap cubes) k = none := by
  unfold mapGet
  rw [List.lookup_eq_none_iff]
  intro e he
  have hmem : e.1 ∈ (buildWindFieldMap cubes).map Prod.fst := List.mem_map.mpr ⟨e, he, rfl⟩
  rw [buildWindFieldMap_keys] at hmem
  have hne : k ≠ e.1 := by
    intro h
    rcases foldl_insert_subset _ _ _ hmem with h1 | h1
    · simp at h1
    · exact hk (h ▸ h1)
  simpa using hne

end FieldMap

section Grid

variable {α : Type} [LinearOrderedField α] [FloorRing α]

theorem generateCell_known (M : MathLib α) (s : Settings α) (c : Clock)
    (rand : GridKey → CellDraws α) (d : StateData α)
    (hd : getStateData M s.state = Except.ok (some d)) (cubes : List (Cube α)) (k : GridKey) :
    generateCell M s c rand d.windPattern cubes k
      = Except.ok (cubes ++ [cellCube M s c rand d.windPattern k]) := by
  simp only [generateCell, createCube, hd, cellCube]

theorem foldlM_generateCell_known (M : MathLib α) (s : Settings α) (c : Clock)
    (rand : GridKey → CellDraws α) (d : StateData α)
    (hd : getStateData M s.state = Except.ok (some d)) (l : List GridKey) :
    ∀ cubes : List (Cube α), l.foldlM (generateCell M s c rand d.windPattern) cubes
      = Except.ok (cubes ++ l.map (cellCube M s c rand d.windPattern)) := by
  induction l with
  | nil => intro cubes; simp [List.foldlM, pure, Except.pure]
  | cons k rest ih =>
    intro cubes
    rw [List.foldlM_cons, generateCell_known M s c rand d hd]
    show rest.foldlM (generateCell M s c rand d.windPattern)
      (cubes ++ [cellCube M s c rand d.windPattern k]) = _
    rw [ih]
    simp

/-- For a known region `generateGrid` stores one cube per iteration and the
lookup map built from them. -/
theorem generateGrid_known (M : MathLib α) (s : Settings α) (c : Clock)
    (rand : GridKey → CellDraws α) (d : StateData α)
    (hd : getStateData M s.state = Except.ok (some d)) (a : AppState α) :
    generateGrid M s c rand a
      = Except.ok
          { windCubes := gridCells.map (cellCube M s c rand d.windPattern)
            windFieldMap :=
              some (buildWindFieldMap (gridCells.map (cellCube M s c rand d.windPattern))) } := by
  simp only [generateGrid, hd, clearExisting, foldlM_generateCell_known M s c rand d hd,
    List.nil_append]

theorem cellCube_position (M : MathLib α) (s : Settings α) (c : Clock)
    (rand : GridKey → CellDraws α) (wp : String) (l : List GridKey) :
    (l.map (cellCube M s c rand wp)).map Cube.position
      = l.map (fun k => (k.1, k.2.1 * GRID_SPACING, k.2.2)) := by
  simp [cellCube, Function.comp_def]

theorem generateGrid_error (M : MathLib α) (s : Settings α) (c : Clock)
    (rand : GridKey → CellDraws α) (e : JSError)
    (hd : getStateData M s.state = Except.error e) (a : AppState α) :
    generateGrid M s c rand a = Except.error e := by
  simp only [generateGrid, hd]

theorem generateGrid_null (M : MathLib α) (s : Settings α) (c : Clock)
    (rand : GridKey → CellDraws α)
    (hd : getStateData M s.state = Except.ok none) (a : AppState α) :
    generateGrid M s c rand a = Except.ok (clearExisting a) := by
  simp only [generateGrid, hd]

theorem cellCube_no_storm (M : MathLib α) (s1 s2 : Settings α) (c : Clock)
    (rand1 rand2 : GridKey → CellDraws α) (wp : String)
    (h1 : s1.hurricaneActive = false) (t1 : s1.thunderstormActive = false)
    (h2 : s2.hurricaneActive = false) (t2 : s2.thunderstormActive = false) :
    cellCube M s1 c rand1 wp = cellCube M s2 c rand2 wp := by
  funext k
  simp only [cellCube]
  rw [generateDirection_no_storm M s1 s2 c (rand1 k).direction (rand2 k).direction wp _ _ _
      h1 t1 h2 t2,
    calculateSpeed_no_storm M s1 s2 c (rand1 k).speed (rand2 k).speed wp _ _ _ h1 t1 h2 t2]

/-- With no storm active the generated field depends on the settings only
through the region, and on no draw. -/
theorem generateGrid_no_storm_congr (M : MathLib α) (s1 s2 : Settings α) (c : Clock)
    (rand1 rand2 : GridKey → CellDraws α) (a : AppState α) (hs : s2.state = s1.state)
    (h1 : s1.hurricaneActive = false) (t1 : s1.thunderstormActive = false)
    (h2 : s2.hurricaneActive = false) (t2 : s2.thunderstormActive = false) :
    generateGrid M s1 c rand1 a = generateGrid M s2 c rand2 a := by
  cases hd : getStateData M s1.state with
  | error e =>
    rw [generateGrid_error M s1 c rand1 e hd, generateGrid_error M s2 c rand2 e (hs ▸ hd)]
  | ok o =>
    cases o with
    | none =>
      rw [generateGrid_null M s1 c rand1 hd, generateGrid_null M s2 c rand2 (hs ▸ hd)]
    | some d =>
      rw [generateGrid_known M s1 c rand1 d hd, generateGrid_known M s2 c rand2 d (hs ▸ hd),
        cellCube_no_storm M s1 s2 c rand1 rand2 d.windPattern h1 t1 h2 t2]

/-- The keys of the grid: `x` and `z` on the axis, `y` a level times the spacing. -/
theorem mem_gridKeys (k : GridKey) :
    k ∈ gridKeys ↔
      k.1 ∈ gridAxis ∧ (∃ y ∈ gridLevels, k.2.1 = y * GRID_SPACING) ∧ k.2.2 ∈ gridAxis := by
  obtain ⟨x, y, z⟩ := k
  simp only [gridKeys, gridCells, List.mem_map, List.mem_flatMap]
  constructor
  · rintro ⟨k', ⟨x', hx, y', hy, z', hz, rfl⟩, hk⟩
    simp only [Prod.mk.injEq] at hk
    obtain ⟨rfl, rfl, rfl⟩ := hk
    exact ⟨hx, ⟨y', hy, rfl⟩, hz⟩
  · rintro ⟨hx, ⟨y', hy, hy'⟩, hz⟩
    exact ⟨(x, y', z), ⟨x, hx, y', hy, z, hz, rfl⟩, by simp [hy']⟩

theorem origin_not_gridKey : ((0, 0, 0) : GridKey) ∉ gridKeys := by
  rw [mem_gridKeys]
  rintro ⟨hx, -, -⟩
  revert hx
  decide

theorem gridCell_origin : gridCell (0 : α) 0 0 = (0, 0, 0) := by
  have h : jsRound ((0 : α) / ((GRID_SPACING : ℤ) : α)) = 0 := by
    unfold jsRound
    rw [Int.floor_eq_iff]
    constructor <;> norm_num
  simp only [gridCell, h]
  decide

/-- C3: the origin lies inside `GRID_BOUNDS`, its quantised cell is (0, 0, 0),
which is no key of the grid (the keys have odd `x` and `z`), and after
`generateGrid` for the initial settings the lookup misses, so the sampler
returns the default direction (1, 0, 0). -/
theorem sampleWindDirection_origin_misses (M : MathLib α) (c : Clock)
    (rand : GridKey → CellDraws α) (a : AppState α) :
    inGridBounds (0 : α) 0 0 ∧ gridCell (0 : α) 0 0 = (0, 0, 0) ∧
    ((0, 0, 0) : GridKey) ∉ gridKeys ∧
    ∃ a' m, generateGrid M defaultSettings c rand a = Except.ok a' ∧
      a'.windCubes.map Cube.position = gridKeys ∧
      a'.windFieldMap = some m ∧ mapGet m (gridCell (0 : α) 0 0) = none ∧
      sampleWindDirection a' 0 0 0 = ⟨1, 0, 0⟩ := by
  obtain ⟨e, d, -, hd, -⟩ := getStateData_known M "Florida" (by decide)
  have hg := generateGrid_known M defaultSettings c rand d hd a
  have hpos : (gridCells.map (cellCube M defaultSettings c rand d.windPattern)).map Cube.position
      = gridKeys := cellCube_position M defaultSettings c rand d.windPattern gridCells
  have hnone : mapGet
      (buildWindFieldMap (gridCells.map (cellCube M defaultSettings c rand d.windPattern)))
      (gridCell (0 : α) 0 0) = none := by
    apply mapGet_buildWindFieldMap_none
    rw [hpos, gridCell_origin]
    exact origin_not_gridKey
  refine ⟨?_, gridCell_origin, origin_not_gridKey, _, _, hg, hpos, rfl, hnone, ?_⟩
  · simp only [inGridBounds, GRID_RANGE, FLIGHT_LEVELS_COUNT, GRID_SPACING]
    norm_num
  · simp only [sampleWindDirection, hnone, Option.getD_none]

/-- C6: when both storm flags are inactive the generated field does not
depend on the stored storm positions, the intensity or the draws; so selecting
the hurricane (which stores a new random position `p` and regenerates) and then
selecting no storm leaves exactly the field that `generateGrid` produces from
the settings in which no storm was ever activated. -/
theorem hurricane_toggle_restores_field (M : MathLib α) (c : Clock)
    (rand0 rand1 rand2 : GridKey → CellDraws α) (p p' : α × α) (w : Sim α)
    (h : w.settings.hurricaneActive = false) (t : w.settings.thunderstormActive = false) :
    (∀ (q1 q2 : α × α) (I : ℕ) (a : AppState α),
      generateGrid M
        { w.settings with hurricanePosition := q1, thunderstormPosition := q2,
                          hurricaneIntensity := I } c rand1 a
        = generateGrid M w.settings c rand0 a) ∧
    ((stormModeChange M c rand1 p StormMode.hurricane w).bind
        (stormModeChange M c rand2 p' StormMode.none)).map Sim.app
      = generateGrid M w.settings c rand0 w.app := by
  constructor
  · intro q1 q2 I a
    exact generateGrid_no_storm_congr M _ _ c rand1 rand0 a rfl h t h t
  · have hon : stormModeChange M c rand1 p StormMode.hurricane w
        = regenerate M c rand1
            ⟨setStormPosition StormMode.hurricane p (setStormFlags StormMode.hurricane w.settings),
              w.app⟩ := rfl
    have hoff : ∀ v : Sim α, stormModeChange M c rand2 p' StormMode.none v
        = regenerate M c rand2 ⟨setStormFlags StormMode.none v.settings, v.app⟩ := fun _ => rfl
    have hback : ∀ a : AppState α,
        generateGrid M (setStormFlags StormMode.none
          (setStormPosition StormMode.hurricane p (setStormFlags StormMode.hurricane w.settings)))
          c rand2 a = generateGrid M w.settings c rand0 a := fun a =>
      generateGrid_no_storm_congr M _ _ c rand2 rand0 a rfl rfl rfl h t
    rw [hon]
    cases hd : getStateData M w.settings.state with
    | error e =>
      have h1 := generateGrid_error M
        (setStormPosition StormMode.hurricane p (setStormFlags StormMode.hurricane w.settings))
        c rand1 e hd w.app
      rw [generateGrid_error M w.settings c rand0 e hd]
      simp only [regenerate, h1]
      rfl
    | ok o =>
      cases o with
      | none =>
        have h1 := generateGrid_null M
          (setStormPosition StormMode.hurricane p (setStormFlags StormMode.hurricane w.settings))
          c rand1 hd w.app
        simp only [regenerate, h1, Except.bind, hoff, hback]
        rw [generateGrid_null M w.settings c rand0 hd, generateGrid_null M w.settings c rand0 hd]
        rfl
      | some d =>
        have h1 := generateGrid_known M
          (setStormPosition StormMode.hurricane p (setStormFlags StormMode.hurricane w.settings))
          c rand1 d hd w.app
        simp only [regenerate, h1, Except.bind, hoff, hback]
        rw [generateGrid_known M w.settings c rand0 d hd, generateGrid_known M w.settings c rand0 d hd]
        rfl

/-- C6, with the real `Math` functions: the initial settings (intensity 3),
the hurricane activated at (1, 1) and deactivated again. -/
theorem hurricane_toggle_restores_field_witness :
    ((stormModeChange
        ⟨Real.sin, Real.cos, Real.exp, Real.sqrt, fun y x => Complex.arg ⟨x, y⟩, Real.pi⟩
        ⟨1703980800000, 1672444800000, 6⟩ (fun _ => ⟨1 / 2, 1 / 4⟩) (1, 1) StormMode.hurricane
        ⟨defaultSettings, ⟨[], none⟩⟩).bind
      (stormModeChange
        ⟨Real.sin, Real.cos, Real.exp, Real.sqrt, fun y x => Complex.arg ⟨x, y⟩, Real.pi⟩
        ⟨1703980800000, 1672444800000, 6⟩ (fun _ => ⟨3 / 4, 1 / 8⟩) (2, 2) StormMode.none)).map
        Sim.app
      = generateGrid
        ⟨Real.sin, Real.cos, Real.exp, Real.sqrt, fun y x => Complex.arg ⟨x, y⟩, Real.pi⟩
        (defaultSettings : Settings ℝ) ⟨1703980800000, 1672444800000, 6⟩ (fun _ => ⟨0, 0⟩)
        ⟨[], none⟩ :=
  (hurricane_toggle_restores_field
    ⟨Real.sin, Real.cos, Real.exp, Real.sqrt, fun y x => Complex.arg ⟨x, y⟩, Real.pi⟩
    ⟨1703980800000, 1672444800000, 6⟩ (fun _ => ⟨0, 0⟩) (fun _ => ⟨1 / 2, 1 / 4⟩)
    (fun _ => ⟨3 / 4, 1 / 8⟩) (1, 1) (2, 2) ⟨defaultSettings, ⟨[], none⟩⟩ rfl rfl).2

theorem cellCube_outside_core (M : MathLib α) (s : Settings α) (c : Clock)
    (rand1 rand2 : GridKey → CellDraws α) (wp : String) (k : GridKey)
    (hh : s.hurricaneActive = true →
      ¬ calculateDistance M ((k.1 : α), (k.2.2 : α)) s.hurricanePosition
          < eyeRadius s.hurricaneIntensity)
    (ht : s.hurricaneActive = false → s.thunderstormActive = true →
      ¬ calculateDistance M ((k.1 : α), (k.2.2 : α)) s.thunderstormPosition < 3) :
    cellCube M s c rand1 wp k = cellCube M s c rand2 wp k := by
  simp only [cellCube]
  rw [generateDirection_outside_core M s c (rand1 k).direction (rand2 k).direction wp _ _ _
      hh ht,
    calculateSpeed_outside_core M s c (rand1 k).speed (rand2 k).speed wp _ _ _ hh ht]

/-- C5, amended: in every storm state a second `generateGrid` with unchanged
inputs produces the same key set as the first and the same number of cubes,
cube `i` of the second run is at the position of cube `i` of the first, and
the two cubes are equal (same direction, same rounded speed) unless the
position is inside the eye of the active hurricane, or within distance 3 of
the active thunderstorm while no hurricane is active; when no storm is active
the second run produces the same field: the same cubes and the same lookup
map, whatever the draws are. -/
theorem generateGrid_idempotent_outside_core (M : MathLib α) (s : Settings α) (c : Clock)
    (rand rand' : GridKey → CellDraws α) (a : AppState α) :
    ((generateGrid M s c rand a).bind (generateGrid M s c rand')).map fieldKeys
      = (generateGrid M s c rand a).map fieldKeys ∧
    (s.hurricaneActive = false → s.thunderstormActive = false →
      (generateGrid M s c rand a).bind (generateGrid M s c rand')
        = generateGrid M s c rand a) ∧
    (∀ a1 : AppState α, generateGrid M s c rand a = Except.ok a1 →
      ∃ a2 : AppState α, generateGrid M s c rand' a1 = Except.ok a2 ∧
        a2.windCubes.length = a1.windCubes.length ∧
        ∀ (i : ℕ) (c1 : Cube α), a1.windCubes[i]? = some c1 →
          ∃ c2 : Cube α, a2.windCubes[i]? = some c2 ∧ c2.position = c1.position ∧
            ((s.hurricaneActive = true →
                ¬ calculateDistance M ((c1.position.1 : α), (c1.position.2.2 : α))
                    s.hurricanePosition < eyeRadius s.hurricaneIntensity) →
              (s.hurricaneActive = false → s.thunderstormActive = true →
                ¬ calculateDistance M ((c1.position.1 : α), (c1.position.2.2 : α))
                    s.thunderstormPosition < 3) →
              c2 = c1)) := by
  cases hd : getStateData M s.state with
  | error e =>
    rw [generateGrid_error M s c rand e hd]
    refine ⟨rfl, fun _ _ => rfl, ?_⟩
    intro a1 h1
    cases h1
  | ok o =>
    cases o with
    | none =>
      rw [generateGrid_null M s c rand hd]
      simp only [Except.bind, generateGrid_null M s c rand' hd]
      refine ⟨rfl, fun _ _ => rfl, ?_⟩
      intro a1 h1
      cases h1
      refine ⟨clearExisting (clearExisting a), rfl, rfl, ?_⟩
      intro i c1 hc1
      simp [clearExisting] at hc1
    | some d =>
      rw [generateGrid_known M s c rand d hd]
      simp only [Except.bind]
      refine ⟨?_, ?_, ?_⟩
      · simp only [generateGrid_known M s c rand' d hd, Except.map, fieldKeys,
          cellCube_position, Option.map_some', buildWindFieldMap_keys]
      · intro h t
        rw [generateGrid_known M s c rand' d hd,
          cellCube_no_storm M s s c rand' rand d.windPattern h t h t]
      · intro a1 h1
        cases h1
        refine ⟨_, generateGrid_known M s c rand' d hd _, by simp only [List.length_map], ?_⟩
        intro i c1 hc1
        simp only [List.getElem?_map] at hc1 ⊢
        cases hk : gridCells[i]? with
        | none =>
          rw [hk] at hc1
          cases hc1
        | some k =>
          rw [hk] at hc1
          simp only [Option.map_some', Option.some.injEq] at hc1
          subst hc1
          refine ⟨cellCube M s c rand' d.windPattern k, rfl, rfl, ?_⟩
          intro hh ht
          exact cellCube_outside_core M s c rand' rand d.windPattern k hh ht

/-- C5, amended, with the real `Math` functions and the initial settings. -/
theorem generateGrid_idempotent_outside_core_witness :
    (generateGrid
        ⟨Real.sin, Real.cos, Real.exp, Real.sqrt, fun y x => Complex.arg ⟨x, y⟩, Real.pi⟩
        (defaultSettings : Settings ℝ) ⟨1703980800000, 1672444800000, 6⟩ (fun _ => ⟨0, 0⟩)
        ⟨[], none⟩).bind
      (generateGrid
        ⟨Real.sin, Real.cos, Real.exp, Real.sqrt, fun y x => Complex.arg ⟨x, y⟩, Real.pi⟩
        (defaultSettings : Settings ℝ) ⟨1703980800000, 1672444800000, 6⟩
        (fun _ => ⟨1 / 2, 1 / 2⟩))
      = generateGrid
        ⟨Real.sin, Real.cos, Real.exp, Real.sqrt, fun y x => Complex.arg ⟨x, y⟩, Real.pi⟩
        (defaultSettings : Settings ℝ) ⟨1703980800000, 1672444800000, 6⟩ (fun _ => ⟨0, 0⟩)
        ⟨[], none⟩ :=
  (generateGrid_idempotent_outside_core
    ⟨Real.sin, Real.cos, Real.exp, Real.sqrt, fun y x => Complex.arg ⟨x, y⟩, Real.pi⟩
    (defaultSettings : Settings ℝ) ⟨1703980800000, 1672444800000, 6⟩ (fun _ => ⟨0, 0⟩)
    (fun _ => ⟨1 / 2, 1 / 2⟩) ⟨[], none⟩).2.1 rfl rfl

theorem gridAxis_length : gridAxis.length = 10 := by
  simp only [gridAxis, List.length_map, List.length_range]
  decide

theorem gridLevels_length : gridLevels.length = 10 := by
  simp only [gridLevels, List.length_map, List.length_range]
  decide

theorem gridCells_length : gridCells.length = 1000 := by
  simp only [gridCells, List.length_flatMap, List.length_map, gridAxis_length, Function.comp_def,
    List.map_const', List.sum_replicate, gridLevels_length, smul_eq_mul]

theorem mem_gridCells (k : GridKey) :
    k ∈ gridCells ↔ k.1 ∈ gridAxis ∧ k.2.1 ∈ gridLevels ∧ k.2.2 ∈ gridAxis := by
  obtain ⟨x, y, z⟩ := k
  simp only [gridCells, List.mem_map, List.mem_flatMap]
  constructor
  · rintro ⟨x', hx, y', hy, z', hz, hk⟩
    simp only [Prod.mk.injEq] at hk
    obtain ⟨rfl, rfl, rfl⟩ := hk
    exact ⟨hx, hy, hz⟩
  · rintro ⟨hx, hy, hz⟩
    exact ⟨x, hx, y, hy, z, hz, rfl⟩

theorem jsRound_lt_of_add_one_le (a b : α) (h : a + 1 ≤ b) : jsRound a < jsRound b := by
  unfold jsRound
  have h1 : ⌊a + 0.5⌋ + 1 = ⌊a + 0.5 + 1⌋ := (Int.floor_add_one _).symm
  have h2 : ⌊a + 0.5 + 1⌋ ≤ ⌊b + 0.5⌋ := Int.floor_le_floor (by linarith)
  omega

end Grid

section RealModel

/-- The speed `calculateSpeed` computes with the real `Math` functions at the
cell (1, 0, 1), in the eye of a hurricane of intensity 3 centred at (1, 1), at
hour 6 of day 365, with the draw `r`. -/
theorem calculateSpeed_eye_value (r : ℝ) :
    calculateSpeed
        ⟨Real.sin, Real.cos, Real.exp, Real.sqrt, fun y x => Complex.arg ⟨x, y⟩, Real.pi⟩
        ⟨"Florida", false, (0, 0), true, (1, 1), 3⟩ ⟨1703980800000, 1672444800000, 6⟩
        r "gulf_stream" 1 0 1
      = some (max 5 (min 100 (5 + r * 10 +
          (getRegionalSpeedModifier
            ⟨Real.sin, Real.cos, Real.exp, Real.sqrt, fun y x => Complex.arg ⟨x, y⟩, Real.pi⟩
            ⟨1703980800000, 1672444800000, 6⟩ "gulf_stream" 1 0 1 + 5 + 8)))) := by
  have hday : dayOfYear ℝ ⟨1703980800000, 1672444800000, 6⟩ = 365 := by
    unfold dayOfYear
    rw [Int.floor_eq_iff]
    constructor <;> norm_num
  have hsin : Real.sin ((6 : ℝ) / 24 * 2 * Real.pi) = 1 := by
    have : (6 : ℝ) / 24 * 2 * Real.pi = Real.pi / 2 := by ring
    rw [this, Real.sin_pi_div_two]
  have hcos : Real.cos ((365 : ℝ) / 365 * 2 * Real.pi) = 1 := by
    have : (365 : ℝ) / 365 * 2 * Real.pi = 2 * Real.pi := by ring
    rw [this, Real.cos_two_pi]
  have heye : calculateHurricaneSpeed
      ⟨Real.sin, Real.cos, Real.exp, Real.sqrt, fun y x => Complex.arg ⟨x, y⟩, Real.pi⟩
      ⟨"Florida", false, (0, 0), true, (1, 1), 3⟩ r 1 0 1 = some (5 + r * 10) := by
    have hlt : Real.sqrt ((1 - 1) ^ 2 + (1 - 1) ^ 2) < (eyeRadius 3 : ℝ) := by
      have h0 : ((1 : ℝ) - 1) ^ 2 + (1 - 1) ^ 2 = 0 := by norm_num
      rw [h0, Real.sqrt_zero]
      simp only [eyeRadius, EYE_BASE_RADIUS, EYE_RADIUS_SCALE]
      norm_num
    simp only [calculateHurricaneSpeed, calculateDistance, if_pos hlt]
  simp only [calculateSpeed, heye, hday, if_true, Option.map_some', SPEED_MIN, SPEED_MAX,
    Int.cast_ofNat, hsin, hcos]
  norm_num

theorem getRegionalSpeedModifier_gulf_bounds (c : Clock) (x y z : ℝ) :
    -20 ≤ getRegionalSpeedModifier
      ⟨Real.sin, Real.cos, Real.exp, Real.sqrt, fun y x => Complex.arg ⟨x, y⟩, Real.pi⟩
      c "gulf_stream" x y z ∧
    getRegionalSpeedModifier
      ⟨Real.sin, Real.cos, Real.exp, Real.sqrt, fun y x => Complex.arg ⟨x, y⟩, Real.pi⟩
      c "gulf_stream" x y z ≤ 20 := by
  have hne : ("gulf_stream" : String) ≠ "nor_easter" := by decide
  simp only [getRegionalSpeedModifier, seededRandom, if_neg hne, if_true]
  have h1 := Real.neg_one_le_sin ((z + 10) * 0.3)
  have h2 := Real.sin_le_one ((z + 10) * 0.3)
  have h3 := Real.neg_one_le_sin
    (timeSeed c + x * 1000 + y * 100 + z * 10)
  have h4 := Real.sin_le_one
    (timeSeed c + x * 1000 + y * 100 + z * 10)
  constructor <;> linarith

/-- C5, as stated, fails with a hurricane active: with the real `Math`
functions, a hurricane of intensity 3 centred on the cell (1, 0, 1), and the
draws 0 in the first run and 0.99 in the second, the two runs store different
rounded speeds for the key (1, 0, 1). -/
theorem generateGrid_hurricane_not_idempotent :
    ∃ (a1 a2 : AppState ℝ) (c1 c2 : Cube ℝ),
      generateGrid
        ⟨Real.sin, Real.cos, Real.exp, Real.sqrt, fun y x => Complex.arg ⟨x, y⟩, Real.pi⟩
        ⟨"Florida", false, (0, 0), true, (1, 1), 3⟩ ⟨1703980800000, 1672444800000, 6⟩
        (fun _ => ⟨0, 0⟩) ⟨[], none⟩ = Except.ok a1 ∧
      generateGrid
        ⟨Real.sin, Real.cos, Real.exp, Real.sqrt, fun y x => Complex.arg ⟨x, y⟩, Real.pi⟩
        ⟨"Florida", false, (0, 0), true, (1, 1), 3⟩ ⟨1703980800000, 1672444800000, 6⟩
        (fun _ => ⟨0.99, 0.99⟩) a1 = Except.ok a2 ∧
      c1 ∈ a1.windCubes ∧ c2 ∈ a2.windCubes ∧
      c1.position = (1, 0, 1) ∧ c2.position = (1, 0, 1) ∧ c1.speed ≠ c2.speed := by
  have hmem : ((1, 0, 1) : GridKey) ∈ gridCells := by
    rw [mem_gridCells]
    decide
  refine ⟨_, _, _, _,
    generateGrid_known _ _ _ _ _ (florida_stateData_value _) _,
    generateGrid_known _ _ _ _ _ (florida_stateData_value _) _,
    List.mem_map_of_mem _ hmem, List.mem_map_of_mem _ hmem, ?_, ?_, ?_⟩
  · simp [cellCube, GRID_SPACING]
  · simp [cellCube, GRID_SPACING]
  · have e1 := calculateSpeed_eye_value 0
    have e2 := calculateSpeed_eye_value 0.99
    obtain ⟨hlo, hhi⟩ := getRegionalSpeedModifier_gulf_bounds
      ⟨1703980800000, 1672444800000, 6⟩ 1 0 1
    simp only [cellCube, GRID_SPACING, Int.cast_one, zero_mul, Int.cast_zero, e1, e2,
      Option.map_some', ne_eq, Option.some.injEq]
    apply ne_of_lt
    apply jsRound_lt_of_add_one_le
    generalize getRegionalSpeedModifier
      ⟨Real.sin, Real.cos, Real.exp, Real.sqrt, fun y x => Complex.arg ⟨x, y⟩, Real.pi⟩
      ⟨1703980800000, 1672444800000, 6⟩ "gulf_stream" 1 0 1 = G at hlo hhi ⊢
    clear e1 e2 hmem
    simp only [max_def, min_def]
    split_ifs <;> norm_num at * <;> linarith

end RealModel


section TimeControls

theorem changeTime_step (K : Calendar) (c : Clock) (h : c.hour + 1 < 24) (h0 : 0 ≤ c.hour + 1) :
    changeTime K 1 c = { c with hour := c.hour + 1 } := by
  simp only [changeTime, ge_iff_le]
  rw [if_neg (by omega), if_neg (by omega)]

theorem changeTime_wrap (K : Calendar) (c : Clock) (h : c.hour = 23) :
    changeTime K 1 c = changeDate K 1 { c with hour := 0 } := by
  simp only [changeTime, ge_iff_le]
  rw [if_pos (by omega)]

theorem changeTime_iterate_below (K : Calendar) (k : ℕ) :
    ∀ c : Clock, 0 ≤ c.hour → c.hour + (k : ℤ) ≤ 23 →
      (changeTime K 1)^[k] c = { c with hour := c.hour + (k : ℤ) } := by
  induction k with
  | zero => intro c _ _; simp
  | succ n ih =>
    intro c h0 h1
    rw [Function.iterate_succ_apply, changeTime_step K c (by omega) (by omega)]
    rw [ih _ (by simp only; omega) (by simp only; push_cast at h1; omega)]
    simp only [Clock.mk.injEq, true_and]
    push_cast
    ring

/-- C11: from every clock with an hour in 0..23, twenty-four calls
`changeTime(+1)` end in the same clock as one call `changeDate(+1)`: the date
one `setDate(getDate() + 1)` later and the hour unchanged. -/
theorem changeTime_24_eq_changeDate (K : Calendar) (c : Clock)
    (h0 : 0 ≤ c.hour) (h23 : c.hour ≤ 23) :
    (changeTime K 1)^[24] c = changeDate K 1 c ∧
    changeDate K 1 c = ⟨K.addDays c.time 1, K.yearStart (K.addDays c.time 1), c.hour⟩ := by
  refine ⟨?_, rfl⟩
  obtain ⟨k, hk⟩ : ∃ k : ℕ, (k : ℤ) = 23 - c.hour := ⟨(23 - c.hour).toNat, by omega⟩
  obtain ⟨j, hj⟩ : ∃ j : ℕ, (j : ℤ) = c.hour := ⟨c.hour.toNat, by omega⟩
  have hsplit : 24 = j + (1 + k) := by omega
  rw [hsplit, Function.iterate_add_apply, Function.iterate_add_apply,
    changeTime_iterate_below K k c h0 (by omega), Function.iterate_one,
    changeTime_wrap K _ (by simp only; omega),
    changeTime_iterate_below K j _ (by simp [changeDate]) (by simp only [changeDate]; omega)]
  simp only [changeDate, Clock.mk.injEq, true_and]
  omega

/-- C11, at 14:00 on 15 October 2024, on a calendar whose days all have
86400000 ms and whose year starts at the end of 2023. -/
theorem changeTime_24_eq_changeDate_witness :
    (changeTime ⟨fun t n => t + n * 86400000, fun _ => 1703980800000⟩ 1)^[24]
        ⟨1728950400000, 1703980800000, 14⟩
      = changeDate ⟨fun t n => t + n * 86400000, fun _ => 1703980800000⟩ 1
        ⟨1728950400000, 1703980800000, 14⟩ :=
  (changeTime_24_eq_changeDate ⟨fun t n => t + n * 86400000, fun _ => 1703980800000⟩
    ⟨1728950400000, 1703980800000, 14⟩ (by decide) (by decide)).1

end TimeControls

section HurricaneZones

variable {α : Type} [LinearOrderedField α]

theorem eyeRadius_lt_eyeWallRadius (I : ℕ) : (eyeRadius I : α) < eyeWallRadius I := by
  simp only [eyeWallRadius, EYEWALL_OFFSET]
  norm_num

theorem eyeWallRadius_lt_spiralRadius (I : ℕ) : (eyeWallRadius I : α) < spiralRadius I := by
  have hI : (0 : α) ≤ (I : α) := Nat.cast_nonneg I
  simp only [eyeRadius, eyeWallRadius, spiralRadius, EYE_BASE_RADIUS, EYE_RADIUS_SCALE,
    EYEWALL_OFFSET, SPIRAL_BASE_RADIUS, SPIRAL_RADIUS_SCALE]
  norm_num
  linarith

theorem maxY_eq : (((FLIGHT_LEVELS_COUNT * GRID_SPACING : ℤ) : α)) = 20 := by
  simp only [FLIGHT_LEVELS_COUNT, GRID_SPACING]
  norm_num

/-- C19: with altitude `y` in [0, 20], `hurricaneVertical` is -0.6 in the eye,
`0.9 * (1 - 0.5 * y / 20)` in the eyewall (at most 0.9, reached at `y = 0`,
and decreasing in `y`), `0.5 * (1 - (d - eyewallRadius) / (spiralRadius -
eyewallRadius))` in the spiral band at distance `d`, and beyond the spiral
radius -0.35 when `y > 14` and -0.1 otherwise; the result lies in [-0.6, 0.9],
and it is the vertical component when the hurricane is active. -/
theorem hurricaneVertical_zones (M : MathLib α) (s : Settings α) (x y z : α)
    (hy0 : 0 ≤ y) (hy20 : y ≤ 20) :
    (calculateDistance M (x, z) s.hurricanePosition < eyeRadius s.hurricaneIntensity →
      hurricaneVertical M s x y z = -0.6) ∧
    (eyeRadius s.hurricaneIntensity ≤ calculateDistance M (x, z) s.hurricanePosition →
      calculateDistance M (x, z) s.hurricanePosition < eyeWallRadius s.hurricaneIntensity →
      hurricaneVertical M s x y z = 0.9 * (1 - 0.5 * y / 20)) ∧
    (∀ y' : α, y ≤ y' → 0.9 * (1 - 0.5 * y' / 20) ≤ 0.9 * (1 - 0.5 * y / 20) ∧
      0.9 * (1 - 0.5 * y / 20) ≤ (0.9 : α)) ∧
    (eyeWallRadius s.hurricaneIntensity ≤ calculateDistance M (x, z) s.hurricanePosition →
      calculateDistance M (x, z) s.hurricanePosition < spiralRadius s.hurricaneIntensity →
      hurricaneVertical M s x y z
        = 0.5 * (1 - (calculateDistance M (x, z) s.hurricanePosition
            - eyeWallRadius s.hurricaneIntensity)
          / (spiralRadius s.hurricaneIntensity - eyeWallRadius s.hurricaneIntensity))) ∧
    (spiralRadius s.hurricaneIntensity ≤ calculateDistance M (x, z) s.hurricanePosition →
      14 < y → hurricaneVertical M s x y z = -0.35) ∧
    (spiralRadius s.hurricaneIntensity ≤ calculateDistance M (x, z) s.hurricanePosition →
      y ≤ 14 → hurricaneVertical M s x y z = -0.1) ∧
    -0.6 ≤ hurricaneVertical M s x y z ∧ hurricaneVertical M s x y z ≤ 0.9 ∧
    (s.hurricaneActive = true →
      calculateVerticalComponent M s x y z = hurricaneVertical M s x y z) := by
  have h12 : (eyeRadius s.hurricaneIntensity : α) < eyeWallRadius s.hurricaneIntensity :=
    eyeRadius_lt_eyeWallRadius _
  have h23 : (eyeWallRadius s.hurricaneIntensity : α) < spiralRadius s.hurricaneIntensity :=
    eyeWallRadius_lt_spiralRadius _
  generalize hd : calculateDistance M (x, z) s.hurricanePosition = d
  have hv : hurricaneVertical M s x y z =
      if d < eyeRadius s.hurricaneIntensity then -0.6
      else if d < eyeWallRadius s.hurricaneIntensity then 0.9 * (1 - (y / 20) * 0.5)
      else if d < spiralRadius s.hurricaneIntensity then
        0.5 * (1 - ((d - eyeWallRadius s.hurricaneIntensity)
          / (spiralRadius s.hurricaneIntensity - eyeWallRadius s.hurricaneIntensity)))
      else if y > 20 * 0.7 then -0.35 else -0.1 := by
    simp only [hurricaneVertical, hd, maxY_eq]
  refine ⟨?_, ?_, ?_, ?_, ?_, ?_, ?_, ?_, ?_⟩
  · intro h
    rw [hv, if_pos h]
  · intro h1 h2
    rw [hv, if_neg (not_lt.mpr h1), if_pos h2]
    ring
  · intro y' hy'
    constructor <;> linarith
  · intro h1 h2
    rw [hv, if_neg (not_lt.mpr (h12.le.trans h1)), if_neg (not_lt.mpr h1), if_pos h2]
  · intro h1 h2
    rw [hv, if_neg (not_lt.mpr ((h12.le.trans h23.le).trans h1)),
      if_neg (not_lt.mpr (h23.le.trans h1)), if_neg (not_lt.mpr h1), if_pos (by linarith)]
  · intro h1 h2
    rw [hv, if_neg (not_lt.mpr ((h12.le.trans h23.le).trans h1)),
      if_neg (not_lt.mpr (h23.le.trans h1)), if_neg (not_lt.mpr h1),
      if_neg (by linarith)]
  · rw [hv]
    split_ifs with a b e f
    · norm_num
    · linarith
    · have hw : (0 : α) < spiralRadius s.hurricaneIntensity - eyeWallRadius s.hurricaneIntensity := by
        linarith
      have hq : 0 ≤ (d - eyeWallRadius s.hurricaneIntensity)
          / (spiralRadius s.hurricaneIntensity - eyeWallRadius s.hurricaneIntensity) :=
        div_nonneg (by linarith) hw.le
      have hq1 : (d - eyeWallRadius s.hurricaneIntensity)
          / (spiralRadius s.hurricaneIntensity - eyeWallRadius s.hurricaneIntensity) ≤ 1 := by
        rw [div_le_one hw]
        linarith
      linarith
    · norm_num
    · norm_num
  · rw [hv]
    split_ifs with a b e f
    · norm_num
    · linarith
    · have hw : (0 : α) < spiralRadius s.hurricaneIntensity - eyeWallRadius s.hurricaneIntensity := by
        linarith
      have hq : 0 ≤ (d - eyeWallRadius s.hurricaneIntensity)
          / (spiralRadius s.hurricaneIntensity - eyeWallRadius s.hurricaneIntensity) :=
        div_nonneg (by linarith) hw.le
      linarith
    · norm_num
    · norm_num
  · intro h
    simp only [calculateVerticalComponent, h, if_true]

/-- C19, with the real `Math` functions, in the eye of a hurricane of
intensity 3 at ground level. -/
theorem hurricaneVertical_zones_witness :
    (0 : ℝ) ≤ 0 ∧ (0 : ℝ) ≤ 20 ∧
    -0.6 ≤ hurricaneVertical
      ⟨Real.sin, Real.cos, Real.exp, Real.sqrt, fun y x => Complex.arg ⟨x, y⟩, Real.pi⟩
      ⟨"Florida", false, (0, 0), true, (1, 1), 3⟩ 1 0 1 ∧
    hurricaneVertical
      ⟨Real.sin, Real.cos, Real.exp, Real.sqrt, fun y x => Complex.arg ⟨x, y⟩, Real.pi⟩
      ⟨"Florida", false, (0, 0), true, (1, 1), 3⟩ 1 0 1 ≤ 0.9 :=
  ⟨le_refl 0, by norm_num,
    (hurricaneVertical_zones
      ⟨Real.sin, Real.cos, Real.exp, Real.sqrt, fun y x => Complex.arg ⟨x, y⟩, Real.pi⟩
      ⟨"Florida", false, (0, 0), true, (1, 1), 3⟩ 1 0 1 (le_refl 0) (by norm_num)).2.2.2.2.2.2.1,
    (hurricaneVertical_zones
      ⟨Real.sin, Real.cos, Real.exp, Real.sqrt, fun y x => Complex.arg ⟨x, y⟩, Real.pi⟩
      ⟨"Florida", false, (0, 0), true, (1, 1), 3⟩ 1 0 1 (le_refl 0)
      (by norm_num)).2.2.2.2.2.2.2.1⟩

/-- C15: the zone tests are strict.  At a distance equal to the eye radius the
three hurricane functions take their eyewall branch, at the eyewall radius
their spiral-band branch, and at the spiral radius their outer branch. -/
theorem hurricane_boundaries_strict (M : MathLib α) (s : Settings α) (r x y z : α) :
    (calculateDistance M (x, z) s.hurricanePosition = eyeRadius s.hurricaneIntensity →
      hurricaneVertical M s x y z = 0.9 * (1 - (y / 20) * 0.5) ∧
      calculateHurricaneEffect M s r x y z
        = M.atan2 (z - s.hurricanePosition.2) (x - s.hurricanePosition.1) * 180 / M.PI + 90 - 15
          + M.sin ((y / 10) * M.PI) * 10 ∧
      calculateHurricaneSpeed M s r x y z
        = (CATEGORY_WINDS[s.hurricaneIntensity]?).map (fun w =>
            ((w : α) * 0.7 + ((w : α) * 0.3 * 1)
              + (M.sin (x * 3 + y * 2 + z * 2.5) + M.cos (x * 2 + y * 2.5 + z * 2)) * 20)
            * (0.7 + M.sin ((y / 10) * M.PI) * 0.3))) ∧
    (calculateDistance M (x, z) s.hurricanePosition = eyeWallRadius s.hurricaneIntensity →
      hurricaneVertical M s x y z = 0.5 * 1 ∧
      calculateHurricaneEffect M s r x y z
        = M.atan2 (z - s.hurricanePosition.2) (x - s.hurricanePosition.1) * 180 / M.PI + 90
          - (30 * 1)
          + M.sin (eyeWallRadius s.hurricaneIntensity * 2
              + M.atan2 (z - s.hurricanePosition.2) (x - s.hurricanePosition.1) * 180 / M.PI
                * 0.1) * 15
          + (if y > 6 then (y - 6) * 5 else 0) ∧
      calculateHurricaneSpeed M s r x y z
        = (CATEGORY_WINDS[s.hurricaneIntensity]?).map (fun w =>
            (w : α) * 0.3 + ((w : α) * 0.4 * 1)
              + M.sin (eyeWallRadius s.hurricaneIntensity * 1.5) * 15
              + M.cos (eyeWallRadius s.hurricaneIntensity * 0.8) * 10)) ∧
    (calculateDistance M (x, z) s.hurricanePosition = spiralRadius s.hurricaneIntensity →
      hurricaneVertical M s x y z = (if y > 20 * 0.7 then -0.35 else -0.1) ∧
      calculateHurricaneEffect M s r x y z
        = (if y > 8 then
            (M.atan2 (z - s.hurricanePosition.2) (x - s.hurricanePosition.1) * 180 / M.PI - 90)
              * M.exp (-0 / 3) * 0.3
          else 0) ∧
      calculateHurricaneSpeed M s r x y z
        = some (max 5 (if y > 8 then 10 + (y * 2.5) + M.exp (-0 / 4) * 25
            else 10 + (y * 2.5) + M.exp (-0 / 6) * 15))) := by
  have h12 : (eyeRadius s.hurricaneIntensity : α) < eyeWallRadius s.hurricaneIntensity :=
    eyeRadius_lt_eyeWallRadius _
  have h23 : (eyeWallRadius s.hurricaneIntensity : α) < spiralRadius s.hurricaneIntensity :=
    eyeWallRadius_lt_spiralRadius _
  have h13 := h12.trans h23
  have hw1 : (eyeWallRadius s.hurricaneIntensity : α) - eyeRadius s.hurricaneIntensity ≠ 0 :=
    ne_of_gt (by linarith)
  have hw2 : (spiralRadius s.hurricaneIntensity : α) - eyeWallRadius s.hurricaneIntensity ≠ 0 :=
    ne_of_gt (by linarith)
  refine ⟨?_, ?_, ?_⟩
  · intro hd
    refine ⟨?_, ?_, ?_⟩
    · simp only [hurricaneVertical, hd, maxY_eq, lt_irrefl, if_false, if_pos h12]
    · simp only [calculateHurricaneEffect, hd, lt_irrefl, if_false, if_pos h12]
    · simp only [calculateHurricaneSpeed, hd, lt_irrefl, if_false, if_pos h12, sub_self,
        zero_div, sub_zero, Option.map_map]
      rfl
  · intro hd
    refine ⟨?_, ?_, ?_⟩
    · simp only [hurricaneVertical, hd, maxY_eq, lt_irrefl, if_false, if_neg (not_lt.mpr h12.le),
        if_pos h23, sub_self, zero_div, sub_zero]
    · simp only [calculateHurricaneEffect, hd, lt_irrefl, if_false,
        if_neg (not_lt.mpr h12.le), if_pos h23, sub_self, zero_div, sub_zero]
    · simp only [calculateHurricaneSpeed, hd, lt_irrefl, if_false, if_neg (not_lt.mpr h12.le),
        if_pos h23, sub_self, zero_div, sub_zero, Option.map_map]
      rfl
  · intro hd
    refine ⟨?_, ?_, ?_⟩
    · simp only [hurricaneVertical, hd, maxY_eq, lt_irrefl, if_false,
        if_neg (not_lt.mpr h13.le), if_neg (not_lt.mpr h23.le)]
    · simp only [calculateHurricaneEffect, hd, lt_irrefl, if_false,
        if_neg (not_lt.mpr h13.le), if_neg (not_lt.mpr h23.le), sub_self]
    · simp only [calculateHurricaneSpeed, hd, lt_irrefl, if_false,
        if_neg (not_lt.mpr h13.le), if_neg (not_lt.mpr h23.le), sub_self]

/-- C15, with the real `Math` functions: intensity 3, the storm at the origin
and the position (1.1, 0, 0), at distance 1.1, the eye radius. -/
theorem hurricane_boundaries_strict_witness :
    calculateDistance
        ⟨Real.sin, Real.cos, Real.exp, Real.sqrt, fun y x => Complex.arg ⟨x, y⟩, Real.pi⟩
        ((1.1 : ℝ), (0 : ℝ)) ((0 : ℝ), (0 : ℝ)) = eyeRadius 3 ∧
    hurricaneVertical
        ⟨Real.sin, Real.cos, Real.exp, Real.sqrt, fun y x => Complex.arg ⟨x, y⟩, Real.pi⟩
        ⟨"Florida", false, (0, 0), true, (0, 0), 3⟩ 1.1 0 0 = 0.9 * (1 - ((0 : ℝ) / 20) * 0.5) :=
  have hd : calculateDistance
      ⟨Real.sin, Real.cos, Real.exp, Real.sqrt, fun y x => Complex.arg ⟨x, y⟩, Real.pi⟩
      ((1.1 : ℝ), (0 : ℝ)) ((0 : ℝ), (0 : ℝ)) = eyeRadius 3 := by
    have h0 : ((1.1 : ℝ) - 0) ^ 2 + ((0 : ℝ) - 0) ^ 2 = 1.1 ^ 2 := by norm_num
    simp only [calculateDistance, h0, eyeRadius, EYE_BASE_RADIUS, EYE_RADIUS_SCALE]
    rw [Real.sqrt_sq (by norm_num)]
    norm_num
  ⟨hd, ((hurricane_boundaries_strict
    ⟨Real.sin, Real.cos, Real.exp, Real.sqrt, fun y x => Complex.arg ⟨x, y⟩, Real.pi⟩
    ⟨"Florida", false, (0, 0), true, (0, 0), 3⟩ 0 1.1 0 0).1 hd).1⟩

end HurricaneZones

section SpeedComposition

variable {α : Type} [LinearOrderedField α]

/-- C20: within 3 units of the thunderstorm and above altitude 2 the result
of `calculateThunderstormSpeed` is at least 60 for every draw `r ≥ 0`; outside
that region it is `(30 sin(πy/10) + turbulence) * exp(-distance/4)`, in which
the draw does not occur. -/
theorem calculateThunderstormSpeed_gust (M : MathLib α) (s : Settings α) (r x y z : α) :
    (calculateDistance M (x, z) s.thunderstormPosition < 3 → 2 < y → 0 ≤ r →
      60 ≤ calculateThunderstormSpeed M s r x y z) ∧
    (¬ (calculateDistance M (x, z) s.thunderstormPosition < 3 ∧ 2 < y) →
      calculateThunderstormSpeed M s r x y z
        = (30 * M.sin (M.PI * y / 10) + thunderstormTurbulence M x y z)
          * M.exp (-calculateDistance M (x, z) s.thunderstormPosition / 4)) := by
  have harg : y / 10 * M.PI = M.PI * y / 10 := by ring
  constructor
  · intro hd hy hr
    simp only [calculateThunderstormSpeed, gt_iff_lt]
    rw [if_pos ⟨hd, hy⟩]
    exact le_trans (by linarith) (le_max_right _ _)
  · intro hn
    simp only [calculateThunderstormSpeed, gt_iff_lt, thunderstormTurbulence]
    rw [if_neg hn, harg]
    ring

/-- C20, with the real `Math` functions: the storm at the origin, the
position (1, 4, 1) and the draw 0.5. -/
theorem calculateThunderstormSpeed_gust_witness :
    (60 : ℝ) ≤ calculateThunderstormSpeed
      ⟨Real.sin, Real.cos, Real.exp, Real.sqrt, fun y x => Complex.arg ⟨x, y⟩, Real.pi⟩
      ⟨"Florida", true, (0, 0), false, (0, 0), 3⟩ 0.5 1 4 1 :=
  (calculateThunderstormSpeed_gust
    ⟨Real.sin, Real.cos, Real.exp, Real.sqrt, fun y x => Complex.arg ⟨x, y⟩, Real.pi⟩
    ⟨"Florida", true, (0, 0), false, (0, 0), 3⟩ 0.5 1 4 1).1
    (by
      have h0 : ((1 : ℝ) - 0) ^ 2 + ((1 : ℝ) - 0) ^ 2 = 2 := by norm_num
      simp only [calculateDistance, h0]
      rw [Real.sqrt_lt' (by norm_num)]
      norm_num)
    (by norm_num) (by norm_num)

/-- C18: with no storm active `calculateSpeed` is
`clamp(10 + 2.5 y + 5 sin(2π hour/24) + 8 cos(2π dayOfYear/365) + modifier, 5, 100)`;
with a hurricane active the base term `10 + 2.5 y` is replaced by
`calculateHurricaneSpeed`; with a thunderstorm active (and no hurricane)
`calculateThunderstormSpeed` is added to the base term. -/
theorem calculateSpeed_composition [FloorRing α] (M : MathLib α) (s : Settings α) (c : Clock)
    (r : α) (pattern : String) (x y z : α) :
    (s.hurricaneActive = false → s.thunderstormActive = false →
      calculateSpeed M s c r pattern x y z
        = some (clamp (10 + 2.5 * y + 5 * M.sin (2 * M.PI * (c.hour : α) / 24)
            + 8 * M.cos (2 * M.PI * ((dayOfYear α c : ℤ) : α) / 365)
            + getRegionalSpeedModifier M c pattern x y z) 5 100)) ∧
    (s.hurricaneActive = true →
      calculateSpeed M s c r pattern x y z
        = (calculateHurricaneSpeed M s r x y z).map (fun v =>
            clamp (v + 5 * M.sin (2 * M.PI * (c.hour : α) / 24)
              + 8 * M.cos (2 * M.PI * ((dayOfYear α c : ℤ) : α) / 365)
              + getRegionalSpeedModifier M c pattern x y z) 5 100)) ∧
    (s.hurricaneActive = false → s.thunderstormActive = true →
      calculateSpeed M s c r pattern x y z
        = some (clamp (10 + 2.5 * y + calculateThunderstormSpeed M s r x y z
            + 5 * M.sin (2 * M.PI * (c.hour : α) / 24)
            + 8 * M.cos (2 * M.PI * ((dayOfYear α c : ℤ) : α) / 365)
            + getRegionalSpeedModifier M c pattern x y z) 5 100)) := by
  have h1 : (c.hour : α) / 24 * 2 * M.PI = 2 * M.PI * (c.hour : α) / 24 := by ring
  have h2 : ((dayOfYear α c : ℤ) : α) / 365 * 2 * M.PI
      = 2 * M.PI * ((dayOfYear α c : ℤ) : α) / 365 := by ring
  refine ⟨?_, ?_, ?_⟩
  · intro hh ht
    simp only [calculateSpeed, hh, ht, Bool.false_eq_true, if_false, Option.map_some', h1, h2,
      clamp, SPEED_MIN, SPEED_MAX, BASE_ALTITUDE_FACTOR]
    congr 3
    ring
  · intro hh
    simp only [calculateSpeed, hh, if_true, h1, h2, clamp, SPEED_MIN, SPEED_MAX]
    congr 1
    funext v
    congr 2
    ring
  · intro hh ht
    simp only [calculateSpeed, hh, ht, Bool.false_eq_true, if_false, if_true, Option.map_some',
      h1, h2, clamp, SPEED_MIN, SPEED_MAX, BASE_ALTITUDE_FACTOR]
    congr 3
    ring

/-- C18, with the real `Math` functions and the initial settings (no storm). -/
theorem calculateSpeed_composition_witness :
    calculateSpeed
        ⟨Real.sin, Real.cos, Real.exp, Real.sqrt, fun y x => Complex.arg ⟨x, y⟩, Real.pi⟩
        (defaultSettings : Settings ℝ) ⟨1703980800000, 1672444800000, 6⟩ 0 "gulf_stream" 1 2 3
      = some (clamp (10 + 2.5 * 2 + 5 * Real.sin (2 * Real.pi * ((6 : ℤ) : ℝ) / 24)
          + 8 * Real.cos (2 * Real.pi
              * ((dayOfYear ℝ ⟨1703980800000, 1672444800000, 6⟩ : ℤ) : ℝ) / 365)
          + getRegionalSpeedModifier
              ⟨Real.sin, Real.cos, Real.exp, Real.sqrt, fun y x => Complex.arg ⟨x, y⟩, Real.pi⟩
              ⟨1703980800000, 1672444800000, 6⟩ "gulf_stream" 1 2 3) 5 100) :=
  (calculateSpeed_composition
    ⟨Real.sin, Real.cos, Real.exp, Real.sqrt, fun y x => Complex.arg ⟨x, y⟩, Real.pi⟩
    (defaultSettings : Settings ℝ) ⟨1703980800000, 1672444800000, 6⟩ 0 "gulf_stream" 1 2 3).1
    rfl rfl

end SpeedComposition

section SpawnBounds

variable {α : Type} [LinearOrderedField α]

theorem spawnPosition_inGridBounds (d : ResetDraws α) (h : d.inRange) :
    inGridBounds (ParticleSystem.spawnPosition d).x (ParticleSystem.spawnPosition d).y
      (ParticleSystem.spawnPosition d).z := by
  obtain ⟨⟨hx0, hx1⟩, ⟨hy0, hy1⟩, ⟨hz0, hz1⟩, -, -⟩ := h
  simp only [inGridBounds, ParticleSystem.spawnPosition, ParticleSystem.xMin,
    ParticleSystem.xMax, ParticleSystem.yMin, ParticleSystem.yMax, maxY_eq, GRID_RANGE]
  norm_num
  refine ⟨?_, ?_, ?_, ?_, ?_, ?_⟩ <;> linarith

end SpawnBounds

section FlowParticles

variable {α : Type} [LinearOrderedField α] [FloorRing α]

/-- A tracer that `update` respawns is placed at the spawn position of its
draws, and every other tracer passed the bounds test at its new position. -/
theorem updateParticle_pos (M : MathLib α) (w : FlowState α) (d : ResetDraws α)
    (p : Particle α) :
    ((p.lifetime - 1 ≤ 0 ∨
        ¬ inGridBounds (p.pos.x + p.vel.x) (p.pos.y + p.vel.y) (p.pos.z + p.vel.z)) →
      (ParticleSystem.updateParticle M w d p).pos = ParticleSystem.spawnPosition d) ∧
    (¬ (p.lifetime - 1 ≤ 0) →
      inGridBounds (p.pos.x + p.vel.x) (p.pos.y + p.vel.y) (p.pos.z + p.vel.z) →
      (ParticleSystem.updateParticle M w d p).pos
        = ⟨p.pos.x + p.vel.x, p.pos.y + p.vel.y, p.pos.z + p.vel.z⟩) := by
  have hiff : (p.lifetime - 1 ≤ 0 ∨ p.pos.x + p.vel.x < ParticleSystem.xMin ∨
        p.pos.x + p.vel.x > ParticleSystem.xMax ∨ p.pos.y + p.vel.y < ParticleSystem.yMin ∨
        p.pos.y + p.vel.y > ParticleSystem.yMax ∨ p.pos.z + p.vel.z < ParticleSystem.xMin ∨
        p.pos.z + p.vel.z > ParticleSystem.xMax) ↔
      (p.lifetime - 1 ≤ 0 ∨
        ¬ inGridBounds (p.pos.x + p.vel.x) (p.pos.y + p.vel.y) (p.pos.z + p.vel.z)) := by
    simp only [inGridBounds, ParticleSystem.xMin, ParticleSystem.xMax, ParticleSystem.yMin,
      ParticleSystem.yMax, gt_iff_lt, not_and_or, not_le]
  constructor
  · intro h
    simp only [ParticleSystem.updateParticle]
    rw [if_pos (hiff.mpr h)]
    rfl
  · intro h1 h2
    simp only [ParticleSystem.updateParticle]
    rw [if_neg (fun hc => (hiff.mp hc).elim h1 (fun hn => hn h2))]

theorem updateParticle_inGridBounds (M : MathLib α) (w : FlowState α) (d : ResetDraws α)
    (h : d.inRange) (p : Particle α) :
    inGridBounds (ParticleSystem.updateParticle M w d p).pos.x
      (ParticleSystem.updateParticle M w d p).pos.y
      (ParticleSystem.updateParticle M w d p).pos.z := by
  obtain ⟨h1, h2⟩ := updateParticle_pos M w d p
  by_cases hc : p.lifetime - 1 ≤ 0 ∨
      ¬ inGridBounds (p.pos.x + p.vel.x) (p.pos.y + p.vel.y) (p.pos.z + p.vel.z)
  · rw [h1 hc]
    exact spawnPosition_inGridBounds d h
  · rw [not_or, not_not] at hc
    rw [h2 hc.1 hc.2]
    exact hc.2

theorem updateFrom_inGridBounds (M : MathLib α) (w : FlowState α) (draws : ℕ → ResetDraws α)
    (h : ∀ i, (draws i).inRange) (ps : List (Particle α)) :
    ∀ i : ℕ, (ParticleSystem.updateFrom M w draws i ps).length = ps.length ∧
      ∀ q ∈ ParticleSystem.updateFrom M w draws i ps, inGridBounds q.pos.x q.pos.y q.pos.z := by
  induction ps with
  | nil => intro i; simp [ParticleSystem.updateFrom]
  | cons p rest ih =>
    intro i
    obtain ⟨hl, hb⟩ := ih (i + 1)
    refine ⟨by simp [ParticleSystem.updateFrom, hl], ?_⟩
    intro q hq
    simp only [ParticleSystem.updateFrom, List.mem_cons] at hq
    rcases hq with rfl | hq
    · exact updateParticle_inGridBounds M w (draws i) (h i) p
    · exact hb q hq

/-- The invariant of the tracers: `COUNT` of them, all inside `GRID_BOUNDS`. -/
theorem run_inGridBounds (M : MathLib α) (ticks : List (ℕ → ResetDraws α))
    (ht : ∀ draws ∈ ticks, ∀ i, ResetDraws.inRange (draws i)) :
    ∀ w : FlowState α,
      (∃ ps, w.particleData = some ps ∧ ps.length = ParticleSystem.COUNT ∧
        ∀ q ∈ ps, inGridBounds q.pos.x q.pos.y q.pos.z) →
      ∃ ps, (ParticleSystem.run M ticks w).particleData = some ps ∧
        ps.length = ParticleSystem.COUNT ∧ ∀ q ∈ ps, inGridBounds q.pos.x q.pos.y q.pos.z := by
  induction ticks with
  | nil => intro w hw; exact hw
  | cons draws rest ih =>
    intro w hw
    obtain ⟨ps, hps, hlen, -⟩ := hw
    have hstep := updateFrom_inGridBounds M w draws (ht draws (List.mem_cons_self _ _)) ps 0
    simp only [ParticleSystem.run, List.foldl_cons]
    apply ih (fun d hd => ht d (List.mem_cons_of_mem _ hd))
    refine ⟨ParticleSystem.updateFrom M w draws 0 ps, ?_, hstep.1.trans hlen, hstep.2⟩
    simp only [ParticleSystem.update, hps]

theorem build_inGridBounds (buildDraws : ℕ → ResetDraws α)
    (hb : ∀ i, (buildDraws i).inRange) (w : FlowState α) :
    ∃ ps, (ParticleSystem.build buildDraws w).particleData = some ps ∧
      ps.length = ParticleSystem.COUNT ∧ ∀ q ∈ ps, inGridBounds q.pos.x q.pos.y q.pos.z := by
  refine ⟨_, rfl, by simp, ?_⟩
  intro q hq
  simp only [List.mem_map, List.mem_range] at hq
  obtain ⟨i, -, rfl⟩ := hq
  exact spawnPosition_inGridBounds (buildDraws i) (hb i)

theorem updateFrom_getElem (M : MathLib α) (w : FlowState α) (draws : ℕ → ResetDraws α) :
    ∀ (ps : List (Particle α)) (j i : ℕ),
      (ParticleSystem.updateFrom M w draws j ps)[i]?
        = (ps[i]?).map (ParticleSystem.updateParticle M w (draws (j + i))) := by
  intro ps
  induction ps with
  | nil => intro j i; simp [ParticleSystem.updateFrom]
  | cons p rest ih =>
    intro j i
    cases i with
    | zero => simp [ParticleSystem.updateFrom]
    | succ k =>
      simp only [ParticleSystem.updateFrom, List.getElem?_cons_succ, ih]
      have hk : j + 1 + k = j + (k + 1) := by omega
      rw [hk]

theorem updateFrom_length (M : MathLib α) (w : FlowState α) (draws : ℕ → ResetDraws α) :
    ∀ (ps : List (Particle α)) (j : ℕ),
      (ParticleSystem.updateFrom M w draws j ps).length = ps.length := by
  intro ps
  induction ps with
  | nil => intro j; rfl
  | cons p rest ih => intro j; simp [ParticleSystem.updateFrom, ih]

/-- C12: when every draw is in [0, 1), then after `build` and any number of
`update` ticks there are `COUNT` tracers and each lies inside `GRID_BOUNDS`;
in a tick, a tracer whose lifetime reached 0 or whose integrated position left
the bounds is moved to the spawn position of its draws, which is inside the
bounds, and every other tracer is at its integrated position.  This holds of
the loop body and of the method: `update` keeps the number of tracers, and
tracer `i` after the tick is at the spawn position of the draws of index `i`
in the first case and at its integrated position in the second. -/
theorem particles_stay_in_bounds (M : MathLib α) (buildDraws : ℕ → ResetDraws α)
    (ticks : List (ℕ → ResetDraws α)) (w : FlowState α)
    (hb : ∀ i, (buildDraws i).inRange)
    (ht : ∀ draws ∈ ticks, ∀ i, ResetDraws.inRange (draws i)) :
    (∃ ps, (ParticleSystem.run M ticks (ParticleSystem.build buildDraws w)).particleData
        = some ps ∧ ps.length = ParticleSystem.COUNT ∧
      ∀ q ∈ ps, inGridBounds q.pos.x q.pos.y q.pos.z) ∧
    (∀ (w' : FlowState α) (d : ResetDraws α) (p : Particle α), d.inRange →
      ((p.lifetime - 1 ≤ 0 ∨
          ¬ inGridBounds (p.pos.x + p.vel.x) (p.pos.y + p.vel.y) (p.pos.z + p.vel.z)) →
        (ParticleSystem.updateParticle M w' d p).pos = ParticleSystem.spawnPosition d ∧
        inGridBounds (ParticleSystem.spawnPosition d).x (ParticleSystem.spawnPosition d).y
          (ParticleSystem.spawnPosition d).z) ∧
      (¬ (p.lifetime - 1 ≤ 0) →
        inGridBounds (p.pos.x + p.vel.x) (p.pos.y + p.vel.y) (p.pos.z + p.vel.z) →
        (ParticleSystem.updateParticle M w' d p).pos
          = ⟨p.pos.x + p.vel.x, p.pos.y + p.vel.y, p.pos.z + p.vel.z⟩)) ∧
    (∀ (w' : FlowState α) (draws : ℕ → ResetDraws α) (ps : List (Particle α)),
      w'.particleData = some ps → (∀ i, ResetDraws.inRange (draws i)) →
      ∃ ps', (ParticleSystem.update M draws w').particleData = some ps' ∧
        ps'.length = ps.length ∧
        ∀ (i : ℕ) (p : Particle α), ps[i]? = some p →
          ∃ q, ps'[i]? = some q ∧
            ((p.lifetime - 1 ≤ 0 ∨
                ¬ inGridBounds (p.pos.x + p.vel.x) (p.pos.y + p.vel.y) (p.pos.z + p.vel.z)) →
              q.pos = ParticleSystem.spawnPosition (draws i) ∧
              inGridBounds q.pos.x q.pos.y q.pos.z) ∧
            (¬ (p.lifetime - 1 ≤ 0) →
              inGridBounds (p.pos.x + p.vel.x) (p.pos.y + p.vel.y) (p.pos.z + p.vel.z) →
              q.pos = ⟨p.pos.x + p.vel.x, p.pos.y + p.vel.y, p.pos.z + p.vel.z⟩)) := by
  refine ⟨run_inGridBounds M ticks ht _ (build_inGridBounds buildDraws hb w), ?_, ?_⟩
  · intro w' d p hd
    exact ⟨fun h => ⟨(updateParticle_pos M w' d p).1 h, spawnPosition_inGridBounds d hd⟩,
      (updateParticle_pos M w' d p).2⟩
  · intro w' draws ps hps hdr
    refine ⟨ParticleSystem.updateFrom M w' draws 0 ps, by simp only [ParticleSystem.update, hps],
      updateFrom_length M w' draws ps 0, ?_⟩
    intro i p hp
    refine ⟨ParticleSystem.updateParticle M w' (draws i) p, ?_, ?_, ?_⟩
    · rw [updateFrom_getElem M w' draws ps 0 i, hp, Nat.zero_add]
      rfl
    · intro h
      have hq := (updateParticle_pos M w' (draws i) p).1 h
      refine ⟨hq, ?_⟩
      rw [hq]
      exact spawnPosition_inGridBounds (draws i) (hdr i)
    · exact (updateParticle_pos M w' (draws i) p).2

/-- C13: `resample` leaves the field, the positions, the lifetimes, the
maximum lifetimes and the lines of all tracers as they were, and sets each
velocity to the velocity sampled at the position of the tracer, the same
function of the position that `_resetParticle` assigns at a spawn position. -/
theorem resample_only_velocities (w : FlowState α) :
    (ParticleSystem.resample w).app = w.app ∧
    (ParticleSystem.resample w).windSpeedMap = w.windSpeedMap ∧
    (ParticleSystem.resample w).particleData.map (List.map Particle.pos)
      = w.particleData.map (List.map Particle.pos) ∧
    (ParticleSystem.resample w).particleData.map (List.map Particle.lifetime)
      = w.particleData.map (List.map Particle.lifetime) ∧
    (ParticleSystem.resample w).particleData.map (List.map Particle.maxLife)
      = w.particleData.map (List.map Particle.maxLife) ∧
    (ParticleSystem.resample w).particleData.map (List.map (fun p => (p.head, p.tail)))
      = w.particleData.map (List.map (fun p => (p.head, p.tail))) ∧
    (ParticleSystem.resample w).particleData.map (List.map Particle.vel)
      = w.particleData.map
          (List.map (fun p => ParticleSystem.sampleVelocity w p.pos.x p.pos.y p.pos.z)) ∧
    (∀ (d : ResetDraws α) (b : Bool) (p : Particle α),
      (ParticleSystem.resetParticle w d b p).vel
        = ParticleSystem.sampleVelocity w (ParticleSystem.resetParticle w d b p).pos.x
            (ParticleSystem.resetParticle w d b p).pos.y
            (ParticleSystem.resetParticle w d b p).pos.z) := by
  cases hp : w.particleData with
  | none =>
    simp only [ParticleSystem.resample, hp, Option.map_none']
    exact ⟨trivial, trivial, trivial, trivial, trivial, trivial, trivial, fun _ _ _ => rfl⟩
  | some ps =>
    simp only [ParticleSystem.resample, hp, Option.map_some', List.map_map, Function.comp_def]
    exact ⟨trivial, trivial, trivial, trivial, trivial, trivial, trivial, fun _ _ _ => rfl⟩

end FlowParticles

section StormControls

variable {α : Type} [LinearOrderedField α] [FloorRing α]

theorem regenerate_Florida (M : MathLib α) (c : Clock) (rand : GridKey → CellDraws α)
    (w : Sim α) (hs : w.settings.state = "Florida") :
    ∃ a, regenerate M c rand w = Except.ok ⟨w.settings, a⟩ := by
  have hd : getStateData M w.settings.state = Except.ok (some
      ⟨(27.766279, -81.686783), 6,
        calculateSquareBounds M (27.766279, -81.686783) ((sizeMap 6).getD 5), "gulf_stream"⟩) := by
    rw [hs]
    exact florida_stateData_value M
  have hg := generateGrid_known M w.settings c rand _ hd w.app
  cases hgen : generateGrid M w.settings c rand w.app with
  | error e =>
    rw [hg] at hgen
    cases hgen
  | ok a =>
    exact ⟨a, by simp only [regenerate, hgen]⟩

/-- When the scene holds the objects `StormSystem` refers to and no other,
`dispose` empties it. -/
theorem dispose_of_scene (st : StormSystemState)
    (h : st.scene = st.stormParticleSystem.toList ++ st.light.toList) :
    StormSystem.dispose st = ⟨none, none, none, [], st.created⟩ := by
  obtain ⟨ty, sps, li, sc, n⟩ := st
  simp only at h
  subst h
  cases sps with
  | none =>
    cases li with
    | none => rfl
    | some l => simp [StormSystem.dispose]
  | some o =>
    cases li with
    | none => simp [StormSystem.dispose]
    | some l => simp [StormSystem.dispose]

theorem build_hurricane_of_scene (st : StormSystemState)
    (h : st.scene = st.stormParticleSystem.toList ++ st.light.toList) :
    StormSystem.build StormMode.hurricane st
      = ⟨some StormMode.hurricane,
          some ⟨st.created, StormObjectKind.lines, StormMode.hurricane⟩,
          some ⟨st.created + 1, StormObjectKind.light, StormMode.hurricane⟩,
          [⟨st.created, StormObjectKind.lines, StormMode.hurricane⟩,
            ⟨st.created + 1, StormObjectKind.light, StormMode.hurricane⟩],
          st.created + 1 + 1⟩ := by
  have hne : ¬ (StormMode.hurricane = StormMode.thunderstorm) := by decide
  simp only [StormSystem.build, dispose_of_scene st h, if_true, if_neg hne,
    StormSystem.addLight, StormSystem.finalize, List.nil_append, List.singleton_append]

theorem build_thunderstorm_of_scene (st : StormSystemState)
    (h : st.scene = st.stormParticleSystem.toList ++ st.light.toList) :
    StormSystem.build StormMode.thunderstorm st
      = ⟨some StormMode.thunderstorm,
          some ⟨st.created, StormObjectKind.lines, StormMode.thunderstorm⟩,
          some ⟨st.created + 1, StormObjectKind.light, StormMode.thunderstorm⟩,
          [⟨st.created, StormObjectKind.lines, StormMode.thunderstorm⟩,
            ⟨st.created + 1, StormObjectKind.light, StormMode.thunderstorm⟩],
          st.created + 1 + 1⟩ := by
  have hne : ¬ (StormMode.thunderstorm = StormMode.hurricane) := by decide
  simp only [StormSystem.build, dispose_of_scene st h, if_true, if_neg hne,
    StormSystem.addLight, StormSystem.finalize, List.nil_append, List.singleton_append]

/-- One storm-mode selection keeps the region, succeeds, and establishes the
exclusivity of the flags and the agreement of the storm particle system and of
the scene. -/
theorem stormModeChange_invariant (M : MathLib α) (c : Clock) (st : StormSelection α)
    (u : StormUI α) (hs : u.sim.settings.state = "Florida")
    (hsc : u.storm.scene = u.storm.stormParticleSystem.toList ++ u.storm.light.toList) :
    ∃ u', UIManager.stormModeChange M c st.rand st.position st.mode u = Except.ok u' ∧
      u'.sim.settings.state = "Florida" ∧
      ¬ (u'.sim.settings.hurricaneActive = true ∧ u'.sim.settings.thunderstormActive = true) ∧
      u'.storm.type = activeKind u'.sim.settings ∧
      u'.storm.stormParticleSystem.map SceneObject.storm = u'.storm.type ∧
      u'.storm.light.map SceneObject.storm = u'.storm.type ∧
      u'.storm.scene = u'.storm.stormParticleSystem.toList ++ u'.storm.light.toList ∧
      u'.storm.scene.map (fun o => (o.kind, o.storm))
        = (match activeKind u'.sim.settings with
          | none => []
          | some m => [(StormObjectKind.lines, m), (StormObjectKind.light, m)]) := by
  cases hm : st.mode with
  | none =>
    obtain ⟨a, ha⟩ := regenerate_Florida M c st.rand
      ⟨setStormFlags StormMode.none u.sim.settings, u.sim.app⟩ hs
    have hstep : UIManager.stormModeChange M c st.rand st.position StormMode.none u
        = Except.ok ⟨⟨setStormFlags StormMode.none u.sim.settings, a⟩,
            StormSystem.dispose u.storm⟩ := by
      simp only [UIManager.stormModeChange, UIManager.onStormToggle, if_true, ha]
      rfl
    rw [dispose_of_scene u.storm hsc] at hstep
    exact ⟨_, hstep, hs, by simp [setStormFlags], rfl, rfl, rfl, rfl, rfl⟩
  | hurricane =>
    obtain ⟨a, ha⟩ := regenerate_Florida M c st.rand
      ⟨setStormPosition StormMode.hurricane st.position
        (setStormFlags StormMode.hurricane u.sim.settings), u.sim.app⟩ hs
    have hne : ¬ (StormMode.hurricane = StormMode.none) := by decide
    have hstep : UIManager.stormModeChange M c st.rand st.position StormMode.hurricane u
        = Except.ok ⟨⟨setStormPosition StormMode.hurricane st.position
              (setStormFlags StormMode.hurricane u.sim.settings), a⟩,
            StormSystem.build StormMode.hurricane u.storm⟩ := by
      simp only [UIManager.stormModeChange, UIManager.onStormToggle, if_neg hne, if_true, ha]
    rw [build_hurricane_of_scene u.storm hsc] at hstep
    exact ⟨_, hstep, hs, by simp [setStormFlags, setStormPosition], rfl, rfl, rfl, rfl, rfl⟩
  | thunderstorm =>
    obtain ⟨a, ha⟩ := regenerate_Florida M c st.rand
      ⟨setStormPosition StormMode.thunderstorm st.position
        (setStormFlags StormMode.thunderstorm u.sim.settings), u.sim.app⟩ hs
    have hne : ¬ (StormMode.thunderstorm = StormMode.none) := by decide
    have hstep : UIManager.stormModeChange M c st.rand st.position StormMode.thunderstorm u
        = Except.ok ⟨⟨setStormPosition StormMode.thunderstorm st.position
              (setStormFlags StormMode.thunderstorm u.sim.settings), a⟩,
            StormSystem.build StormMode.thunderstorm u.storm⟩ := by
      simp only [UIManager.stormModeChange, UIManager.onStormToggle, if_neg hne, if_true, ha]
    rw [build_thunderstorm_of_scene u.storm hsc] at hstep
    exact ⟨_, hstep, hs, by simp [setStormFlags, setStormPosition], rfl, rfl, rfl, rfl, rfl⟩

theorem selectStorms_invariant (M : MathLib α) (c : Clock) (steps : List (StormSelection α)) :
    ∀ u : StormUI α, u.sim.settings.state = "Florida" →
      ¬ (u.sim.settings.hurricaneActive = true ∧ u.sim.settings.thunderstormActive = true) →
      u.storm.type = activeKind u.sim.settings →
      u.storm.stormParticleSystem.map SceneObject.storm = u.storm.type →
      u.storm.light.map SceneObject.storm = u.storm.type →
      u.storm.scene = u.storm.stormParticleSystem.toList ++ u.storm.light.toList →
      u.storm.scene.map (fun o => (o.kind, o.storm))
        = (match activeKind u.sim.settings with
          | none => []
          | some m => [(StormObjectKind.lines, m), (StormObjectKind.light, m)]) →
      ∃ u', UIManager.selectStorms M c steps u = Except.ok u' ∧
        u'.sim.settings.state = "Florida" ∧
        ¬ (u'.sim.settings.hurricaneActive = true ∧ u'.sim.settings.thunderstormActive = true) ∧
        u'.storm.type = activeKind u'.sim.settings ∧
        u'.storm.stormParticleSystem.map SceneObject.storm = u'.storm.type ∧
        u'.storm.light.map SceneObject.storm = u'.storm.type ∧
        u'.storm.scene = u'.storm.stormParticleSystem.toList ++ u'.storm.light.toList ∧
        u'.storm.scene.map (fun o => (o.kind, o.storm))
          = (match activeKind u'.sim.settings with
            | none => []
            | some m => [(StormObjectKind.lines, m), (StormObjectKind.light, m)]) := by
  induction steps with
  | nil =>
    intro u h1 h2 h3 h4 h5 h6 h7
    exact ⟨u, rfl, h1, h2, h3, h4, h5, h6, h7⟩
  | cons st rest ih =>
    intro u h1 _ _ _ _ h6 _
    obtain ⟨u1, hu1, k1, k2, k3, k4, k5, k6, k7⟩ := stormModeChange_invariant M c st u h1 h6
    obtain ⟨u2, hu2, hinv⟩ := ih u1 k1 k2 k3 k4 k5 k6 k7
    refine ⟨u2, ?_, hinv⟩
    simp only [UIManager.selectStorms, List.foldlM_cons, hu1] at hu2 ⊢
    exact hu2

/-- C16: from the initial settings (no storm, nothing built in `StormSystem`,
no storm object in the scene), every sequence of storm-mode selections runs to
a state in which `hurricaneActive` and `thunderstormActive` are not both true,
the kind `StormSystem._type`, the kind of the storm particles and the kind of
the light are the active kind (`null` when none), and the scene holds the
objects `StormSystem` refers to and no other: none when no storm is active,
else the line segments and the light of the active kind, so nothing of a
previous storm is left in it. -/
theorem storm_exclusive (M : MathLib α) (c : Clock) (steps : List (StormSelection α))
    (a : AppState α) :
    ∃ u, UIManager.selectStorms M c steps ⟨⟨defaultSettings, a⟩, ⟨none, none, none, [], 0⟩⟩
        = Except.ok u ∧
      ¬ (u.sim.settings.hurricaneActive = true ∧ u.sim.settings.thunderstormActive = true) ∧
      u.storm.type = activeKind u.sim.settings ∧
      u.storm.stormParticleSystem.map SceneObject.storm = u.storm.type ∧
      u.storm.light.map SceneObject.storm = u.storm.type ∧
      u.storm.scene = u.storm.stormParticleSystem.toList ++ u.storm.light.toList ∧
      u.storm.scene.map (fun o => (o.kind, o.storm))
        = (match activeKind u.sim.settings with
          | none => []
          | some m => [(StormObjectKind.lines, m), (StormObjectKind.light, m)]) := by
  obtain ⟨u, hu, -, h2, h3, h4, h5, h6, h7⟩ := selectStorms_invariant M c steps
    ⟨⟨defaultSettings, a⟩, ⟨none, none, none, [], 0⟩⟩ rfl (by simp [defaultSettings]) rfl rfl rfl
    rfl rfl
  exact ⟨u, hu, h2, h3, h4, h5, h6, h7⟩

/-- C17: the name `Atlantis` is not in the catalogue; `updateState` returns
without regenerating, so the field is as before, but it has already stored the
name in `Config.settings.state`: the selected region is no longer `Florida`,
and a later `generateGrid` clears the cubes and returns without creating any,
where before the call it created the 1000 cubes of the grid. -/
theorem updateState_unknown_changes_state (M : MathLib α) (c : Clock)
    (rand rand' : GridKey → CellDraws α) (a : AppState α) :
    "Atlantis" ∉ stateNames ∧
    (∃ a1, generateGrid M defaultSettings c rand' a = Except.ok a1 ∧
      a1.windCubes.length = 1000) ∧
    ∃ w', StateManager.updateState M c rand "Atlantis" ⟨defaultSettings, a⟩ = Except.ok w' ∧
      w'.app = a ∧ w'.settings.state = "Atlantis" ∧
      w'.settings.state ≠ (defaultSettings : Settings α).state ∧
      ∃ a2, generateGrid M w'.settings c rand' w'.app = Except.ok a2 ∧ a2.windCubes = [] := by
  have hn : getStateData M "Atlantis" = Except.ok none :=
    getStateData_unknown M "Atlantis" (by decide) (by decide)
  refine ⟨by decide, ⟨_, generateGrid_known M defaultSettings c rand' _
    (florida_stateData_value M) a, ?_⟩, ?_⟩
  · rw [List.length_map]
    exact gridCells_length
  · have hu : StateManager.updateState M c rand "Atlantis" ⟨defaultSettings, a⟩
        = Except.ok ⟨⟨"Atlantis", false, (0, 0), false, (0, 0), 3⟩, a⟩ := by
      simp only [StateManager.updateState, hn]
      rfl
    refine ⟨_, hu, rfl, rfl, by simp [defaultSettings], ?_⟩
    exact ⟨_, generateGrid_null M ⟨"Atlantis", false, (0, 0), false, (0, 0), 3⟩ c rand' hn a, rfl⟩

end StormControls

section RealParticles

/-- C12, with the real `Math` functions: the start-up state, every draw of the
build 1/2 and every draw of one tick 1/4. -/
theorem particles_stay_in_bounds_witness :
    ∃ ps : List (Particle ℝ),
      (ParticleSystem.run
          ⟨Real.sin, Real.cos, Real.exp, Real.sqrt, fun y x => Complex.arg ⟨x, y⟩, Real.pi⟩
          [fun _ => ⟨1 / 4, 1 / 4, 1 / 4, 1 / 4, 1 / 4⟩]
          (ParticleSystem.build (fun _ => ⟨1 / 2, 1 / 2, 1 / 2, 1 / 2, 1 / 2⟩)
            FlowState.initial)).particleData = some ps ∧
      ps.length = ParticleSystem.COUNT ∧ ∀ q ∈ ps, inGridBounds q.pos.x q.pos.y q.pos.z :=
  (particles_stay_in_bounds
    ⟨Real.sin, Real.cos, Real.exp, Real.sqrt, fun y x => Complex.arg ⟨x, y⟩, Real.pi⟩
    (fun _ => ⟨1 / 2, 1 / 2, 1 / 2, 1 / 2, 1 / 2⟩)
    [fun _ => ⟨1 / 4, 1 / 4, 1 / 4, 1 / 4, 1 / 4⟩] FlowState.initial
    (by
      intro i
      simp only [ResetDraws.inRange]
      norm_num)
    (by
      intro draws hd i
      rw [List.mem_singleton] at hd
      subst hd
      simp only [ResetDraws.inRange]
      norm_num)).1

/-- The speed `calculateSpeed` computes with the real `Math` functions and the
initial settings (no storm), at hour 6 of day 365. -/
theorem calculateSpeed_calm_value (r x y z : ℝ) :
    calculateSpeed
        ⟨Real.sin, Real.cos, Real.exp, Real.sqrt, fun y x => Complex.arg ⟨x, y⟩, Real.pi⟩
        defaultSettings ⟨1703980800000, 1672444800000, 6⟩ r "gulf_stream" x y z
      = some (max 5 (min 100 (10 + y * 2.5 +
          (getRegionalSpeedModifier
            ⟨Real.sin, Real.cos, Real.exp, Real.sqrt, fun y x => Complex.arg ⟨x, y⟩, Real.pi⟩
            ⟨1703980800000, 1672444800000, 6⟩ "gulf_stream" x y z + 5 + 8)))) := by
  have hday : dayOfYear ℝ ⟨1703980800000, 1672444800000, 6⟩ = 365 := by
    unfold dayOfYear
    rw [Int.floor_eq_iff]
    constructor <;> norm_num
  have hsin : Real.sin ((6 : ℝ) / 24 * 2 * Real.pi) = 1 := by
    have : (6 : ℝ) / 24 * 2 * Real.pi = Real.pi / 2 := by ring
    rw [this, Real.sin_pi_div_two]
  have hcos : Real.cos ((365 : ℝ) / 365 * 2 * Real.pi) = 1 := by
    have : (365 : ℝ) / 365 * 2 * Real.pi = 2 * Real.pi := by ring
    rw [this, Real.cos_two_pi]
  simp only [calculateSpeed, defaultSettings, hday, Bool.false_eq_true, if_false,
    Option.map_some', SPEED_MIN, SPEED_MAX, BASE_ALTITUDE_FACTOR, Int.cast_ofNat, hsin, hcos]
  norm_num

theorem gridCell_corner : gridCell (9 : ℝ) 18 9 = (9, 18, 9) := by
  have h1 : jsRound ((9 : ℝ) / ((GRID_SPACING : ℤ) : ℝ)) = 5 := by
    unfold jsRound
    rw [Int.floor_eq_iff]
    simp only [GRID_SPACING]
    constructor <;> norm_num
  have h2 : jsRound ((18 : ℝ) / ((GRID_SPACING : ℤ) : ℝ)) = 9 := by
    unfold jsRound
    rw [Int.floor_eq_iff]
    simp only [GRID_SPACING]
    constructor <;> norm_num
  simp only [gridCell, h1, h2]
  decide

/-- C14: no code assigns `AppState.windSpeedMap`, so after `generateGrid` from
the start-up state it is still `undefined`.  With the real `Math` functions
and the initial settings at hour 6 of day 365, the cube at the grid coordinate
(9, 18, 9), which `_gridCell` maps to itself, stores a rounded speed of at
least 48, while `_sampleWindSpeed` there returns `WIND_SPEED.MIN = 5`; and
`_scaledSpeed` is the constant `SPEED_SCALE * 0.4` at every position. -/
theorem sampleWindSpeed_ignores_field (rand : GridKey → CellDraws ℝ) :
    ∃ (w : FlowState ℝ) (cube : Cube ℝ) (n : ℤ),
      generateGridFlow
        ⟨Real.sin, Real.cos, Real.exp, Real.sqrt, fun y x => Complex.arg ⟨x, y⟩, Real.pi⟩
        defaultSettings ⟨1703980800000, 1672444800000, 6⟩ rand FlowState.initial
        = Except.ok w ∧
      w.windSpeedMap = none ∧
      cube ∈ w.app.windCubes ∧ cube.position = (9, 18, 9) ∧ cube.speed = some n ∧ 48 ≤ n ∧
      gridCell (9 : ℝ) 18 9 = (9, 18, 9) ∧
      ParticleSystem.sampleWindSpeed w 9 18 9 = 5 ∧
      ∀ px py pz : ℝ, ParticleSystem.scaledSpeed w px py pz = ParticleSystem.SPEED_SCALE * 0.4 := by
  have hmem : ((9, 9, 9) : GridKey) ∈ gridCells := by
    rw [mem_gridCells]
    decide
  have hg := generateGrid_known
    ⟨Real.sin, Real.cos, Real.exp, Real.sqrt, fun y x => Complex.arg ⟨x, y⟩, Real.pi⟩
    (defaultSettings : Settings ℝ) ⟨1703980800000, 1672444800000, 6⟩ rand _
    (florida_stateData_value _) (FlowState.initial : FlowState ℝ).app
  have hflow : generateGridFlow
      ⟨Real.sin, Real.cos, Real.exp, Real.sqrt, fun y x => Complex.arg ⟨x, y⟩, Real.pi⟩
      defaultSettings ⟨1703980800000, 1672444800000, 6⟩ rand FlowState.initial
      = Except.ok
        ⟨⟨gridCells.map (cellCube
            ⟨Real.sin, Real.cos, Real.exp, Real.sqrt, fun y x => Complex.arg ⟨x, y⟩, Real.pi⟩
            defaultSettings ⟨1703980800000, 1672444800000, 6⟩ rand "gulf_stream"),
          some (buildWindFieldMap (gridCells.map (cellCube
            ⟨Real.sin, Real.cos, Real.exp, Real.sqrt, fun y x => Complex.arg ⟨x, y⟩, Real.pi⟩
            defaultSettings ⟨1703980800000, 1672444800000, 6⟩ rand "gulf_stream")))⟩,
          none, none⟩ := by
    simp only [generateGridFlow, hg]
    rfl
  obtain ⟨G, hG⟩ : ∃ G : ℝ, getRegionalSpeedModifier
      ⟨Real.sin, Real.cos, Real.exp, Real.sqrt, fun y x => Complex.arg ⟨x, y⟩, Real.pi⟩
      ⟨1703980800000, 1672444800000, 6⟩ "gulf_stream" 9 18 9 = G := ⟨_, rfl⟩
  obtain ⟨hlo, hhi⟩ := getRegionalSpeedModifier_gulf_bounds
    ⟨1703980800000, 1672444800000, 6⟩ 9 18 9
  rw [hG] at hlo hhi
  have hspeed : (cellCube
      ⟨Real.sin, Real.cos, Real.exp, Real.sqrt, fun y x => Complex.arg ⟨x, y⟩, Real.pi⟩
      defaultSettings ⟨1703980800000, 1672444800000, 6⟩ rand "gulf_stream" (9, 9, 9)).speed
      = some (jsRound (max 5 (min 100 (10 + 18 * 2.5 + (G + 5 + 8))))) := by
    have hv := calculateSpeed_calm_value (rand (9, 9, 9)).speed 9 18 9
    rw [hG] at hv
    have hx : ((9 : ℤ) : ℝ) = 9 := by norm_num
    have hy : (((9 : ℤ) * 2 : ℤ) : ℝ) = 18 := by norm_num
    simp only [cellCube, GRID_SPACING, hx, hy, hv, Option.map_some']
  refine ⟨_, cellCube
      ⟨Real.sin, Real.cos, Real.exp, Real.sqrt, fun y x => Complex.arg ⟨x, y⟩, Real.pi⟩
      defaultSettings ⟨1703980800000, 1672444800000, 6⟩ rand "gulf_stream" (9, 9, 9),
    _, hflow, rfl, List.mem_map_of_mem _ hmem, ?_, hspeed, ?_, gridCell_corner, ?_, ?_⟩
  · simp [cellCube, GRID_SPACING]
  · unfold jsRound
    rw [Int.le_floor]
    have hmin : min (100 : ℝ) (10 + 18 * 2.5 + (G + 5 + 8)) = 10 + 18 * 2.5 + (G + 5 + 8) :=
      min_eq_right (by linarith)
    rw [hmin]
    have := le_max_right (5 : ℝ) (10 + 18 * 2.5 + (G + 5 + 8))
    push_cast
    linarith
  · simp only [ParticleSystem.sampleWindSpeed, SPEED_MIN]
  · intro px py pz
    simp only [ParticleSystem.scaledSpeed, ParticleSystem.sampleWindSpeed, sub_self, zero_div]
    norm_num

end RealParticles

section ClockInverse

/-- C30, as stated, fails across a daylight-saving gap: in US Eastern time
(clocks go from 02:00 EST to 03:00 EDT at 2024-03-10T07:00Z), from the date
2024-03-09 02:30 EST and the hour 23, `changeTime(+1)` moves the date to
2024-03-10 03:30 EDT (02:30 does not exist on that day) and `changeTime(-1)`
back to 2024-03-09 03:30 EST: the hour is 23 again, the date is one hour
(3600000 ms) later than the original. -/
theorem changeTime_round_trip_dst :
    (changeTime (zoneCalendar 1710054000000 (-18000000) (-14400000) (fun _ => 1703998800000)) 1
        ⟨1709969400000, 1703998800000, 23⟩).time = 1710055800000 ∧
    (changeTime (zoneCalendar 1710054000000 (-18000000) (-14400000) (fun _ => 1703998800000))
        (-1)
        (changeTime (zoneCalendar 1710054000000 (-18000000) (-14400000)
          (fun _ => 1703998800000)) 1 ⟨1709969400000, 1703998800000, 23⟩)).hour = 23 ∧
    (changeTime (zoneCalendar 1710054000000 (-18000000) (-14400000) (fun _ => 1703998800000))
        (-1)
        (changeTime (zoneCalendar 1710054000000 (-18000000) (-14400000)
          (fun _ => 1703998800000)) 1 ⟨1709969400000, 1703998800000, 23⟩)).time
      = 1709969400000 + 3600000 := by
  refine ⟨by decide, by decide, by decide⟩

/-- C30, amended: from an hour in 0..23, `changeTime(+1)` and `changeTime(-1)`
leave the hour in 0..23: 23 + 1 wraps to 0 with the date one day later, 0 - 1
wraps to 23 with the date one day earlier, and otherwise the date is
untouched.  `changeTime(+1)` followed by `changeTime(-1)` restores the hour;
below 23 it leaves the date as it was, and at 23 it leaves the date that
`setDate(getDate() + 1)` followed by `setDate(getDate() - 1)` gives, so the
date is restored exactly when that is the original date. -/
theorem changeTime_range_and_inverse (K : Calendar) (c : Clock)
    (h0 : 0 ≤ c.hour) (h23 : c.hour ≤ 23) :
    (0 ≤ (changeTime K 1 c).hour ∧ (changeTime K 1 c).hour ≤ 23) ∧
    (0 ≤ (changeTime K (-1) c).hour ∧ (changeTime K (-1) c).hour ≤ 23) ∧
    (c.hour = 23 →
      (changeTime K 1 c).hour = 0 ∧ (changeTime K 1 c).time = K.addDays c.time 1) ∧
    (c.hour < 23 →
      (changeTime K 1 c).hour = c.hour + 1 ∧ (changeTime K 1 c).time = c.time) ∧
    (c.hour = 0 →
      (changeTime K (-1) c).hour = 23 ∧ (changeTime K (-1) c).time = K.addDays c.time (-1)) ∧
    (0 < c.hour →
      (changeTime K (-1) c).hour = c.hour - 1 ∧ (changeTime K (-1) c).time = c.time) ∧
    (changeTime K (-1) (changeTime K 1 c)).hour = c.hour ∧
    (c.hour < 23 → (changeTime K (-1) (changeTime K 1 c)).time = c.time) ∧
    (c.hour = 23 →
      (changeTime K (-1) (changeTime K 1 c)).time = K.addDays (K.addDays c.time 1) (-1)) ∧
    ((changeTime K (-1) (changeTime K 1 c)).time = c.time ↔
      (c.hour = 23 → K.addDays (K.addDays c.time 1) (-1) = c.time)) := by
  have hup : c.hour = 23 → changeTime K 1 c = changeDate K 1 { c with hour := 0 } :=
    changeTime_wrap K c
  have hup' : c.hour < 23 → changeTime K 1 c = { c with hour := c.hour + 1 } := fun h =>
    changeTime_step K c (by omega) (by omega)
  have hdown : c.hour = 0 → changeTime K (-1) c = changeDate K (-1) { c with hour := 23 } := by
    intro h
    simp only [changeTime, ge_iff_le]
    rw [if_neg (by omega), if_pos (by omega)]
  have hdown' : ∀ c' : Clock, 0 < c'.hour → c'.hour ≤ 24 →
      changeTime K (-1) c' = { c' with hour := c'.hour + -1 } := by
    intro c' h h'
    simp only [changeTime, ge_iff_le]
    rw [if_neg (by omega), if_neg (by omega)]
  have hdown0 : ∀ c' : Clock, c'.hour = 0 →
      changeTime K (-1) c' = changeDate K (-1) { c' with hour := 23 } := by
    intro c' h
    simp only [changeTime, ge_iff_le]
    rw [if_neg (by omega), if_pos (by omega)]
  have hhour : (changeTime K (-1) (changeTime K 1 c)).hour = c.hour := by
    rcases eq_or_lt_of_le h23 with h | h
    · rw [hup h, hdown0 _ (by simp [changeDate])]
      simp only [changeDate]
      exact h.symm
    · rw [hup' h, hdown' _ (by simp only; omega) (by simp only; omega)]
      simp only
      omega
  have hlow : c.hour < 23 → (changeTime K (-1) (changeTime K 1 c)).time = c.time := by
    intro h
    rw [hup' h, hdown' _ (by simp only; omega) (by simp only; omega)]
  have hwrap : c.hour = 23 →
      (changeTime K (-1) (changeTime K 1 c)).time = K.addDays (K.addDays c.time 1) (-1) := by
    intro h
    rw [hup h, hdown0 _ (by simp [changeDate])]
    rfl
  refine ⟨?_, ?_, ?_, ?_, ?_, ?_, hhour, hlow, hwrap, ?_⟩
  · rcases eq_or_lt_of_le h23 with h | h
    · rw [hup h]
      simp [changeDate]
    · rw [hup' h]
      constructor <;> simp only <;> omega
  · rcases eq_or_lt_of_le h0 with h | h
    · rw [hdown h.symm]
      simp [changeDate]
    · rw [hdown' c h (by omega)]
      constructor <;> simp only <;> omega
  · intro h
    rw [hup h]
    exact ⟨rfl, rfl⟩
  · intro h
    rw [hup' h]
    exact ⟨rfl, rfl⟩
  · intro h
    rw [hdown h]
    exact ⟨rfl, rfl⟩
  · intro h
    rw [hdown' c h (by omega)]
    exact ⟨by show c.hour + -1 = c.hour - 1; omega, rfl⟩
  · constructor
    · intro ht h
      rw [← hwrap h]
      exact ht
    · intro hK
      rcases eq_or_lt_of_le h23 with h | h
      · rw [hwrap h]
        exact hK h
      · exact hlow h

/-- C30, amended, at 23:00 on 15 October 2024, on a calendar whose days all
have 86400000 ms: the round trip restores the date and the hour. -/
theorem changeTime_range_and_inverse_witness :
    (changeTime ⟨fun t n => t + n * 86400000, fun _ => 1703980800000⟩ (-1)
        (changeTime ⟨fun t n => t + n * 86400000, fun _ => 1703980800000⟩ 1
          ⟨1728950400000, 1703980800000, 23⟩)).time = 1728950400000 ∧
    (changeTime ⟨fun t n => t + n * 86400000, fun _ => 1703980800000⟩ (-1)
        (changeTime ⟨fun t n => t + n * 86400000, fun _ => 1703980800000⟩ 1
          ⟨1728950400000, 1703980800000, 23⟩)).hour = 23 :=
  ⟨(changeTime_range_and_inverse ⟨fun t n => t + n * 86400000, fun _ => 1703980800000⟩
      ⟨1728950400000, 1703980800000, 23⟩ (by decide) (by decide)).2.2.2.2.2.2.2.2.2.mpr
      (fun _ => by decide),
    (changeTime_range_and_inverse ⟨fun t n => t + n * 86400000, fun _ => 1703980800000⟩
      ⟨1728950400000, 1703980800000, 23⟩ (by decide) (by decide)).2.2.2.2.2.2.1⟩

end ClockInverse

section TracerVelocity

variable {α : Type} [LinearOrderedField α] [FloorRing α]

theorem updateParticle_vel_y (M : MathLib α) (w : FlowState α) (d : ResetDraws α)
    (p : Particle α) (hp : p.vel.y = 0) : (ParticleSystem.updateParticle M w d p).vel.y = 0 := by
  simp only [ParticleSystem.updateParticle]
  split_ifs
  · rfl
  · exact hp
  · exact hp

theorem updateFrom_vel_y (M : MathLib α) (w : FlowState α) (draws : ℕ → ResetDraws α)
    (ps : List (Particle α)) (hps : ∀ q ∈ ps, q.vel.y = 0) :
    ∀ i : ℕ, ∀ q ∈ ParticleSystem.updateFrom M w draws i ps, q.vel.y = 0 := by
  induction ps with
  | nil => intro i q hq; simp [ParticleSystem.updateFrom] at hq
  | cons p rest ih =>
    intro i q hq
    simp only [ParticleSystem.updateFrom, List.mem_cons] at hq
    rcases hq with rfl | hq
    · exact updateParticle_vel_y M w (draws i) p (hps p (List.mem_cons_self _ _))
    · exact ih (fun q' hq' => hps q' (List.mem_cons_of_mem _ hq')) (i + 1) q hq

theorem run_vel_y (M : MathLib α) (ticks : List (ℕ → ResetDraws α)) :
    ∀ w : FlowState α, (∀ ps, w.particleData = some ps → ∀ q ∈ ps, q.vel.y = 0) →
      ∀ ps, (ParticleSystem.run M ticks w).particleData = some ps → ∀ q ∈ ps, q.vel.y = 0 := by
  induction ticks with
  | nil => intro w hw; exact hw
  | cons draws rest ih =>
    intro w hw
    simp only [ParticleSystem.run, List.foldl_cons]
    apply ih
    intro ps hps q hq
    cases hd : w.particleData with
    | none =>
      simp only [ParticleSystem.update, hd] at hps
      cases hps
    | some ps0 =>
      simp only [ParticleSystem.update, hd, Option.some.injEq] at hps
      subst hps
      exact updateFrom_vel_y M w draws ps0 (hw ps0 hd) 0 q hq

/-- C21: the velocity that `_resetParticle` and `resample` assign has the
vertical component 0 whatever the sampled direction is; so after `build`, any
ticks and `resample` every tracer has vertical velocity 0, and `update` leaves
the `y` coordinate of every such tracer that it does not respawn as it was. -/
theorem tracer_velocity_horizontal (M : MathLib α) (w : FlowState α) :
    (∀ (d : ResetDraws α) (b : Bool) (p : Particle α),
      (ParticleSystem.resetParticle w d b p).vel.y = 0) ∧
    (∀ ps, (ParticleSystem.resample w).particleData = some ps → ∀ q ∈ ps, q.vel.y = 0) ∧
    (∀ (buildDraws : ℕ → ResetDraws α) (ticks : List (ℕ → ResetDraws α)) ps,
      (ParticleSystem.run M ticks (ParticleSystem.build buildDraws w)).particleData = some ps →
      ∀ q ∈ ps, q.vel.y = 0) ∧
    (∀ (d : ResetDraws α) (p : Particle α), p.vel.y = 0 →
      ¬ (p.lifetime - 1 ≤ 0) →
      inGridBounds (p.pos.x + p.vel.x) (p.pos.y + p.vel.y) (p.pos.z + p.vel.z) →
      (ParticleSystem.updateParticle M w d p).pos.y = p.pos.y) := by
  refine ⟨fun _ _ _ => rfl, ?_, ?_, ?_⟩
  · intro ps hps q hq
    cases hd : w.particleData with
    | none =>
      simp only [ParticleSystem.resample, hd] at hps
      cases hps
    | some ps0 =>
      simp only [ParticleSystem.resample, hd, Option.some.injEq] at hps
      subst hps
      simp only [List.mem_map] at hq
      obtain ⟨p, -, rfl⟩ := hq
      rfl
  · intro buildDraws ticks
    apply run_vel_y M ticks
    intro ps hps q hq
    simp only [ParticleSystem.build, Option.some.injEq] at hps
    subst hps
    simp only [List.mem_map, List.mem_range] at hq
    obtain ⟨i, -, rfl⟩ := hq
    rfl
  · intro d p hp h1 h2
    rw [(updateParticle_pos M w d p).2 h1 h2, hp]
    simp

/-- C21, with the real `Math` functions: a tracer at the origin moving along
`x`, in the start-up state. -/
theorem tracer_velocity_horizontal_witness :
    (ParticleSystem.updateParticle
        ⟨Real.sin, Real.cos, Real.exp, Real.sqrt, fun y x => Complex.arg ⟨x, y⟩, Real.pi⟩
        (FlowState.initial : FlowState ℝ) ⟨1 / 2, 1 / 2, 1 / 2, 1 / 2, 1 / 2⟩
        ⟨⟨0, 3, 0⟩, ⟨1, 0, 0⟩, 50, 100, ⟨0, 3, 0⟩, ⟨0, 3, 0⟩⟩).pos.y = 3 :=
  (tracer_velocity_horizontal
    ⟨Real.sin, Real.cos, Real.exp, Real.sqrt, fun y x => Complex.arg ⟨x, y⟩, Real.pi⟩
    (FlowState.initial : FlowState ℝ)).2.2.2 ⟨1 / 2, 1 / 2, 1 / 2, 1 / 2, 1 / 2⟩
    ⟨⟨0, 3, 0⟩, ⟨1, 0, 0⟩, 50, 100, ⟨0, 3, 0⟩, ⟨0, 3, 0⟩⟩ rfl (by norm_num)
    (by
      simp only [inGridBounds, maxY_eq, GRID_RANGE]
      norm_num)

end TracerVelocity

section AltitudeBands

variable {α : Type} [LinearOrderedField α]

/-- The band that `find` selects, by the position of the flight level among
the thresholds. -/
theorem altitudeBandIndex_cases (fl : α) :
    (fl ≤ 100 → altitudeBandIndex fl = some 0) ∧
    (100 < fl → fl ≤ 200 → altitudeBandIndex fl = some 1) ∧
    (200 < fl → fl ≤ 300 → altitudeBandIndex fl = some 2) ∧
    (300 < fl → fl ≤ 400 → altitudeBandIndex fl = some 3) ∧
    (400 < fl → altitudeBandIndex fl = some 4) := by
  refine ⟨?_, ?_, ?_, ?_, ?_⟩
  · intro h
    simp [altitudeBandIndex, altitudeBandMaxima, List.findIdx?_cons, h]
  · intro h1 h2
    simp [altitudeBandIndex, altitudeBandMaxima, List.findIdx?_cons, not_le.mpr h1, h2]
  · intro h1 h2
    have h0 : ¬ fl ≤ 100 := not_le.mpr (by linarith)
    simp [altitudeBandIndex, altitudeBandMaxima, List.findIdx?_cons, not_le.mpr h1, h2, h0]
  · intro h1 h2
    have h0 : ¬ fl ≤ 100 := not_le.mpr (by linarith)
    have h0' : ¬ fl ≤ 200 := not_le.mpr (by linarith)
    simp [altitudeBandIndex, altitudeBandMaxima, List.findIdx?_cons, not_le.mpr h1, h2, h0, h0']
  · intro h1
    have h0 : ¬ fl ≤ 100 := not_le.mpr (by linarith)
    have h0' : ¬ fl ≤ 200 := not_le.mpr (by linarith)
    have h0'' : ¬ fl ≤ 300 := not_le.mpr (by linarith)
    simp [altitudeBandIndex, altitudeBandMaxima, List.findIdx?_cons, not_le.mpr h1, h0, h0',
      h0'']

/-- The heading contribution is the value of the band that `find` selects. -/
theorem getAltitudeWindPattern_eq_band (M : MathLib α) (fl x z : α) :
    ∃ k, altitudeBandIndex fl = some k ∧ k < 5 ∧
      getAltitudeWindPattern M fl x z = altitudeBandValue M k x z := by
  obtain ⟨c0, c1, c2, c3, c4⟩ := altitudeBandIndex_cases fl
  by_cases h1 : fl ≤ 100
  · exact ⟨0, c0 h1, by norm_num, by simp only [getAltitudeWindPattern, if_pos h1,
      altitudeBandValue]⟩
  by_cases h2 : fl ≤ 200
  · exact ⟨1, c1 (not_le.mp h1) h2, by norm_num, by simp only [getAltitudeWindPattern,
      if_neg h1, if_pos h2, altitudeBandValue]⟩
  by_cases h3 : fl ≤ 300
  · exact ⟨2, c2 (not_le.mp h2) h3, by norm_num, by simp only [getAltitudeWindPattern,
      if_neg h1, if_neg h2, if_pos h3, altitudeBandValue]⟩
  by_cases h4 : fl ≤ 400
  · exact ⟨3, c3 (not_le.mp h3) h4, by norm_num, by simp only [getAltitudeWindPattern,
      if_neg h1, if_neg h2, if_neg h3, if_pos h4, altitudeBandValue]⟩
  · exact ⟨4, c4 (not_le.mp h4), by norm_num, by simp only [getAltitudeWindPattern,
      if_neg h1, if_neg h2, if_neg h3, if_neg h4, altitudeBandValue]⟩

theorem flightLevelAt_level (L : ℕ) : flightLevelAt (((2 * L : ℕ) : α)) = 50 + 50 * (L : α) := by
  simp only [flightLevelAt, FLIGHT_LEVELS_MIN, GRID_SPACING, FLIGHT_LEVELS_INCREMENT]
  push_cast
  ring

/-- C27: for every flight level `getAltitudeWindPattern` finds a band, the
first among the maxima 100, 200, 300, 400, infinity with `f ≤ max`, and
returns the value of that band; for the grid level `L` in 0..9, at altitude
`2 L`, the flight level is `50 + 50 L` and the band index is `L / 2`. -/
theorem altitude_band_selection (M : MathLib α) (fl x z : α) :
    (∃ k, altitudeBandIndex fl = some k ∧ k < 5 ∧
      getAltitudeWindPattern M fl x z = altitudeBandValue M k x z) ∧
    (fl ≤ 100 → altitudeBandIndex fl = some 0) ∧
    (100 < fl → fl ≤ 200 → altitudeBandIndex fl = some 1) ∧
    (200 < fl → fl ≤ 300 → altitudeBandIndex fl = some 2) ∧
    (300 < fl → fl ≤ 400 → altitudeBandIndex fl = some 3) ∧
    (400 < fl → altitudeBandIndex fl = some 4) ∧
    (∀ L : ℕ, L ≤ 9 →
      flightLevelAt (((2 * L : ℕ) : α)) = 50 + 50 * (L : α) ∧
      altitudeBandIndex (flightLevelAt (((2 * L : ℕ) : α))) = some (L / 2)) := by
  obtain ⟨c0, c1, c2, c3, c4⟩ := altitudeBandIndex_cases fl
  refine ⟨getAltitudeWindPattern_eq_band M fl x z, c0, c1, c2, c3, c4, ?_⟩
  intro L hL
  refine ⟨flightLevelAt_level L, ?_⟩
  rw [flightLevelAt_level L]
  interval_cases L
  · exact (altitudeBandIndex_cases _).1 (by norm_num)
  · exact (altitudeBandIndex_cases _).1 (by norm_num)
  · exact (altitudeBandIndex_cases _).2.1 (by norm_num) (by norm_num)
  · exact (altitudeBandIndex_cases _).2.1 (by norm_num) (by norm_num)
  · exact (altitudeBandIndex_cases _).2.2.1 (by norm_num) (by norm_num)
  · exact (altitudeBandIndex_cases _).2.2.1 (by norm_num) (by norm_num)
  · exact (altitudeBandIndex_cases _).2.2.2.1 (by norm_num) (by norm_num)
  · exact (altitudeBandIndex_cases _).2.2.2.1 (by norm_num) (by norm_num)
  · exact (altitudeBandIndex_cases _).2.2.2.2 (by norm_num)
  · exact (altitudeBandIndex_cases _).2.2.2.2 (by norm_num)

/-- C27, at the flight level 100, the inclusive bound of the first band. -/
theorem altitude_band_selection_witness : altitudeBandIndex (100 : ℚ) = some 0 :=
  (altitude_band_selection ⟨fun _ => 0, fun _ => 1, fun _ => 1, fun t => t, fun _ _ => 0, 3⟩
    (100 : ℚ) 0 0).2.1 (le_refl 100)

theorem scaled_bounds (P f b : α) (h1 : -b ≤ P) (h2 : P ≤ b) (h3 : 0 ≤ f) (h4 : f ≤ 1) :
    -b ≤ P * f ∧ P * f ≤ b := by
  have hb : 0 ≤ b := by linarith
  constructor
  · nlinarith [mul_nonneg (by linarith : 0 ≤ P + b) h3, mul_nonneg hb (by linarith : 0 ≤ 1 - f)]
  · nlinarith [mul_nonneg (by linarith : 0 ≤ b - P) h3, mul_nonneg hb (by linarith : 0 ≤ 1 - f)]

/-- C25, amended: when sine and cosine take values in [-1, 1], then with no
storm active and `y` in [0, 20] `calculateVerticalComponent` returns
`(0.25 sin(0.5x + 0.4z) + 0.15 cos(0.35x - 0.5z)) * (1 - 0.5 y / 20)` and the
value lies in [-0.4, 0.4]. -/
theorem calm_vertical_bounds (M : MathLib α) (s : Settings α) (x y z : α)
    (hsin : ∀ t, -1 ≤ M.sin t ∧ M.sin t ≤ 1) (hcos : ∀ t, -1 ≤ M.cos t ∧ M.cos t ≤ 1)
    (hh : s.hurricaneActive = false) (ht : s.thunderstormActive = false)
    (hy0 : 0 ≤ y) (hy20 : y ≤ 20) :
    calculateVerticalComponent M s x y z
      = (0.25 * M.sin (0.5 * x + 0.4 * z) + 0.15 * M.cos (0.35 * x - 0.5 * z))
        * (1 - 0.5 * y / 20) ∧
    -0.4 ≤ calculateVerticalComponent M s x y z ∧
    calculateVerticalComponent M s x y z ≤ 0.4 := by
  have h1 : x * 0.5 + z * 0.4 = 0.5 * x + 0.4 * z := by ring
  have h2 : x * 0.35 - z * 0.5 = 0.35 * x - 0.5 * z := by ring
  have hv : calculateVerticalComponent M s x y z
      = (0.25 * M.sin (0.5 * x + 0.4 * z) + 0.15 * M.cos (0.35 * x - 0.5 * z))
        * (1 - 0.5 * y / 20) := by
    simp only [calculateVerticalComponent, hh, ht, Bool.false_eq_true, if_false, maxY_eq, h1, h2]
    ring
  obtain ⟨s1, s2⟩ := hsin (0.5 * x + 0.4 * z)
  obtain ⟨c1, c2⟩ := hcos (0.35 * x - 0.5 * z)
  have hb := scaled_bounds (0.25 * M.sin (0.5 * x + 0.4 * z) + 0.15 * M.cos (0.35 * x - 0.5 * z))
    (1 - 0.5 * y / 20) 0.4 (by linarith) (by linarith) (by linarith) (by linarith)
  rw [hv]
  exact ⟨rfl, hb.1, hb.2⟩

end AltitudeBands

section HurricaneDeterminism

variable {α : Type} [LinearOrderedField α]

/-- Outside the eye the hurricane functions of the edition under `_site` do
not use their draw. -/
theorem hurricane_outside_eye_no_draw (M : MathLib α) (s : Settings α) (r r' x y z : α)
    (h : ¬ calculateDistance M (x, z) s.hurricanePosition < eyeRadius s.hurricaneIntensity) :
    calculateHurricaneSpeed M s r x y z = calculateHurricaneSpeed M s r' x y z ∧
    calculateHurricaneEffect M s r x y z = calculateHurricaneEffect M s r' x y z := by
  constructor
  · simp only [calculateHurricaneSpeed, if_neg h]
  · simp only [calculateHurricaneEffect, if_neg h]

end HurricaneDeterminism

section RealBands

theorem sin_six_ne : Real.sin (6 + 1 * 0.001) ≠ Real.sin (6 + 0 * 0.001) := by
  have hpi3 := Real.pi_gt_three
  have hpi4 := Real.pi_le_four
  have hd : Real.sin (6 + 1 * 0.001) - Real.sin (6 + 0 * 0.001)
      = 2 * Real.sin 0.0005 * Real.cos 6.0005 := by
    rw [Real.sin_sub_sin]
    norm_num
  have hs : 0 < Real.sin 0.0005 :=
    Real.sin_pos_of_pos_of_lt_pi (by norm_num) (by linarith)
  have hc : 0 < Real.cos 6.0005 := by
    rw [← Real.cos_sub_two_pi]
    apply Real.cos_pos_of_mem_Ioo
    constructor <;> linarith
  intro heq
  have : 2 * Real.sin 0.0005 * Real.cos 6.0005 = 0 := by
    rw [← hd, heq, sub_self]
  have hpos : 0 < 2 * Real.sin 0.0005 * Real.cos 6.0005 := by positivity
  linarith

/-- C24: in the edition `assets/js/wind-vector-core.js`, with the real `Math`
functions, a hurricane of intensity 3 at the origin and the position
(4, 0, 0), which is outside the eye (in the spiral band), two calls of
`calculateHurricaneSpeed` with the same arguments and storm state return
different values when `Date.now()` is 0 and 1. -/
theorem assets_hurricaneSpeed_reads_wall_clock (r : ℝ) :
    ¬ calculateDistance
        ⟨Real.sin, Real.cos, Real.exp, Real.sqrt, fun y x => Complex.arg ⟨x, y⟩, Real.pi⟩
        ((4 : ℝ), (0 : ℝ)) ((0 : ℝ), (0 : ℝ)) < eyeRadius 3 ∧
    Assets.calculateHurricaneSpeed
        ⟨Real.sin, Real.cos, Real.exp, Real.sqrt, fun y x => Complex.arg ⟨x, y⟩, Real.pi⟩
        ⟨"Florida", false, (0, 0), true, (0, 0), 3⟩ 1 r 4 0 0
      ≠ Assets.calculateHurricaneSpeed
        ⟨Real.sin, Real.cos, Real.exp, Real.sqrt, fun y x => Complex.arg ⟨x, y⟩, Real.pi⟩
        ⟨"Florida", false, (0, 0), true, (0, 0), 3⟩ 0 r 4 0 0 := by
  have hdist : calculateDistance
      ⟨Real.sin, Real.cos, Real.exp, Real.sqrt, fun y x => Complex.arg ⟨x, y⟩, Real.pi⟩
      ((4 : ℝ), (0 : ℝ)) ((0 : ℝ), (0 : ℝ)) = 4 := by
    have h0 : ((4 : ℝ) - 0) ^ 2 + ((0 : ℝ) - 0) ^ 2 = 4 ^ 2 := by norm_num
    simp only [calculateDistance, h0]
    exact Real.sqrt_sq (by norm_num)
  have h1 : ¬ (4 : ℝ) < eyeRadius 3 := by
    simp only [eyeRadius, EYE_BASE_RADIUS, EYE_RADIUS_SCALE]
    norm_num
  have h2 : ¬ (4 : ℝ) < eyeWallRadius 3 := by
    simp only [eyeWallRadius, eyeRadius, EYE_BASE_RADIUS, EYE_RADIUS_SCALE, EYEWALL_OFFSET]
    norm_num
  have h3 : (4 : ℝ) < spiralRadius 3 := by
    simp only [spiralRadius, SPIRAL_BASE_RADIUS, SPIRAL_RADIUS_SCALE]
    norm_num
  have hw : CATEGORY_WINDS[3]? = some 111 := by decide
  refine ⟨by rw [hdist]; exact h1, ?_⟩
  simp only [Assets.calculateHurricaneSpeed, hdist, if_neg h1, if_neg h2, if_pos h3, hw,
    bind, Option.bind, pure, Option.map_some', ne_eq, Option.some.injEq, Int.cast_one,
    Int.cast_zero]
  intro heq
  have h6 : (4 : ℝ) * 1.5 = 6 := by norm_num
  rw [h6] at heq
  have := sin_six_ne
  apply this
  linarith

/-- C25, as stated, fails: with the real `Math` functions and no storm, at
`x = 25π/39`, `y = 0`, `z = 35π/78` the sine is `sin(π/2) = 1` and the cosine
is `cos 0 = 1`, so `calculateVerticalComponent` is 0.4, above 0.35. -/
theorem calm_vertical_exceeds_035 :
    ¬ (calculateVerticalComponent
        ⟨Real.sin, Real.cos, Real.exp, Real.sqrt, fun y x => Complex.arg ⟨x, y⟩, Real.pi⟩
        (defaultSettings : Settings ℝ) (25 * Real.pi / 39) 0 (35 * Real.pi / 78) ≤ 0.35) := by
  have h1 : 25 * Real.pi / 39 * 0.5 + 35 * Real.pi / 78 * 0.4 = Real.pi / 2 := by
    norm_num
    ring
  have h2 : 25 * Real.pi / 39 * 0.35 - 35 * Real.pi / 78 * 0.5 = 0 := by
    norm_num
    ring
  simp only [calculateVerticalComponent, defaultSettings, Bool.false_eq_true, if_false, h1, h2,
    Real.sin_pi_div_two, Real.cos_zero]
  norm_num

/-- C25, amended, with the real `Math` functions and the initial settings. -/
theorem calm_vertical_bounds_witness :
    -0.4 ≤ calculateVerticalComponent
      ⟨Real.sin, Real.cos, Real.exp, Real.sqrt, fun y x => Complex.arg ⟨x, y⟩, Real.pi⟩
      (defaultSettings : Settings ℝ) 1 2 3 ∧
    calculateVerticalComponent
      ⟨Real.sin, Real.cos, Real.exp, Real.sqrt, fun y x => Complex.arg ⟨x, y⟩, Real.pi⟩
      (defaultSettings : Settings ℝ) 1 2 3 ≤ 0.4 :=
  (calm_vertical_bounds
    ⟨Real.sin, Real.cos, Real.exp, Real.sqrt, fun y x => Complex.arg ⟨x, y⟩, Real.pi⟩
    (defaultSettings : Settings ℝ) 1 2 3
    (fun t => ⟨Real.neg_one_le_sin t, Real.sin_le_one t⟩)
    (fun t => ⟨Real.neg_one_le_cos t, Real.cos_le_one t⟩) rfl rfl (by norm_num)
    (by norm_num)).2

theorem abs_two_waves_le (a b A B : ℝ) (ha : |a| ≤ 1) (hb : |b| ≤ 1) (hA : 0 ≤ A) (hB : 0 ≤ B) :
    |a * A + b * B| ≤ A + B := by
  rw [abs_le] at ha hb ⊢
  constructor <;> nlinarith [mul_nonneg hA (by linarith : 0 ≤ 1 - a),
    mul_nonneg hA (by linarith : 0 ≤ 1 + a), mul_nonneg hB (by linarith : 0 ≤ 1 - b),
    mul_nonneg hB (by linarith : 0 ≤ 1 + b)]

theorem abs_offset_waves_le (a b C A B : ℝ) (ha : |a| ≤ 1) (hb : |b| ≤ 1) (hC : 0 ≤ C)
    (hA : 0 ≤ A) (hB : 0 ≤ B) : |C + a * A + b * B| ≤ C + A + B := by
  rw [abs_le] at ha hb ⊢
  constructor <;> nlinarith [mul_nonneg hA (by linarith : 0 ≤ 1 - a),
    mul_nonneg hA (by linarith : 0 ≤ 1 + a), mul_nonneg hB (by linarith : 0 ≤ 1 - b),
    mul_nonneg hB (by linarith : 0 ≤ 1 + b)]

/-- C26, as stated, fails: with the real `Math` functions the first band
(flight level 50) has the magnitude 40 at `x = 0`, `z = 5π/6`, while the
second band (flight level 150) has a magnitude above 38 at no position, so the
amplitude of band 0 is above the amplitude of band 1. -/
theorem altitude_bands_not_increasing :
    |getAltitudeWindPattern
        ⟨Real.sin, Real.cos, Real.exp, Real.sqrt, fun y x => Complex.arg ⟨x, y⟩, Real.pi⟩
        50 0 (5 * Real.pi / 6)| = 40 ∧
    ¬ ∃ p : ℝ × ℝ,
      38 < |getAltitudeWindPattern
        ⟨Real.sin, Real.cos, Real.exp, Real.sqrt, fun y x => Complex.arg ⟨x, y⟩, Real.pi⟩
        150 p.1 p.2| := by
  have h0 : getAltitudeWindPattern
      ⟨Real.sin, Real.cos, Real.exp, Real.sqrt, fun y x => Complex.arg ⟨x, y⟩, Real.pi⟩
      50 0 (5 * Real.pi / 6) = 40 := by
    have harg : (0 + 5 * Real.pi / 6) * 0.6 = Real.pi / 2 := by
      norm_num
      ring
    have hle : (50 : ℝ) ≤ 100 := by norm_num
    simp only [getAltitudeWindPattern, if_pos hle, harg, Real.sin_pi_div_two, zero_mul,
      Real.cos_zero]
    norm_num
  constructor
  · rw [h0]
    exact abs_of_pos (by norm_num)
  · rintro ⟨p, hp⟩
    have h1 : |getAltitudeWindPattern
        ⟨Real.sin, Real.cos, Real.exp, Real.sqrt, fun y x => Complex.arg ⟨x, y⟩, Real.pi⟩
        150 p.1 p.2| ≤ 20 + 18 := by
      have hn : ¬ (150 : ℝ) ≤ 100 := by norm_num
      have hle : (150 : ℝ) ≤ 200 := by norm_num
      simp only [getAltitudeWindPattern, if_neg hn, if_pos hle]
      exact abs_two_waves_le _ _ 20 18 (Real.abs_sin_le_one _) (Real.abs_cos_le_one _)
        (by norm_num) (by norm_num)
    linarith

/-- C26, amended: with the real `Math` functions the largest magnitudes of the
five band values are 40, 38, 27, 48 and 63; they decrease over the first three
bands and increase from the third band on. -/
theorem altitude_band_amplitudes :
    IsGreatest (Set.range (fun p : ℝ × ℝ => |altitudeBandValue
      ⟨Real.sin, Real.cos, Real.exp, Real.sqrt, fun y x => Complex.arg ⟨x, y⟩, Real.pi⟩
      0 p.1 p.2|)) 40 ∧
    IsGreatest (Set.range (fun p : ℝ × ℝ => |altitudeBandValue
      ⟨Real.sin, Real.cos, Real.exp, Real.sqrt, fun y x => Complex.arg ⟨x, y⟩, Real.pi⟩
      1 p.1 p.2|)) 38 ∧
    IsGreatest (Set.range (fun p : ℝ × ℝ => |altitudeBandValue
      ⟨Real.sin, Real.cos, Real.exp, Real.sqrt, fun y x => Complex.arg ⟨x, y⟩, Real.pi⟩
      2 p.1 p.2|)) 27 ∧
    IsGreatest (Set.range (fun p : ℝ × ℝ => |altitudeBandValue
      ⟨Real.sin, Real.cos, Real.exp, Real.sqrt, fun y x => Complex.arg ⟨x, y⟩, Real.pi⟩
      3 p.1 p.2|)) 48 ∧
    IsGreatest (Set.range (fun p : ℝ × ℝ => |altitudeBandValue
      ⟨Real.sin, Real.cos, Real.exp, Real.sqrt, fun y x => Complex.arg ⟨x, y⟩, Real.pi⟩
      4 p.1 p.2|)) 63 ∧
    (40 : ℝ) > 38 ∧ (38 : ℝ) > 27 ∧ (27 : ℝ) < 48 ∧ (48 : ℝ) < 63 := by
  refine ⟨⟨⟨(0, 5 * Real.pi / 6), ?_⟩, ?_⟩, ⟨⟨(5 * Real.pi / 4, 0), ?_⟩, ?_⟩,
    ⟨⟨(Real.pi, -Real.pi), ?_⟩, ?_⟩, ⟨⟨(0, 5 * Real.pi / 2), ?_⟩, ?_⟩,
    ⟨⟨(2 * Real.pi, 2 * Real.pi), ?_⟩, ?_⟩, by norm_num, by norm_num, by norm_num, by norm_num⟩
  · have harg : (0 + 5 * Real.pi / 6) * 0.6 = Real.pi / 2 := by
      norm_num
      ring
    simp only [altitudeBandValue, harg, Real.sin_pi_div_two, zero_mul, Real.cos_zero]
    norm_num
  · rintro v ⟨p, rfl⟩
    have h := abs_two_waves_le (Real.sin ((p.1 + p.2) * 0.6)) (Real.cos (p.1 * 0.8)) 25 15
      (Real.abs_sin_le_one _) (Real.abs_cos_le_one _) (by norm_num) (by norm_num)
    simp only [altitudeBandValue]
    linarith
  · have harg : (5 * Real.pi / 4 - 0) * 0.4 = Real.pi / 2 := by
      norm_num
      ring
    simp only [altitudeBandValue, harg, Real.sin_pi_div_two, zero_mul, Real.cos_zero]
    norm_num
  · rintro v ⟨p, rfl⟩
    have h := abs_two_waves_le (Real.sin ((p.1 - p.2) * 0.4)) (Real.cos (p.2 * 0.7)) 20 18
      (Real.abs_sin_le_one _) (Real.abs_cos_le_one _) (by norm_num) (by norm_num)
    simp only [altitudeBandValue]
    linarith
  · have harg : (Real.pi + -Real.pi) * 0.3 = 0 := by ring
    have harg' : Real.pi * 0.5 = Real.pi / 2 := by ring
    simp only [altitudeBandValue, harg, harg', Real.sin_pi_div_two, Real.cos_zero]
    norm_num
  · rintro v ⟨p, rfl⟩
    have h := abs_two_waves_le (Real.cos ((p.1 + p.2) * 0.3)) (Real.sin (p.1 * 0.5)) 15 12
      (Real.abs_cos_le_one _) (Real.abs_sin_le_one _) (by norm_num) (by norm_num)
    simp only [altitudeBandValue]
    linarith
  · have harg : 5 * Real.pi / 2 * 0.2 = Real.pi / 2 := by
      norm_num
      ring
    simp only [altitudeBandValue, harg, Real.sin_pi_div_two, zero_mul, Real.cos_zero]
    norm_num
  · rintro v ⟨p, rfl⟩
    have h := abs_offset_waves_le (Real.sin (p.2 * 0.2)) (Real.cos (p.1 * 0.3)) 30 10 8
      (Real.abs_sin_le_one _) (Real.abs_cos_le_one _) (by norm_num) (by norm_num) (by norm_num)
    simp only [altitudeBandValue]
    linarith
  · have harg : (2 * Real.pi - 2 * Real.pi) * 0.2 = 0 := by ring
    have harg' : 2 * Real.pi * 0.25 = Real.pi / 2 := by ring
    simp only [altitudeBandValue, harg, harg', Real.sin_pi_div_two, Real.cos_zero]
    norm_num
  · rintro v ⟨p, rfl⟩
    have h := abs_offset_waves_le (Real.cos ((p.1 - p.2) * 0.2)) (Real.sin (p.1 * 0.25)) 45 12 6
      (Real.abs_cos_le_one _) (Real.abs_sin_le_one _) (by norm_num) (by norm_num) (by norm_num)
    simp only [altitudeBandValue]
    linarith

end RealBands

section SquareRoot

variable {α : Type} [LinearOrderedField α]

theorem sqrt_mul_self_of_sound (M : MathLib α)
    (hsqrt : ∀ t : α, 0 ≤ t → 0 ≤ M.sqrt t ∧ M.sqrt t * M.sqrt t = t) (r : α) :
    M.sqrt (r * r) = |r| := by
  obtain ⟨h0, h1⟩ := hsqrt (r * r) (mul_self_nonneg r)
  have h2 : M.sqrt (r * r) * M.sqrt (r * r) = |r| * |r| := by rw [h1, abs_mul_abs_self]
  exact (mul_self_inj_of_nonneg h0 (abs_nonneg r)).mp h2

end SquareRoot

section Float32

variable {α : Type} [LinearOrderedField α] [FloorRing α]

theorem abs_sub_roundTiesToEven (y : α) : |y - (roundTiesToEven y : α)| ≤ 1 / 2 := by
  have h1 : (⌊y⌋ : α) ≤ y := Int.floor_le y
  have h2 : y < (⌊y⌋ : α) + 1 := Int.lt_floor_add_one y
  unfold roundTiesToEven
  simp only
  rw [abs_le]
  split_ifs with ha hb hc
  · constructor <;> linarith
  · push_cast
    constructor <;> linarith
  · have hd : y - (⌊y⌋ : α) = 1 / 2 := le_antisymm (not_lt.mp hb) (not_lt.mp ha)
    constructor <;> linarith
  · have hd : y - (⌊y⌋ : α) = 1 / 2 := le_antisymm (not_lt.mp hb) (not_lt.mp ha)
    push_cast
    constructor <;> linarith

theorem roundTiesToEven_le (y : α) (N : ℤ) (h : y < (N : α) + 1 / 2) :
    roundTiesToEven y ≤ N := by
  have h1 := (abs_le.mp (abs_sub_roundTiesToEven y)).1
  have h2 : ((roundTiesToEven y : ℤ) : α) < ((N + 1 : ℤ) : α) := by
    push_cast
    linarith
  have h3 := Int.cast_lt.mp h2
  omega

theorem le_roundTiesToEven (y : α) (N : ℤ) (h : (N : α) - 1 / 2 < y) :
    N ≤ roundTiesToEven y := by
  have h1 := (abs_le.mp (abs_sub_roundTiesToEven y)).2
  have h2 : ((N - 1 : ℤ) : α) < ((roundTiesToEven y : ℤ) : α) := by
    push_cast
    linarith
  have h3 := Int.cast_lt.mp h2
  omega

theorem roundTiesToEven_eq (y : α) (N : ℤ) (h1 : (N : α) - 1 / 2 < y)
    (h2 : y < (N : α) + 1 / 2) : roundTiesToEven y = N :=
  le_antisymm (roundTiesToEven_le y N h2) (le_roundTiesToEven y N h1)

theorem fround_zero : fround (0 : α) = 0 := by
  simp only [fround, if_true]

theorem fround_nonneg (x : α) (h : 0 ≤ x) : 0 ≤ fround x := by
  unfold fround
  split_ifs with h0
  · exact le_refl 0
  · simp only
    have hq : (0 : α) < (2 : α) ^ (max (Int.log 2 |x|) (-126) - 23) := zpow_pos (by norm_num) _
    apply mul_nonneg _ hq.le
    have hy : (0 : α) ≤ x / (2 : α) ^ (max (Int.log 2 |x|) (-126) - 23) := div_nonneg h hq.le
    have : (0 : ℤ) ≤ roundTiesToEven (x / (2 : α) ^ (max (Int.log 2 |x|) (-126) - 23)) :=
      le_roundTiesToEven _ 0 (by push_cast; linarith)
    exact_mod_cast this

theorem log_two_eq (x : α) (hx : 0 < x) (e : ℤ) (h1 : (2 : α) ^ e ≤ x)
    (h2 : x < (2 : α) ^ (e + 1)) : Int.log 2 x = e := by
  have h1' : ((2 : ℕ) : α) ^ e ≤ x := by simpa using h1
  have h2' : x < ((2 : ℕ) : α) ^ (e + 1) := by simpa using h2
  have a := (Int.zpow_le_iff_le_log (by norm_num : 1 < 2) hx).mp h1'
  have b := (Int.lt_zpow_iff_log_lt (by norm_num : 1 < 2) hx).mp h2'
  omega

/-- The value of `fround` on a positive number of the binade `e`. -/
theorem fround_of_binade (x : α) (hx : 0 < x) (e : ℤ) (he : -126 ≤ e) (h1 : (2 : α) ^ e ≤ x)
    (h2 : x < (2 : α) ^ (e + 1)) :
    fround x = (roundTiesToEven (x / (2 : α) ^ (e - 23)) : α) * (2 : α) ^ (e - 23) := by
  have hl : Int.log 2 |x| = e := by
    rw [abs_of_pos hx]
    exact log_two_eq x hx e h1 h2
  unfold fround
  rw [if_neg (ne_of_gt hx)]
  simp only [hl, max_eq_left he]

/-- The conversion to binary32 moves a normal number by at most the fraction
`2 ^ (-24)` of its magnitude. -/
theorem fround_rel_error (x : α) (hx : (2 : α) ^ (-126 : ℤ) ≤ |x|) :
    |fround x - x| ≤ |x| / 2 ^ 24 := by
  have hpos : 0 < |x| := lt_of_lt_of_le (zpow_pos (by norm_num) _) hx
  have hne : x ≠ 0 := abs_pos.mp hpos
  have hlog : ((2 : ℕ) : α) ^ Int.log 2 |x| ≤ |x| := Int.zpow_log_le_self (by norm_num) hpos
  have hle : (-126 : ℤ) ≤ Int.log 2 |x| :=
    (Int.zpow_le_iff_le_log (by norm_num : 1 < 2) hpos).mp (by simpa using hx)
  unfold fround
  rw [if_neg hne]
  simp only [max_eq_left hle]
  set e := Int.log 2 |x| with he
  have hq : (0 : α) < (2 : α) ^ (e - 23) := zpow_pos (by norm_num) _
  have hr := abs_sub_roundTiesToEven (x / (2 : α) ^ (e - 23))
  have hkey : (roundTiesToEven (x / (2 : α) ^ (e - 23)) : α) * (2 : α) ^ (e - 23) - x
      = -((x / (2 : α) ^ (e - 23) - (roundTiesToEven (x / (2 : α) ^ (e - 23)) : α))
          * (2 : α) ^ (e - 23)) := by
    field_simp
    ring
  rw [hkey, abs_neg, abs_mul, abs_of_pos hq]
  have h2 : (2 : α) ^ (e - 23) = (2 : α) ^ e / 2 ^ 23 := by
    rw [zpow_sub₀ (by norm_num)]
    norm_num
  have h3 : |x / (2 : α) ^ (e - 23) - (roundTiesToEven (x / (2 : α) ^ (e - 23)) : α)|
      * (2 : α) ^ (e - 23) ≤ 1 / 2 * (2 : α) ^ (e - 23) :=
    mul_le_mul_of_nonneg_right hr hq.le
  have h4 : (2 : α) ^ e ≤ |x| := by simpa using hlog
  have h5 : (1 : α) / 2 * ((2 : α) ^ e / 2 ^ 23) = (2 : α) ^ e / 2 ^ 24 := by ring
  have h6 : (2 : α) ^ e / 2 ^ 24 ≤ |x| / 2 ^ 24 := by
    apply div_le_div_of_nonneg_right h4 (by norm_num)
  rw [h2] at h3 ⊢
  linarith

/-- The binary32 values of the numbers from 0.7 up to 1.3: the least is the
binary32 value of 0.7, which is 11744051 / 2 ^ 24, below 0.7; the greatest is
at most 10905190 / 2 ^ 23, below 1.3. -/
theorem fround_multiplier_bounds (x : α) (h1 : 0.7 ≤ x) (h2 : x < 1.3) :
    11744051 / 16777216 ≤ fround x ∧ fround x ≤ 10905190 / 8388608 := by
  have hx : 0 < x := by linarith
  by_cases hlt : x < 1
  · have hq : (2 : α) ^ ((-1 : ℤ) - 23) = 1 / 16777216 := by norm_num
    rw [fround_of_binade x hx (-1) (by norm_num) (by norm_num; linarith) (by norm_num; linarith),
      hq]
    have ha : (11744051 : ℤ) ≤ roundTiesToEven (x / (1 / 16777216)) :=
      le_roundTiesToEven _ _ (by
        rw [div_div_eq_mul_div, div_one]
        push_cast
        linarith)
    have hb : roundTiesToEven (x / (1 / 16777216)) ≤ (16777216 : ℤ) :=
      roundTiesToEven_le _ _ (by
        rw [div_div_eq_mul_div, div_one]
        push_cast
        linarith)
    have ha' : ((11744051 : ℤ) : α) ≤ (roundTiesToEven (x / (1 / 16777216)) : α) :=
      Int.cast_le.mpr ha
    have hb' : (roundTiesToEven (x / (1 / 16777216)) : α) ≤ ((16777216 : ℤ) : α) :=
      Int.cast_le.mpr hb
    push_cast at ha' hb'
    constructor <;> linarith
  · have hge : 1 ≤ x := not_lt.mp hlt
    have hq : (2 : α) ^ ((0 : ℤ) - 23) = 1 / 8388608 := by norm_num
    rw [fround_of_binade x hx 0 (by norm_num) (by norm_num; linarith) (by norm_num; linarith),
      hq]
    have ha : (8388608 : ℤ) ≤ roundTiesToEven (x / (1 / 8388608)) :=
      le_roundTiesToEven _ _ (by
        rw [div_div_eq_mul_div, div_one]
        push_cast
        linarith)
    have hb : roundTiesToEven (x / (1 / 8388608)) ≤ (10905190 : ℤ) :=
      roundTiesToEven_le _ _ (by
        rw [div_div_eq_mul_div, div_one]
        push_cast
        linarith)
    have ha' : ((8388608 : ℤ) : α) ≤ (roundTiesToEven (x / (1 / 8388608)) : α) :=
      Int.cast_le.mpr ha
    have hb' : (roundTiesToEven (x / (1 / 8388608)) : α) ≤ ((10905190 : ℤ) : α) :=
      Int.cast_le.mpr hb
    push_cast at ha' hb'
    constructor <;> linarith

/-- The binary32 value of 0.04. -/
theorem fround_rise : fround (0.04 : α) = 5368709 / 134217728 := by
  rw [fround_of_binade (0.04 : α) (by norm_num) (-5) (by norm_num) (by norm_num) (by norm_num)]
  have hq : (2 : α) ^ ((-5 : ℤ) - 23) = 1 / 268435456 := by norm_num
  rw [hq, roundTiesToEven_eq _ 10737418 (by norm_num) (by norm_num)]
  norm_num

/-- The binary32 value of 0.7. -/
theorem fround_seven_tenths : fround (0.7 : α) = 11744051 / 16777216 := by
  rw [fround_of_binade (0.7 : α) (by norm_num) (-1) (by norm_num) (by norm_num) (by norm_num)]
  have hq : (2 : α) ^ ((-1 : ℤ) - 23) = 1 / 16777216 := by norm_num
  rw [hq, roundTiesToEven_eq _ 11744051 (by norm_num) (by norm_num)]
  norm_num

end Float32

section StormParticles

variable {α : Type} [LinearOrderedField α] [FloorRing α]

theorem updateThunderstormTracer_altitude (M : MathLib α) (s : Settings α) (d : ColumnDraws α)
    (p : ColumnTracer α) (h0 : 0 ≤ p.altitude) :
    0 ≤ (StormSystem.updateThunderstormTracer M s d p).altitude ∧
    (StormSystem.updateThunderstormTracer M s d p).altitude ≤ 20 := by
  have hf : 0 ≤ fround (p.altitude + 0.04) := fround_nonneg _ (by linarith)
  simp only [StormSystem.updateThunderstormTracer, maxY_eq, StormSystem.THUNDERSTORM_RISE_SPEED]
  split_ifs with h
  · simp only [fround_zero]
    exact ⟨le_refl 0, by norm_num⟩
  · exact ⟨hf, not_lt.mp h⟩

theorem updateThunderstormFrom_altitude (M : MathLib α) (s : Settings α)
    (draws : ℕ → ColumnDraws α) (ps : List (ColumnTracer α))
    (hps : ∀ t ∈ ps, 0 ≤ t.altitude ∧ t.altitude ≤ 20) :
    ∀ i : ℕ, ∀ t ∈ StormSystem.updateThunderstormFrom M s draws i ps,
      0 ≤ t.altitude ∧ t.altitude ≤ 20 := by
  induction ps with
  | nil => intro i t ht; simp [StormSystem.updateThunderstormFrom] at ht
  | cons p rest ih =>
    intro i t ht
    simp only [StormSystem.updateThunderstormFrom, List.mem_cons] at ht
    rcases ht with rfl | ht
    · exact updateThunderstormTracer_altitude M s (draws i) p (hps p (List.mem_cons_self _ _)).1
    · exact ih (fun t' ht' => hps t' (List.mem_cons_of_mem _ ht')) (i + 1) t ht

theorem updateThunderstormFrom_getElem (M : MathLib α) (s : Settings α)
    (draws : ℕ → ColumnDraws α) :
    ∀ (ps : List (ColumnTracer α)) (j i : ℕ),
      (StormSystem.updateThunderstormFrom M s draws j ps)[i]?
        = (ps[i]?).map (StormSystem.updateThunderstormTracer M s (draws (j + i))) := by
  intro ps
  induction ps with
  | nil => intro j i; simp [StormSystem.updateThunderstormFrom]
  | cons p rest ih =>
    intro j i
    cases i with
    | zero => simp [StormSystem.updateThunderstormFrom]
    | succ k =>
      simp only [StormSystem.updateThunderstormFrom, List.getElem?_cons_succ, ih]
      have hk : j + 1 + k = j + (k + 1) := by omega
      rw [hk]

theorem updateThunderstormFrom_length (M : MathLib α) (s : Settings α)
    (draws : ℕ → ColumnDraws α) :
    ∀ (ps : List (ColumnTracer α)) (j : ℕ),
      (StormSystem.updateThunderstormFrom M s draws j ps).length = ps.length := by
  intro ps
  induction ps with
  | nil => intro j; rfl
  | cons p rest ih => intro j; simp [StormSystem.updateThunderstormFrom, ih]

theorem updateThunderstormTracer_rise (M : MathLib α) (s : Settings α) (d : ColumnDraws α)
    (p : ColumnTracer α) (h : fround (p.altitude + 0.04) ≤ 20) :
    StormSystem.updateThunderstormTracer M s d p
      = ⟨fround (p.altitude + 0.04),
          ⟨p.head.x, fround (fround (p.altitude + 0.04)), p.head.z⟩,
          ⟨p.tail.x, fround (fround (p.altitude + 0.04) - StormSystem.LINE_LENGTH),
            p.tail.z⟩⟩ := by
  have hn : ¬ (fround (p.altitude + 0.04) > 20) := not_lt.mpr h
  simp only [StormSystem.updateThunderstormTracer, maxY_eq,
    StormSystem.THUNDERSTORM_RISE_SPEED, if_neg hn]

theorem updateThunderstormTracer_reset (M : MathLib α) (s : Settings α) (d : ColumnDraws α)
    (p : ColumnTracer α) (h : 20 < fround (p.altitude + 0.04)) :
    StormSystem.updateThunderstormTracer M s d p
      = ⟨0,
          ⟨fround (s.thunderstormPosition.1 + M.cos (d.angle * M.PI * 2) * (d.r * 1.5)), 0,
            fround (s.thunderstormPosition.2 + M.sin (d.angle * M.PI * 2) * (d.r * 1.5))⟩,
          ⟨fround (s.thunderstormPosition.1 + M.cos (d.angle * M.PI * 2) * (d.r * 1.5)),
            fround (-StormSystem.LINE_LENGTH),
            fround (s.thunderstormPosition.2 + M.sin (d.angle * M.PI * 2) * (d.r * 1.5))⟩⟩ := by
  have hp : fround (p.altitude + 0.04) > 20 := h
  simp only [StormSystem.updateThunderstormTracer, maxY_eq,
    StormSystem.THUNDERSTORM_RISE_SPEED, if_pos hp, StormSystem.COLUMN_R, fround_zero]

/-- C22, as stated, fails: `altitudes` is a `Float32Array`.  With the real
`Math` functions, after `_buildThunderstorm` with every draw 0 the first
altitude is 0, and after one `_updateThunderstorm` it is the binary32 value of
0.04, which is 5368709 / 134217728 (0.0399999991...): the tracer was not
reset, and its altitude did not increase by exactly 0.04. -/
theorem thunderstorm_rise_inexact :
    ((StormSystem.buildThunderstorm
        ⟨Real.sin, Real.cos, Real.exp, Real.sqrt, fun y x => Complex.arg ⟨x, y⟩, Real.pi⟩
        ⟨"Florida", true, (0, 0), false, (0, 0), 3⟩
        (fun _ => ⟨0, 0, 0⟩)).tracers.map ColumnTracer.altitude)[0]? = some (0 : ℝ) ∧
    ((StormSystem.updateThunderstorm
        ⟨Real.sin, Real.cos, Real.exp, Real.sqrt, fun y x => Complex.arg ⟨x, y⟩, Real.pi⟩
        ⟨"Florida", true, (0, 0), false, (0, 0), 3⟩ (fun _ => ⟨0, 0, 0⟩) 0
        (StormSystem.buildThunderstorm
          ⟨Real.sin, Real.cos, Real.exp, Real.sqrt, fun y x => Complex.arg ⟨x, y⟩, Real.pi⟩
          ⟨"Florida", true, (0, 0), false, (0, 0), 3⟩
          (fun _ => ⟨0, 0, 0⟩))).tracers.map ColumnTracer.altitude)[0]?
      = some (5368709 / 134217728 : ℝ) ∧
    (5368709 / 134217728 : ℝ) ≠ 0 + 0.04 ∧ (5368709 / 134217728 : ℝ) ≠ 0 := by
  have h400 : 0 < StormSystem.THUNDERSTORM_PARTICLES := by decide
  refine ⟨?_, ?_, by norm_num, by norm_num⟩
  · simp only [StormSystem.buildThunderstorm, List.map_map, List.getElem?_map,
      List.getElem?_range h400, Option.map_some', Function.comp_apply,
      StormSystem.buildThunderstormTracer, zero_mul, fround_zero]
  · have hle : fround ((0 : ℝ) + 0.04) ≤ 20 := by
      rw [zero_add, fround_rise]
      norm_num
    simp only [StormSystem.updateThunderstorm, StormSystem.buildThunderstorm, List.getElem?_map,
      updateThunderstormFrom_getElem, List.getElem?_range h400, Option.map_some',
      StormSystem.buildThunderstormTracer, zero_mul, fround_zero]
    rw [updateThunderstormTracer_rise _ _ _ _ hle]
    simp only [zero_add, fround_rise]

/-- C22, amended: if every altitude is in [0, 20] before
`_updateThunderstorm`, then every altitude is in [0, 20] after it.  The method
keeps the number of tracers, and for tracer `i` with altitude `a`: when the
binary32 value of `a + THUNDERSTORM_RISE_SPEED = a + 0.04` is at most 20, that
value is the new altitude and the horizontal position is kept; exactly when it
is above 20 the tracer is reset to altitude 0, with head and tail at the
binary32 values of a point `centre + r (cos t, sin t)`, `r = draw * 1.5`,
which for a draw in [0, 1) and `cos² + sin² = 1` lies within the column radius
1.5 of the storm centre.  The binary32 value of `a + 0.04` differs from
`a + 0.04` by at most `(a + 0.04) / 2 ^ 24`. -/
theorem thunderstorm_column_loop (M : MathLib α) (s : Settings α)
    (htrig : ∀ t : α, M.cos t ^ 2 + M.sin t ^ 2 = 1) :
    (∀ (draws : ℕ → ColumnDraws α) (flicker : α) (data : ThunderstormData α),
      (∀ t ∈ data.tracers, 0 ≤ t.altitude ∧ t.altitude ≤ 20) →
      ∀ t ∈ (StormSystem.updateThunderstorm M s draws flicker data).tracers,
        0 ≤ t.altitude ∧ t.altitude ≤ 20) ∧
    (StormSystem.THUNDERSTORM_RISE_SPEED : α) = 0.04 ∧ (StormSystem.COLUMN_R : α) = 1.5 ∧
    (∀ (draws : ℕ → ColumnDraws α) (flicker : α) (data : ThunderstormData α),
      (StormSystem.updateThunderstorm M s draws flicker data).tracers.length
        = data.tracers.length ∧
      ∀ (i : ℕ) (p : ColumnTracer α), data.tracers[i]? = some p →
        ∃ q, (StormSystem.updateThunderstorm M s draws flicker data).tracers[i]? = some q ∧
          (fround (p.altitude + 0.04) ≤ 20 →
            q.altitude = fround (p.altitude + 0.04) ∧
            q.head.x = p.head.x ∧ q.head.z = p.head.z ∧
            q.tail.x = p.tail.x ∧ q.tail.z = p.tail.z) ∧
          (20 < fround (p.altitude + 0.04) → 0 ≤ (draws i).r → (draws i).r < 1 →
            q.altitude = 0 ∧
            ∃ nx nz : α,
              nx = s.thunderstormPosition.1
                + M.cos ((draws i).angle * M.PI * 2) * ((draws i).r * 1.5) ∧
              nz = s.thunderstormPosition.2
                + M.sin ((draws i).angle * M.PI * 2) * ((draws i).r * 1.5) ∧
              (nx - s.thunderstormPosition.1) ^ 2 + (nz - s.thunderstormPosition.2) ^ 2
                < 1.5 ^ 2 ∧
              q.head = ⟨fround nx, 0, fround nz⟩ ∧
              q.tail = ⟨fround nx, fround (-StormSystem.LINE_LENGTH), fround nz⟩)) ∧
    (∀ a : α, 0 ≤ a → |fround (a + 0.04) - (a + 0.04)| ≤ (a + 0.04) / 2 ^ 24) := by
  refine ⟨?_, rfl, rfl, ?_, ?_⟩
  · intro draws flicker data hdata t ht
    exact updateThunderstormFrom_altitude M s draws data.tracers hdata 0 t ht
  · intro draws flicker data
    refine ⟨updateThunderstormFrom_length M s draws data.tracers 0, ?_⟩
    intro i p hp
    refine ⟨StormSystem.updateThunderstormTracer M s (draws i) p, ?_, ?_, ?_⟩
    · show (StormSystem.updateThunderstormFrom M s draws 0 data.tracers)[i]? = _
      rw [updateThunderstormFrom_getElem M s draws data.tracers 0 i, hp, Nat.zero_add]
      rfl
    · intro h
      rw [updateThunderstormTracer_rise M s (draws i) p h]
      exact ⟨rfl, rfl, rfl, rfl, rfl⟩
    · intro h hr0 hr1
      rw [updateThunderstormTracer_reset M s (draws i) p h]
      refine ⟨rfl, _, _, rfl, rfl, ?_, rfl, rfl⟩
      have ht := htrig ((draws i).angle * M.PI * 2)
      have hsq : (s.thunderstormPosition.1
            + M.cos ((draws i).angle * M.PI * 2) * ((draws i).r * 1.5)
            - s.thunderstormPosition.1) ^ 2
          + (s.thunderstormPosition.2
            + M.sin ((draws i).angle * M.PI * 2) * ((draws i).r * 1.5)
            - s.thunderstormPosition.2) ^ 2
          = ((draws i).r * 1.5) ^ 2
            * (M.cos ((draws i).angle * M.PI * 2) ^ 2
              + M.sin ((draws i).angle * M.PI * 2) ^ 2) := by
        ring
      rw [hsq, ht, mul_one]
      have h15 : (0 : α) ≤ (draws i).r * 1.5 := mul_nonneg hr0 (by norm_num)
      have h15' : (draws i).r * 1.5 < 1.5 := by linarith
      nlinarith
  · intro a ha
    have hpos : (0 : α) < a + 0.04 := by linarith
    have h126 : (2 : α) ^ (-126 : ℤ) ≤ |a + 0.04| := by
      rw [abs_of_pos hpos]
      have h5 : (2 : α) ^ (-126 : ℤ) ≤ 0.04 := by norm_num
      linarith
    have h := fround_rel_error (a + 0.04) h126
    rw [abs_of_pos hpos] at h
    exact h

/-- C22, amended, with the real `Math` functions: a tracer at altitude 19.99
and the draw 1/2 for the radius. -/
theorem thunderstorm_column_loop_witness :
    (StormSystem.updateThunderstorm
        ⟨Real.sin, Real.cos, Real.exp, Real.sqrt, fun y x => Complex.arg ⟨x, y⟩, Real.pi⟩
        ⟨"Florida", true, (0, 0), false, (0, 0), 3⟩ (fun _ => ⟨1 / 4, 1 / 2, 0⟩) 0
        ⟨[⟨19.99, ⟨1, 19.99, 0⟩, ⟨1, 19.39, 0⟩⟩], 0, none⟩).tracers.length
      = [(⟨19.99, ⟨1, 19.99, 0⟩, ⟨1, 19.39, 0⟩⟩ : ColumnTracer ℝ)].length :=
  ((thunderstorm_column_loop
    ⟨Real.sin, Real.cos, Real.exp, Real.sqrt, fun y x => Complex.arg ⟨x, y⟩, Real.pi⟩
    ⟨"Florida", true, (0, 0), false, (0, 0), 3⟩
    (fun t => Real.cos_sq_add_sin_sq t)).2.2.2.1 (fun _ => ⟨1 / 4, 1 / 2, 0⟩) 0
    ⟨[⟨19.99, ⟨1, 19.99, 0⟩, ⟨1, 19.39, 0⟩⟩], 0, none⟩).1

/-- C28, as stated, fails: `speeds` is a `Float32Array`.  With the real `Math`
functions, `_buildHurricane` with every draw 0 stores for the first tracer the
binary32 value of `0.7 + 0 * 0.6`, which is 11744051 / 16777216
(0.699999988...), below 0.7. -/
theorem hurricane_multiplier_below_range :
    ((StormSystem.buildHurricane
        ⟨Real.sin, Real.cos, Real.exp, Real.sqrt, fun y x => Complex.arg ⟨x, y⟩, Real.pi⟩
        ⟨"Florida", false, (0, 0), true, (0, 0), 3⟩
        (fun _ => ⟨0, 0, 0, 0⟩)).map SpiralTracer.speed)[0]?
      = some (11744051 / 16777216 : ℝ) ∧
    (11744051 / 16777216 : ℝ) < 0.7 := by
  have h600 : 0 < StormSystem.HURRICANE_PARTICLES := by decide
  refine ⟨?_, by norm_num⟩
  simp only [StormSystem.buildHurricane, List.map_map, List.getElem?_map,
    List.getElem?_range h600, Option.map_some', Function.comp_apply,
    StormSystem.buildHurricaneTracer, zero_mul, add_zero, fround_seven_tenths]

theorem updateHurricane_getElem (M : MathLib α) (s : Settings α) (time : α)
    (ps : List (SpiralTracer α)) (i : ℕ) :
    (StormSystem.updateHurricane M s time ps)[i]?
      = (ps[i]?).map (StormSystem.updateHurricaneTracer M s time) := by
  simp only [StormSystem.updateHurricane, List.getElem?_map]

/-- C28, amended: `_updateHurricane` replaces every angle by the binary32
value of `angle + HURRICANE_ROTATION_SPEED * speeds[i]` (0.008 times the
multiplier) and keeps every radius and multiplier.  When `cos² + sin² = 1` and
`Math.sqrt` is the non-negative square root, the head of tracer `i` is stored
at the binary32 values of a point at horizontal distance `|radii[i]|` from the
hurricane centre, and the tail at the height of the head and at the binary32
values of the point at distance `LINE_LENGTH = 0.6` from that point, in a
direction orthogonal to the radius.  The conversion moves a normal number by
at most the fraction `2 ^ (-24)` of its magnitude.  `_buildHurricane` creates
600 tracers, and a multiplier built from a draw in [0, 1) lies between
11744051 / 2 ^ 24, the binary32 value of 0.7, and 1.3 (excluded). -/
theorem hurricane_spiral_tick (M : MathLib α) (s : Settings α) (time : α)
    (htrig : ∀ t : α, M.cos t ^ 2 + M.sin t ^ 2 = 1)
    (hsqrt : ∀ t : α, 0 ≤ t → 0 ≤ M.sqrt t ∧ M.sqrt t * M.sqrt t = t) :
    (∀ ps : List (SpiralTracer α),
      (StormSystem.updateHurricane M s time ps).map SpiralTracer.angle
        = ps.map (fun p => fround (p.angle + 0.008 * p.speed)) ∧
      (StormSystem.updateHurricane M s time ps).map (fun q => (q.radius, q.speed))
        = ps.map (fun q => (q.radius, q.speed))) ∧
    (∀ (ps : List (SpiralTracer α)) (i : ℕ) (p : SpiralTracer α), ps[i]? = some p →
      ∃ (q : SpiralTracer α) (hx hz : α),
        (StormSystem.updateHurricane M s time ps)[i]? = some q ∧
        q.angle = fround (p.angle + 0.008 * p.speed) ∧
        q.radius = p.radius ∧ q.speed = p.speed ∧
        hx = s.hurricanePosition.1 + M.cos q.angle * p.radius ∧
        hz = s.hurricanePosition.2 + M.sin q.angle * p.radius ∧
        q.head = ⟨fround hx, fround (p.head.y + M.sin (time * 0.5 + q.angle) * 0.01),
          fround hz⟩ ∧
        calculateDistance M (hx, hz) s.hurricanePosition = |p.radius| ∧
        q.tail = ⟨fround (hx + M.sin q.angle * 0.6), q.head.y,
          fround (hz - M.cos q.angle * 0.6)⟩ ∧
        calculateDistance M (hx + M.sin q.angle * 0.6, hz - M.cos q.angle * 0.6) (hx, hz)
          = 0.6 ∧
        (M.sin q.angle * 0.6) * (hx - s.hurricanePosition.1)
          + (-(M.cos q.angle * 0.6)) * (hz - s.hurricanePosition.2) = 0) ∧
    (∀ x : α, (2 : α) ^ (-126 : ℤ) ≤ |x| → |fround x - x| ≤ |x| / 2 ^ 24) ∧
    (∀ draws : ℕ → SpiralDraws α, (∀ i, 0 ≤ (draws i).speed ∧ (draws i).speed < 1) →
      (StormSystem.buildHurricane M s draws).length = 600 ∧
      ∀ q ∈ StormSystem.buildHurricane M s draws,
        11744051 / 16777216 ≤ q.speed ∧ q.speed < 1.3) := by
  refine ⟨?_, ?_, fround_rel_error, ?_⟩
  · intro ps
    constructor
    · simp only [StormSystem.updateHurricane, List.map_map]
      rfl
    · simp only [StormSystem.updateHurricane, List.map_map]
      rfl
  · intro ps i p hp
    have ht := htrig (fround (p.angle + 0.008 * p.speed))
    refine ⟨StormSystem.updateHurricaneTracer M s time p,
      s.hurricanePosition.1 + M.cos (fround (p.angle + 0.008 * p.speed)) * p.radius,
      s.hurricanePosition.2 + M.sin (fround (p.angle + 0.008 * p.speed)) * p.radius,
      ?_, rfl, rfl, rfl, rfl, rfl, rfl, ?_, rfl, ?_, ?_⟩
    · rw [updateHurricane_getElem, hp]
      rfl
    · simp only [calculateDistance]
      have hsq : (s.hurricanePosition.1
            + M.cos (fround (p.angle + 0.008 * p.speed)) * p.radius
            - s.hurricanePosition.1) ^ 2
          + (s.hurricanePosition.2
            + M.sin (fround (p.angle + 0.008 * p.speed)) * p.radius
            - s.hurricanePosition.2) ^ 2
          = p.radius * p.radius * (M.cos (fround (p.angle + 0.008 * p.speed)) ^ 2
              + M.sin (fround (p.angle + 0.008 * p.speed)) ^ 2) := by
        ring
      rw [hsq, ht, mul_one]
      exact sqrt_mul_self_of_sound M hsqrt p.radius
    · simp only [calculateDistance, StormSystem.updateHurricaneTracer,
        StormSystem.HURRICANE_ROTATION_SPEED]
      have hsq : (s.hurricanePosition.1
            + M.cos (fround (p.angle + 0.008 * p.speed)) * p.radius
            + M.sin (fround (p.angle + 0.008 * p.speed)) * 0.6
            - (s.hurricanePosition.1
              + M.cos (fround (p.angle + 0.008 * p.speed)) * p.radius)) ^ 2
          + (s.hurricanePosition.2
            + M.sin (fround (p.angle + 0.008 * p.speed)) * p.radius
            - M.cos (fround (p.angle + 0.008 * p.speed)) * 0.6
            - (s.hurricanePosition.2
              + M.sin (fround (p.angle + 0.008 * p.speed)) * p.radius)) ^ 2
          = 0.6 * 0.6 * (M.cos (fround (p.angle + 0.008 * p.speed)) ^ 2
              + M.sin (fround (p.angle + 0.008 * p.speed)) ^ 2) := by
        ring
      rw [hsq, ht, mul_one, sqrt_mul_self_of_sound M hsqrt]
      exact abs_of_pos (by norm_num)
    · simp only [StormSystem.updateHurricaneTracer, StormSystem.HURRICANE_ROTATION_SPEED]
      ring
  · intro draws hdraws
    constructor
    · simp only [StormSystem.buildHurricane, List.length_map, List.length_range,
        StormSystem.HURRICANE_PARTICLES]
    · intro q hq
      simp only [StormSystem.buildHurricane, List.mem_map, List.mem_range] at hq
      obtain ⟨i, -, rfl⟩ := hq
      obtain ⟨h0, h1⟩ := hdraws i
      have hb := fround_multiplier_bounds (0.7 + (draws i).speed * 0.6) (by linarith)
        (by linarith)
      have hlt : (10905190 : α) / 8388608 < 1.3 := by norm_num
      exact ⟨hb.1, lt_of_le_of_lt hb.2 hlt⟩

/-- C28, amended, with the real `Math` functions: every draw 1/2, a hurricane
of intensity 3 at (1, 1). -/
theorem hurricane_spiral_tick_witness :
    (StormSystem.buildHurricane
        ⟨Real.sin, Real.cos, Real.exp, Real.sqrt, fun y x => Complex.arg ⟨x, y⟩, Real.pi⟩
        ⟨"Florida", false, (0, 0), true, (1, 1), 3⟩
        (fun _ => ⟨1 / 2, 1 / 2, 1 / 2, 1 / 2⟩)).length = 600 :=
  ((hurricane_spiral_tick
    ⟨Real.sin, Real.cos, Real.exp, Real.sqrt, fun y x => Complex.arg ⟨x, y⟩, Real.pi⟩
    ⟨"Florida", false, (0, 0), true, (1, 1), 3⟩ 0
    (fun t => Real.cos_sq_add_sin_sq t)
    (fun t ht => ⟨Real.sqrt_nonneg t, Real.mul_self_sqrt ht⟩)).2.2.2
    (fun _ => ⟨1 / 2, 1 / 2, 1 / 2, 1 / 2⟩) (fun _ => ⟨by norm_num, by norm_num⟩)).1

end StormParticles

section GridSamples

variable {α : Type} [LinearOrderedField α] [FloorRing α]

theorem gridAxis_eq : gridAxis = [-9, -7, -5, -3, -1, 1, 3, 5, 7, 9] := by decide

theorem gridLevels_eq : gridLevels = [0, 1, 2, 3, 4, 5, 6, 7, 8, 9] := by decide

theorem gridAxis_nodup : gridAxis.Nodup := by
  rw [gridAxis_eq]
  decide

theorem gridLevels_nodup : gridLevels.Nodup := by
  rw [gridLevels_eq]
  decide

theorem gridCells_nodup : gridCells.Nodup := by
  unfold gridCells
  rw [List.nodup_flatMap]
  refine ⟨fun x _ => ?_, gridAxis_nodup.imp ?_⟩
  · rw [List.nodup_flatMap]
    refine ⟨fun y _ => ?_, gridLevels_nodup.imp ?_⟩
    · refine gridAxis_nodup.map ?_
      intro z1 z2 h
      simp only [Prod.mk.injEq] at h
      exact h.2.2
    · intro y1 y2 hne
      simp only [Function.onFun, List.disjoint_left, List.mem_map]
      rintro k ⟨z1, -, rfl⟩ ⟨z2, -, h⟩
      simp only [Prod.mk.injEq] at h
      exact hne h.2.1.symm
  · intro x1 x2 hne
    simp only [Function.onFun, List.disjoint_left, List.mem_flatMap, List.mem_map]
    rintro k ⟨y1, -, z1, -, rfl⟩ ⟨y2, -, z2, -, h⟩
    simp only [Prod.mk.injEq] at h
    exact hne h.1.symm

theorem gridKeys_nodup : gridKeys.Nodup := by
  unfold gridKeys
  refine gridCells_nodup.map ?_
  rintro ⟨x1, y1, z1⟩ ⟨x2, y2, z2⟩ h
  simp only [Prod.mk.injEq, GRID_SPACING] at h
  obtain ⟨hx, hy, hz⟩ := h
  have hy2 : y1 = y2 := by omega
  rw [hx, hy2, hz]

theorem length_filter_eq_of_nodup {β : Type} [DecidableEq β] (k : β) :
    ∀ l : List β, l.Nodup →
      (l.filter (fun p => decide (p = k))).length = if k ∈ l then 1 else 0 := by
  intro l
  induction l with
  | nil => intro _; rfl
  | cons x rest ih =>
    intro h
    rw [List.nodup_cons] at h
    by_cases hx : x = k
    · subst hx
      have hnot : ¬ (x ∈ rest) := h.1
      have h0 := ih h.2
      rw [if_neg hnot] at h0
      simp only [List.filter_cons, decide_True, if_true, List.length_cons, h0,
        List.mem_cons, true_or]
    · have hk : k ≠ x := fun e => hx e.symm
      simp only [List.filter_cons, hx, decide_False, Bool.false_eq_true, if_false, ih h.2,
        List.mem_cons, hk, false_or]

theorem gridKeys_length : gridKeys.length = 1000 := by
  rw [gridKeys, List.length_map, gridCells_length]

/-- C29: for a region of the catalogue `generateGrid` returns a field whose
cube positions are the list `gridKeys`; the number of cubes at a coordinate
`(x, y, z)` is one when `x` and `z` are in {-9, -7, ..., 9} and `y` is in
{0, 2, ..., 18}, and zero otherwise; there are 1000 cubes, with
pairwise distinct positions; every position has `x` and `z` between `-RANGE`
and `RANGE` at a multiple of `SPACING` from `-RANGE`, and `y = SPACING * level`
with `0 ≤ level < FLIGHT_LEVELS.COUNT`; 1000 is at most
`ArrowSystem.INSTANCE_COUNT`, and `ArrowSystem.update` writes one instance for
each cube. -/
theorem generateGrid_one_sample_per_cell (M : MathLib α) (s : Settings α) (c : Clock)
    (rand : GridKey → CellDraws α) (a : AppState α) (hs : s.state ∈ stateNames) :
    ∃ a2 : AppState α, generateGrid M s c rand a = Except.ok a2 ∧
      a2.windCubes.map Cube.position = gridKeys ∧
      (∀ k : GridKey,
        ((a2.windCubes.map Cube.position).filter (fun p => decide (p = k))).length
        = if k.1 ∈ [-9, -7, -5, -3, -1, 1, 3, 5, 7, 9]
            ∧ k.2.1 ∈ [0, 2, 4, 6, 8, 10, 12, 14, 16, 18]
            ∧ k.2.2 ∈ [-9, -7, -5, -3, -1, 1, 3, 5, 7, 9] then 1 else 0) ∧
      a2.windCubes.length = 1000 ∧
      (a2.windCubes.map Cube.position).Nodup ∧
      (∀ k ∈ a2.windCubes.map Cube.position,
        (-GRID_RANGE ≤ k.1 ∧ k.1 ≤ GRID_RANGE ∧ (k.1 + GRID_RANGE) % GRID_SPACING = 0) ∧
        (-GRID_RANGE ≤ k.2.2 ∧ k.2.2 ≤ GRID_RANGE ∧ (k.2.2 + GRID_RANGE) % GRID_SPACING = 0) ∧
        ∃ level : ℤ, 0 ≤ level ∧ level < FLIGHT_LEVELS_COUNT ∧ k.2.1 = level * GRID_SPACING) ∧
      a2.windCubes.length ≤ ArrowSystem.INSTANCE_COUNT ∧
      ∀ (v : Option α) (t : α),
        (ArrowSystem.update M v t a2.windCubes).length = a2.windCubes.length := by
  obtain ⟨e, d, -, hd, -⟩ := getStateData_known M s.state hs
  have hpos : (gridCells.map (cellCube M s c rand d.windPattern)).map Cube.position = gridKeys :=
    cellCube_position M s c rand d.windPattern gridCells
  have hlen : (gridCells.map (cellCube M s c rand d.windPattern)).length = 1000 := by
    rw [List.length_map, gridCells_length]
  have hmem : ∀ k : GridKey, k ∈ gridKeys ↔
      k.1 ∈ [-9, -7, -5, -3, -1, 1, 3, 5, 7, 9]
        ∧ k.2.1 ∈ [0, 2, 4, 6, 8, 10, 12, 14, 16, 18]
        ∧ k.2.2 ∈ [-9, -7, -5, -3, -1, 1, 3, 5, 7, 9] := by
    intro k
    rw [mem_gridKeys, gridAxis_eq, gridLevels_eq]
    constructor
    · rintro ⟨hx, ⟨y, hy, hk⟩, hz⟩
      refine ⟨hx, ?_, hz⟩
      rw [hk]
      simp only [List.mem_cons, List.mem_singleton, List.not_mem_nil, or_false] at hy
      rcases hy with rfl | rfl | rfl | rfl | rfl | rfl | rfl | rfl | rfl | rfl <;> decide
    · rintro ⟨hx, hy, hz⟩
      refine ⟨hx, ?_, hz⟩
      simp only [List.mem_cons, List.mem_singleton, List.not_mem_nil, or_false] at hy
      rcases hy with h | h | h | h | h | h | h | h | h | h
      · exact ⟨0, by decide, by rw [h]; decide⟩
      · exact ⟨1, by decide, by rw [h]; decide⟩
      · exact ⟨2, by decide, by rw [h]; decide⟩
      · exact ⟨3, by decide, by rw [h]; decide⟩
      · exact ⟨4, by decide, by rw [h]; decide⟩
      · exact ⟨5, by decide, by rw [h]; decide⟩
      · exact ⟨6, by decide, by rw [h]; decide⟩
      · exact ⟨7, by decide, by rw [h]; decide⟩
      · exact ⟨8, by decide, by rw [h]; decide⟩
      · exact ⟨9, by decide, by rw [h]; decide⟩
  refine ⟨_, generateGrid_known M s c rand d hd a, hpos, ?_, hlen, ?_, ?_, ?_, ?_⟩
  · intro k
    show (((gridCells.map (cellCube M s c rand d.windPattern)).map Cube.position).filter
      (fun p => decide (p = k))).length = _
    rw [hpos, length_filter_eq_of_nodup k gridKeys gridKeys_nodup]
    by_cases hk : k ∈ gridKeys
    · rw [if_pos hk, if_pos ((hmem k).mp hk)]
    · rw [if_neg hk, if_neg (fun h => hk ((hmem k).mpr h))]
  · show ((gridCells.map (cellCube M s c rand d.windPattern)).map Cube.position).Nodup
    rw [hpos]
    exact gridKeys_nodup
  · intro k hk
    have hk2 : k ∈ gridKeys := by rw [← hpos]; exact hk
    obtain ⟨hx, hy, hz⟩ := (hmem k).mp hk2
    simp only [List.mem_cons, List.mem_singleton, List.not_mem_nil, or_false] at hx hy hz
    simp only [GRID_RANGE, GRID_SPACING, FLIGHT_LEVELS_COUNT]
    refine ⟨by omega, by omega, ⟨k.2.1 / 2, by omega, by omega, by omega⟩⟩
  · show (gridCells.map (cellCube M s c rand d.windPattern)).length ≤ ArrowSystem.INSTANCE_COUNT
    rw [hlen]
    exact le_refl 1000
  · intro v t
    show (ArrowSystem.update M v t (gridCells.map (cellCube M s c rand d.windPattern))).length
      = (gridCells.map (cellCube M s c rand d.windPattern)).length
    simp only [ArrowSystem.update, List.length_map, List.length_take, gridCells_length,
      ArrowSystem.INSTANCE_COUNT, min_self]

/-- C29, with the real `Math` functions, for Florida. -/
theorem generateGrid_one_sample_per_cell_witness :
    ∃ a2 : AppState ℝ,
      generateGrid
          ⟨Real.sin, Real.cos, Real.exp, Real.sqrt, fun y x => Complex.arg ⟨x, y⟩, Real.pi⟩
          (defaultSettings : Settings ℝ) ⟨1703980800000, 1672444800000, 6⟩ (fun _ => ⟨0, 0⟩)
          ⟨[], none⟩ = Except.ok a2 ∧
        a2.windCubes.length = 1000 :=
  match generateGrid_one_sample_per_cell
    ⟨Real.sin, Real.cos, Real.exp, Real.sqrt, fun y x => Complex.arg ⟨x, y⟩, Real.pi⟩
    (defaultSettings : Settings ℝ) ⟨1703980800000, 1672444800000, 6⟩ (fun _ => ⟨0, 0⟩)
    ⟨[], none⟩ (by decide) with
  | ⟨a2, h1, _, _, h4, _⟩ => ⟨a2, h1, h4⟩

end GridSamples

section GlyphWobble

variable {α : Type} [LinearOrderedField α]

theorem Vec3.normalize_unit (M : MathLib α)
    (hsqrt : ∀ t : α, 0 ≤ t → 0 ≤ M.sqrt t ∧ M.sqrt t * M.sqrt t = t) (v : Vec3 α)
    (hv : v.x * v.x + v.y * v.y + v.z * v.z = 1) : v.normalize M = v := by
  have hl : v.length M = 1 := by
    unfold Vec3.length
    rw [hv]
    exact sqrt_one_of_sound M hsqrt
  simp only [Vec3.normalize, hl, one_ne_zero, if_false, div_one, mul_one]

theorem applyAxisAngle_vertical (M : MathLib α) (v : Vec3 α) (phi : α) :
    Vec3.applyAxisAngle M v ⟨0, 1, 0⟩ phi
      = ⟨v.x * (1 - 2 * M.sin (phi / 2) ^ 2) + 2 * M.cos (phi / 2) * M.sin (phi / 2) * v.z,
          v.y,
          v.z * (1 - 2 * M.sin (phi / 2) ^ 2) - 2 * M.cos (phi / 2) * M.sin (phi / 2) * v.x⟩ := by
  simp only [Vec3.applyAxisAngle, Vec3.mk.injEq]
  refine ⟨by ring, by ring, by ring⟩

theorem wobbled_unit (M : MathLib α)
    (htrig : ∀ t : α, M.cos t ^ 2 + M.sin t ^ 2 = 1)
    (hsqrt : ∀ t : α, 0 ≤ t → 0 ≤ M.sqrt t ∧ M.sqrt t * M.sqrt t = t) (d : Vec3 α)
    (hd : d.x * d.x + d.y * d.y + d.z * d.z = 1) (phi : α) :
    ArrowSystem.wobbled M d phi
      = ⟨d.x * (1 - 2 * M.sin (phi / 2) ^ 2) + 2 * M.cos (phi / 2) * M.sin (phi / 2) * d.z,
          d.y,
          d.z * (1 - 2 * M.sin (phi / 2) ^ 2) - 2 * M.cos (phi / 2) * M.sin (phi / 2) * d.x⟩ := by
  have ht := htrig (phi / 2)
  unfold ArrowSystem.wobbled
  rw [Vec3.normalize_unit M hsqrt d hd, applyAxisAngle_vertical]
  apply Vec3.normalize_unit M hsqrt
  simp only
  have hc : M.cos (phi / 2) ^ 2 = 1 - M.sin (phi / 2) ^ 2 := by linarith
  have key : (d.x * (1 - 2 * M.sin (phi / 2) ^ 2) + 2 * M.cos (phi / 2) * M.sin (phi / 2) * d.z)
        * (d.x * (1 - 2 * M.sin (phi / 2) ^ 2) + 2 * M.cos (phi / 2) * M.sin (phi / 2) * d.z)
      + d.y * d.y
      + (d.z * (1 - 2 * M.sin (phi / 2) ^ 2) - 2 * M.cos (phi / 2) * M.sin (phi / 2) * d.x)
        * (d.z * (1 - 2 * M.sin (phi / 2) ^ 2) - 2 * M.cos (phi / 2) * M.sin (phi / 2) * d.x)
      = (d.x * d.x + d.z * d.z)
          * ((1 - 2 * M.sin (phi / 2) ^ 2) ^ 2
            + 4 * M.cos (phi / 2) ^ 2 * M.sin (phi / 2) ^ 2) + d.y * d.y := by
    ring
  rw [key, hc]
  have h1 : (1 - 2 * M.sin (phi / 2) ^ 2) ^ 2
      + 4 * (1 - M.sin (phi / 2) ^ 2) * M.sin (phi / 2) ^ 2 = 1 := by ring
  rw [h1, mul_one]
  linarith

theorem abs_sin_le_one_of_trig (M : MathLib α)
    (htrig : ∀ t : α, M.cos t ^ 2 + M.sin t ^ 2 = 1) (t : α) : |M.sin t| ≤ 1 := by
  have h := htrig t
  rw [abs_le]
  constructor
  · nlinarith [sq_nonneg (M.cos t), sq_nonneg (M.sin t + 1), sq_nonneg (M.sin t - 1)]
  · nlinarith [sq_nonneg (M.cos t), sq_nonneg (M.sin t + 1), sq_nonneg (M.sin t - 1)]

/-- C23: when `cos² + sin² = 1` and `Math.sqrt` is the non-negative square
root, then for a wind direction `d` of length 1 and every wobble angle `phi`
the vector `wobbled` of `ArrowSystem.update` has the vertical component of `d`
and the horizontal magnitude of `d` (the same `x² + z²`, and so the same
square root of it); and for a stored speed between 5 and 100 the wobble angle
`phaseOffset` has absolute value at most `0.08 * speed / 100`, which is at
most 0.08. -/
theorem wobble_bearing_only (M : MathLib α)
    (htrig : ∀ t : α, M.cos t ^ 2 + M.sin t ^ 2 = 1)
    (hsqrt : ∀ t : α, 0 ≤ t → 0 ≤ M.sqrt t ∧ M.sqrt t * M.sqrt t = t) (d : Vec3 α)
    (hd : d.x * d.x + d.y * d.y + d.z * d.z = 1) (phi : α) :
    (ArrowSystem.wobbled M d phi).y = d.y ∧
    (ArrowSystem.wobbled M d phi).x ^ 2 + (ArrowSystem.wobbled M d phi).z ^ 2
      = d.x ^ 2 + d.z ^ 2 ∧
    M.sqrt ((ArrowSystem.wobbled M d phi).x ^ 2 + (ArrowSystem.wobbled M d phi).z ^ 2)
      = M.sqrt (d.x ^ 2 + d.z ^ 2) ∧
    (∀ t x z speed : α, 5 ≤ speed → speed ≤ 100 →
      |ArrowSystem.phaseOffset M t x z speed| ≤ 0.08 * speed / 100 ∧
      0.08 * speed / 100 ≤ 0.08) := by
  have ht := htrig (phi / 2)
  have hw := wobbled_unit M htrig hsqrt d hd phi
  have hc : M.cos (phi / 2) ^ 2 = 1 - M.sin (phi / 2) ^ 2 := by linarith
  have hsq : (ArrowSystem.wobbled M d phi).x ^ 2 + (ArrowSystem.wobbled M d phi).z ^ 2
      = d.x ^ 2 + d.z ^ 2 := by
    rw [hw]
    simp only
    have key : (d.x * (1 - 2 * M.sin (phi / 2) ^ 2)
          + 2 * M.cos (phi / 2) * M.sin (phi / 2) * d.z) ^ 2
        + (d.z * (1 - 2 * M.sin (phi / 2) ^ 2)
          - 2 * M.cos (phi / 2) * M.sin (phi / 2) * d.x) ^ 2
        = (d.x ^ 2 + d.z ^ 2)
            * ((1 - 2 * M.sin (phi / 2) ^ 2) ^ 2
              + 4 * M.cos (phi / 2) ^ 2 * M.sin (phi / 2) ^ 2) := by
      ring
    rw [key, hc]
    have h1 : (1 - 2 * M.sin (phi / 2) ^ 2) ^ 2
        + 4 * (1 - M.sin (phi / 2) ^ 2) * M.sin (phi / 2) ^ 2 = 1 := by ring
    rw [h1, mul_one]
  refine ⟨by rw [hw], hsq, by rw [hsq], ?_⟩
  intro t x z speed h5 h100
  have hs := abs_sin_le_one_of_trig M htrig (t * 0.4 + x * 0.31 + z * 0.17)
  have hpos : (0 : α) ≤ 0.08 * (speed / 100) := by
    apply mul_nonneg (by norm_num)
    apply div_nonneg (by linarith) (by norm_num)
  constructor
  · have he : ArrowSystem.phaseOffset M t x z speed
        = M.sin (t * 0.4 + x * 0.31 + z * 0.17) * (0.08 * (speed / 100)) := by
      simp only [ArrowSystem.phaseOffset, SPEED_MAX]
      ring
    rw [he, abs_mul, abs_of_nonneg hpos]
    have h2 : |M.sin (t * 0.4 + x * 0.31 + z * 0.17)| * (0.08 * (speed / 100))
        ≤ 1 * (0.08 * (speed / 100)) := mul_le_mul_of_nonneg_right hs hpos
    have h3 : (1 : α) * (0.08 * (speed / 100)) = 0.08 * speed / 100 := by ring
    linarith
  · have h4 : (0.08 : α) * speed / 100 = 0.08 * (speed / 100) := by ring
    rw [h4]
    have h5 : speed / 100 ≤ 1 := by
      rw [div_le_one (by norm_num)]
      exact h100
    have h6 : (0.08 : α) * (speed / 100) ≤ 0.08 * 1 := mul_le_mul_of_nonneg_left h5 (by norm_num)
    linarith

/-- C23, with the real `Math` functions: the direction (3/5, 4/5, 0) and the
wobble angle 1. -/
theorem wobble_bearing_only_witness :
    (ArrowSystem.wobbled
      ⟨Real.sin, Real.cos, Real.exp, Real.sqrt, fun y x => Complex.arg ⟨x, y⟩, Real.pi⟩
      ⟨3 / 5, 4 / 5, 0⟩ 1).y = (4 / 5 : ℝ) :=
  (wobble_bearing_only
    ⟨Real.sin, Real.cos, Real.exp, Real.sqrt, fun y x => Complex.arg ⟨x, y⟩, Real.pi⟩
    (fun t => Real.cos_sq_add_sin_sq t)
    (fun t ht => ⟨Real.sqrt_nonneg t, Real.mul_self_sqrt ht⟩)
    ⟨3 / 5, 4 / 5, 0⟩ (by norm_num) 1).1

end GlyphWobble

end WindVector
